import Mathlib

/-!
Verification model of the schengen wire codec (`src/protocol.rs`) and of the
server-side screen-topology builder.

Byte buffers are modelled as `List Nat`, one entry per `u8`.  Rust `String`
values are modelled by their UTF-8 byte content (`List Nat`); two Rust strings
are equal iff their byte lists are equal.  `usize` is modelled as `Nat`; every
`as u32` cast is modelled by reduction modulo `2 ^ 32` at the point where it
occurs.  `i16` values are modelled as `Int` with two's-complement byte
encoding.  Fallible Rust functions returning `Result` are modelled with
`Except`.
-/

/-- Byte buffers: one `Nat` per `u8` of the Rust slice. -/
abbrev Bytes := List Nat

/-- Byte at an index, defaulting to 0; every use is guarded by the explicit
length checks that mirror the Rust bounds checks. -/
def byteAt (data : Bytes) (i : Nat) : Nat := data.getD i 0

/-- Value of the 2-byte big-endian integer starting at `off`. -/
def u16val (data : Bytes) (off : Nat) : Nat :=
  byteAt data off * 256 + byteAt data (off + 1)

/-- Value of the 4-byte big-endian integer starting at `off`. -/
def u32val (data : Bytes) (off : Nat) : Nat :=
  byteAt data off * 16777216 + byteAt data (off + 1) * 65536 +
    byteAt data (off + 2) * 256 + byteAt data (off + 3)

/-- Signed interpretation (`i16::from_be_bytes`) of the 2 bytes at `off`. -/
def i16val (data : Bytes) (off : Nat) : Int :=
  if u16val data off < 32768 then (u16val data off : Int)
  else (u16val data off : Int) - 65536

/-- Big-endian bytes of a `u16` (`u16::to_be_bytes`). -/
def u16be (n : Nat) : Bytes := [n / 256 % 256, n % 256]

/-- Big-endian bytes of a `u32` (`u32::to_be_bytes`).  The digits only depend
on `n % 2 ^ 32`, so this also absorbs a preceding `as u32` cast. -/
def u32be (n : Nat) : Bytes :=
  [n / 16777216 % 256, n / 65536 % 256, n / 256 % 256, n % 256]

/-- Big-endian bytes of an `i16` (`i16::to_be_bytes`) via its two's-complement
bit pattern. -/
def i16be (v : Int) : Bytes := u16be (v % 65536).toNat

/-- Model of `ProtocolError` from `src/protocol.rs`.  The `String` payload of
`UnknownMessageCode` is modelled by its byte content. -/
inductive ProtocolError where
  | insufficientData (expected : Nat) (actual : Nat)
  | unknownMessageCode (code : Bytes)
  | invalidUtf8
  | invalidMessageCode
  | invalidData (msg : String)
  deriving DecidableEq

instance {ε α : Type} [DecidableEq ε] [DecidableEq α] : DecidableEq (Except ε α)
  | .ok a, .ok b =>
    if h : a = b then .isTrue (by rw [h]) else .isFalse (by intro hc; cases hc; exact h rfl)
  | .error a, .error b =>
    if h : a = b then .isTrue (by rw [h]) else .isFalse (by intro hc; cases hc; exact h rfl)
  | .ok _, .error _ => .isFalse (by intro hc; cases hc)
  | .error _, .ok _ => .isFalse (by intro hc; cases hc)

/-- Model of the helper `read_u8` (`data.get(offset)` with `ok_or`). -/
def read_u8 (data : Bytes) (offset : Nat) : Except ProtocolError Nat :=
  if data.length < offset + 1 then
    .error (.insufficientData (offset + 1) data.length)
  else .ok (byteAt data offset)

/-- Model of the helper `read_u16`. -/
def read_u16 (data : Bytes) (offset : Nat) : Except ProtocolError Nat :=
  if data.length < offset + 2 then
    .error (.insufficientData (offset + 2) data.length)
  else .ok (u16val data offset)

/-- Model of the helper `read_i16`. -/
def read_i16 (data : Bytes) (offset : Nat) : Except ProtocolError Int :=
  if data.length < offset + 2 then
    .error (.insufficientData (offset + 2) data.length)
  else .ok (i16val data offset)

/-- Model of the helper `read_u32`. -/
def read_u32 (data : Bytes) (offset : Nat) : Except ProtocolError Nat :=
  if data.length < offset + 4 then
    .error (.insufficientData (offset + 4) data.length)
  else .ok (u32val data offset)

/-- Continuation byte of a UTF-8 sequence (`0x80..=0xBF`). -/
def contB (b : Nat) : Bool := 128 ≤ b && b ≤ 191

/-- Well-formed UTF-8, as accepted by Rust's `std::str::from_utf8` /
`String::from_utf8` (RFC 3629: no surrogates, no overlong forms, max
`U+10FFFF`). -/
def validUtf8 : List Nat → Bool
  | [] => true
  | b0 :: rest =>
    if b0 ≤ 127 then validUtf8 rest
    else match rest with
      | [] => false
      | b1 :: r1 =>
        if 194 ≤ b0 && b0 ≤ 223 then contB b1 && validUtf8 r1
        else match r1 with
          | [] => false
          | b2 :: r2 =>
            if b0 = 224 then (160 ≤ b1 && b1 ≤ 191) && contB b2 && validUtf8 r2
            else if 225 ≤ b0 && b0 ≤ 236 then contB b1 && contB b2 && validUtf8 r2
            else if b0 = 237 then (128 ≤ b1 && b1 ≤ 159) && contB b2 && validUtf8 r2
            else if 238 ≤ b0 && b0 ≤ 239 then contB b1 && contB b2 && validUtf8 r2
            else match r2 with
              | [] => false
              | b3 :: r3 =>
                if b0 = 240 then (144 ≤ b1 && b1 ≤ 191) && contB b2 && contB b3 && validUtf8 r3
                else if 241 ≤ b0 && b0 ≤ 243 then contB b1 && contB b2 && contB b3 && validUtf8 r3
                else if b0 = 244 then (128 ≤ b1 && b1 ≤ 143) && contB b2 && contB b3 && validUtf8 r3
                else false

/-- Model of `LengthPrefixedString::from_bytes`: 4-byte big-endian length,
then that many bytes which must be valid UTF-8.  Returns the string's bytes
and the number of bytes consumed. -/
def lps_from_bytes (data : Bytes) (offset : Nat) : Except ProtocolError (Bytes × Nat) :=
  if data.length < offset + 4 then
    .error (.insufficientData (offset + 4) data.length)
  else do
    let len ← read_u32 data offset
    let string_start := offset + 4
    if data.length < string_start + len then
      .error (.insufficientData (string_start + len) data.length)
    else
      let string_bytes := (data.drop string_start).take len
      if validUtf8 string_bytes then .ok (string_bytes, 4 + len)
      else .error .invalidUtf8

/-- Model of `LengthPrefixedString::to_bytes` (`len() as u32` big-endian, then
the bytes; `u32be` absorbs the `as u32` cast). -/
def lps_to_bytes (s : Bytes) : Bytes := u32be s.length ++ s

/-! Message structures, mirroring `src/protocol.rs` one-to-one.  Each type has
its `CODE`, its `from_bytes`, and its `to_bytes` (all without the outer 4-byte
length prefix, exactly as in the source). -/

structure MessageHelloBarrier where
  major : Nat
  minor : Nat
  client_name : Option Bytes
  deriving DecidableEq

def MessageHelloBarrier.CODE : Bytes := [66, 97, 114, 114, 105, 101, 114]

def MessageHelloBarrier.from_bytes (data : Bytes) : Except ProtocolError MessageHelloBarrier :=
  if data.length < CODE.length + 4 then
    .error (.insufficientData (CODE.length + 4) data.length)
  else do
    let major ← read_u16 data CODE.length
    let minor ← read_u16 data (CODE.length + 2)
    if CODE.length + 4 < data.length then
      let name_length_offset := CODE.length + 4
      if data.length < name_length_offset + 4 then
        .error (.insufficientData (name_length_offset + 4) data.length)
      else do
        let name_length ← read_u32 data name_length_offset
        let name_start := name_length_offset + 4
        if data.length < name_start + name_length then
          .error (.insufficientData (name_start + name_length) data.length)
        else
          let name_bytes := (data.drop name_start).take name_length
          if validUtf8 name_bytes then
            .ok { major, minor, client_name := some name_bytes }
          else .error .invalidUtf8
    else
      .ok { major, minor, client_name := none }

def MessageHelloBarrier.to_bytes (m : MessageHelloBarrier) : Bytes :=
  CODE ++ u16be m.major ++ u16be m.minor ++
    (match m.client_name with
     | some nm => u32be nm.length ++ nm
     | none => [])

structure MessageHelloSynergy where
  major : Nat
  minor : Nat
  client_name : Option Bytes
  deriving DecidableEq

def MessageHelloSynergy.CODE : Bytes := [83, 121, 110, 101, 114, 103, 121]

def MessageHelloSynergy.from_bytes (data : Bytes) : Except ProtocolError MessageHelloSynergy :=
  if data.length < CODE.length + 4 then
    .error (.insufficientData (CODE.length + 4) data.length)
  else do
    let major ← read_u16 data CODE.length
    let minor ← read_u16 data (CODE.length + 2)
    if CODE.length + 4 < data.length then
      let name_length_offset := CODE.length + 4
      if data.length < name_length_offset + 4 then
        .error (.insufficientData (name_length_offset + 4) data.length)
      else do
        let name_length ← read_u32 data name_length_offset
        let name_start := name_length_offset + 4
        if data.length < name_start + name_length then
          .error (.insufficientData (name_start + name_length) data.length)
        else
          let name_bytes := (data.drop name_start).take name_length
          if validUtf8 name_bytes then
            .ok { major, minor, client_name := some name_bytes }
          else .error .invalidUtf8
    else
      .ok { major, minor, client_name := none }

def MessageHelloSynergy.to_bytes (m : MessageHelloSynergy) : Bytes :=
  CODE ++ u16be m.major ++ u16be m.minor ++
    (match m.client_name with
     | some nm => u32be nm.length ++ nm
     | none => [])

structure MessageNoOp where
  deriving DecidableEq

def MessageNoOp.CODE : Bytes := [67, 78, 79, 80]

def MessageNoOp.from_bytes (_data : Bytes) : Except ProtocolError MessageNoOp := .ok {}

def MessageNoOp.to_bytes (_m : MessageNoOp) : Bytes := CODE

structure MessageClose where
  deriving DecidableEq

def MessageClose.CODE : Bytes := [67, 66, 89, 69]

def MessageClose.from_bytes (_data : Bytes) : Except ProtocolError MessageClose := .ok {}

def MessageClose.to_bytes (_m : MessageClose) : Bytes := CODE

structure MessageCursorEntered where
  x : Int
  y : Int
  sequence : Nat
  mask : Nat
  deriving DecidableEq

def MessageCursorEntered.CODE : Bytes := [67, 73, 78, 78]

def MessageCursorEntered.from_bytes (data : Bytes) : Except ProtocolError MessageCursorEntered :=
  if data.length < CODE.length + 10 then
    .error (.insufficientData (CODE.length + 10) data.length)
  else do
    let x ← read_i16 data CODE.length
    let y ← read_i16 data (CODE.length + 2)
    let sequence ← read_u32 data (CODE.length + 4)
    let mask ← read_u16 data (CODE.length + 8)
    .ok { x, y, sequence, mask }

def MessageCursorEntered.to_bytes (m : MessageCursorEntered) : Bytes :=
  CODE ++ i16be m.x ++ i16be m.y ++ u32be m.sequence ++ u16be m.mask

structure MessageCursorLeft where
  deriving DecidableEq

def MessageCursorLeft.CODE : Bytes := [67, 79, 85, 84]

def MessageCursorLeft.from_bytes (_data : Bytes) : Except ProtocolError MessageCursorLeft := .ok {}

def MessageCursorLeft.to_bytes (_m : MessageCursorLeft) : Bytes := CODE

structure MessageClientClipboard where
  id : Nat
  sequence : Nat
  deriving DecidableEq

def MessageClientClipboard.CODE : Bytes := [67, 67, 76, 80]

def MessageClientClipboard.from_bytes (data : Bytes) : Except ProtocolError MessageClientClipboard :=
  if data.length < CODE.length + 5 then
    .error (.insufficientData (CODE.length + 5) data.length)
  else do
    let id ← read_u8 data CODE.length
    let sequence ← read_u32 data (CODE.length + 1)
    .ok { id, sequence }

def MessageClientClipboard.to_bytes (m : MessageClientClipboard) : Bytes :=
  CODE ++ [m.id % 256] ++ u32be m.sequence

structure MessageScreenSaverChange where
  state : Nat
  deriving DecidableEq

def MessageScreenSaverChange.CODE : Bytes := [67, 83, 69, 67]

def MessageScreenSaverChange.from_bytes (data : Bytes) :
    Except ProtocolError MessageScreenSaverChange :=
  if data.length < CODE.length + 1 then
    .error (.insufficientData (CODE.length + 1) data.length)
  else do
    let state ← read_u8 data CODE.length
    .ok { state }

def MessageScreenSaverChange.to_bytes (m : MessageScreenSaverChange) : Bytes :=
  CODE ++ [m.state % 256]

structure MessageResetOptions where
  deriving DecidableEq

def MessageResetOptions.CODE : Bytes := [67, 82, 79, 80]

def MessageResetOptions.from_bytes (_data : Bytes) : Except ProtocolError MessageResetOptions :=
  .ok {}

def MessageResetOptions.to_bytes (_m : MessageResetOptions) : Bytes := CODE

structure MessageInfoAcknowledgment where
  deriving DecidableEq

def MessageInfoAcknowledgment.CODE : Bytes := [67, 73, 65, 75]

def MessageInfoAcknowledgment.from_bytes (_data : Bytes) :
    Except ProtocolError MessageInfoAcknowledgment := .ok {}

def MessageInfoAcknowledgment.to_bytes (_m : MessageInfoAcknowledgment) : Bytes := CODE

structure MessageKeepAlive where
  deriving DecidableEq

def MessageKeepAlive.CODE : Bytes := [67, 65, 76, 86]

def MessageKeepAlive.from_bytes (_data : Bytes) : Except ProtocolError MessageKeepAlive := .ok {}

def MessageKeepAlive.to_bytes (_m : MessageKeepAlive) : Bytes := CODE

structure MessageKeyDownWithLanguage where
  keyid : Nat
  mask : Nat
  button : Nat
  lang : Bytes
  deriving DecidableEq

def MessageKeyDownWithLanguage.CODE : Bytes := [68, 75, 68, 76]

def MessageKeyDownWithLanguage.from_bytes (data : Bytes) :
    Except ProtocolError MessageKeyDownWithLanguage :=
  if data.length < CODE.length + 6 then
    .error (.insufficientData (CODE.length + 6) data.length)
  else do
    let lp ← lps_from_bytes data (CODE.length + 6)
    let keyid ← read_u16 data CODE.length
    let mask ← read_u16 data (CODE.length + 2)
    let button ← read_u16 data (CODE.length + 4)
    .ok { keyid, mask, button, lang := lp.1 }

def MessageKeyDownWithLanguage.to_bytes (m : MessageKeyDownWithLanguage) : Bytes :=
  CODE ++ u16be m.keyid ++ u16be m.mask ++ u16be m.button ++ lps_to_bytes m.lang

structure MessageKeyDown where
  keyid : Nat
  mask : Nat
  button : Nat
  deriving DecidableEq

def MessageKeyDown.CODE : Bytes := [68, 75, 68, 78]

def MessageKeyDown.from_bytes (data : Bytes) : Except ProtocolError MessageKeyDown :=
  if data.length < CODE.length + 6 then
    .error (.insufficientData (CODE.length + 6) data.length)
  else do
    let keyid ← read_u16 data CODE.length
    let mask ← read_u16 data (CODE.length + 2)
    let button ← read_u16 data (CODE.length + 4)
    .ok { keyid, mask, button }

def MessageKeyDown.to_bytes (m : MessageKeyDown) : Bytes :=
  CODE ++ u16be m.keyid ++ u16be m.mask ++ u16be m.button

structure MessageKeyRepeat where
  keyid : Nat
  mask : Nat
  button : Nat
  count : Nat
  lang : Bytes
  deriving DecidableEq

def MessageKeyRepeat.CODE : Bytes := [68, 75, 82, 80]

def MessageKeyRepeat.from_bytes (data : Bytes) : Except ProtocolError MessageKeyRepeat :=
  if data.length < CODE.length + 8 then
    .error (.insufficientData (CODE.length + 8) data.length)
  else do
    let lp ← lps_from_bytes data (CODE.length + 8)
    let keyid ← read_u16 data CODE.length
    let mask ← read_u16 data (CODE.length + 2)
    let button ← read_u16 data (CODE.length + 4)
    let count ← read_u16 data (CODE.length + 6)
    .ok { keyid, mask, button, count, lang := lp.1 }

def MessageKeyRepeat.to_bytes (m : MessageKeyRepeat) : Bytes :=
  CODE ++ u16be m.keyid ++ u16be m.mask ++ u16be m.button ++ u16be m.count ++
    lps_to_bytes m.lang

structure MessageKeyUp where
  keyid : Nat
  mask : Nat
  button : Nat
  deriving DecidableEq

def MessageKeyUp.CODE : Bytes := [68, 75, 85, 80]

def MessageKeyUp.from_bytes (data : Bytes) : Except ProtocolError MessageKeyUp :=
  if data.length < CODE.length + 6 then
    .error (.insufficientData (CODE.length + 6) data.length)
  else do
    let keyid ← read_u16 data CODE.length
    let mask ← read_u16 data (CODE.length + 2)
    let button ← read_u16 data (CODE.length + 4)
    .ok { keyid, mask, button }

def MessageKeyUp.to_bytes (m : MessageKeyUp) : Bytes :=
  CODE ++ u16be m.keyid ++ u16be m.mask ++ u16be m.button

structure MessageMouseButtonDown where
  button : Nat
  deriving DecidableEq

def MessageMouseButtonDown.CODE : Bytes := [68, 77, 68, 78]

def MessageMouseButtonDown.from_bytes (data : Bytes) :
    Except ProtocolError MessageMouseButtonDown :=
  if data.length < CODE.length + 1 then
    .error (.insufficientData (CODE.length + 1) data.length)
  else do
    let button ← read_u8 data CODE.length
    .ok { button }

def MessageMouseButtonDown.to_bytes (m : MessageMouseButtonDown) : Bytes :=
  CODE ++ [m.button % 256]

structure MessageMouseButtonUp where
  button : Nat
  deriving DecidableEq

def MessageMouseButtonUp.CODE : Bytes := [68, 77, 85, 80]

def MessageMouseButtonUp.from_bytes (data : Bytes) : Except ProtocolError MessageMouseButtonUp :=
  if data.length < CODE.length + 1 then
    .error (.insufficientData (CODE.length + 1) data.length)
  else do
    let button ← read_u8 data CODE.length
    .ok { button }

def MessageMouseButtonUp.to_bytes (m : MessageMouseButtonUp) : Bytes :=
  CODE ++ [m.button % 256]

structure MessageMouseMove where
  x : Int
  y : Int
  deriving DecidableEq

def MessageMouseMove.CODE : Bytes := [68, 77, 77, 86]

def MessageMouseMove.from_bytes (data : Bytes) : Except ProtocolError MessageMouseMove :=
  if data.length < CODE.length + 4 then
    .error (.insufficientData (CODE.length + 4) data.length)
  else do
    let x ← read_i16 data CODE.length
    let y ← read_i16 data (CODE.length + 2)
    .ok { x, y }

def MessageMouseMove.to_bytes (m : MessageMouseMove) : Bytes :=
  CODE ++ i16be m.x ++ i16be m.y

structure MessageMouseRelativeMove where
  x : Int
  y : Int
  deriving DecidableEq

def MessageMouseRelativeMove.CODE : Bytes := [68, 77, 82, 77]

def MessageMouseRelativeMove.from_bytes (data : Bytes) :
    Except ProtocolError MessageMouseRelativeMove :=
  if data.length < CODE.length + 4 then
    .error (.insufficientData (CODE.length + 4) data.length)
  else do
    let x ← read_i16 data CODE.length
    let y ← read_i16 data (CODE.length + 2)
    .ok { x, y }

def MessageMouseRelativeMove.to_bytes (m : MessageMouseRelativeMove) : Bytes :=
  CODE ++ i16be m.x ++ i16be m.y

structure MessageMouseWheel where
  xdelta : Int
  ydelta : Int
  deriving DecidableEq

def MessageMouseWheel.CODE : Bytes := [68, 77, 87, 77]

def MessageMouseWheel.from_bytes (data : Bytes) : Except ProtocolError MessageMouseWheel :=
  if data.length < CODE.length + 4 then
    .error (.insufficientData (CODE.length + 4) data.length)
  else do
    let xdelta ← read_i16 data CODE.length
    let ydelta ← read_i16 data (CODE.length + 2)
    .ok { xdelta, ydelta }

def MessageMouseWheel.to_bytes (m : MessageMouseWheel) : Bytes :=
  CODE ++ i16be m.xdelta ++ i16be m.ydelta

structure MessageClipboardData where
  id : Nat
  sequence : Nat
  mark : Nat
  data : Bytes
  deriving DecidableEq

def MessageClipboardData.CODE : Bytes := [68, 67, 76, 80]

def MessageClipboardData.from_bytes (data : Bytes) : Except ProtocolError MessageClipboardData :=
  if data.length < CODE.length + 6 then
    .error (.insufficientData (CODE.length + 6) data.length)
  else do
    let lp ← lps_from_bytes data (CODE.length + 6)
    let id ← read_u8 data CODE.length
    let sequence ← read_u32 data (CODE.length + 1)
    let mark ← read_u8 data (CODE.length + 5)
    .ok { id, sequence, mark, data := lp.1 }

def MessageClipboardData.to_bytes (m : MessageClipboardData) : Bytes :=
  CODE ++ [m.id % 256] ++ u32be m.sequence ++ [m.mark % 256] ++ lps_to_bytes m.data

structure MessageClientInfo where
  x : Nat
  y : Nat
  width : Nat
  height : Nat
  current_mouse_x : Nat
  current_mouse_y : Nat
  size : Nat
  deriving DecidableEq

def MessageClientInfo.CODE : Bytes := [68, 73, 78, 70]

def MessageClientInfo.from_bytes (data : Bytes) : Except ProtocolError MessageClientInfo :=
  if data.length < CODE.length + 14 then
    .error (.insufficientData (CODE.length + 14) data.length)
  else do
    let x ← read_u16 data CODE.length
    let y ← read_u16 data (CODE.length + 2)
    let width ← read_u16 data (CODE.length + 4)
    let height ← read_u16 data (CODE.length + 6)
    let current_mouse_x ← read_u16 data (CODE.length + 8)
    let current_mouse_y ← read_u16 data (CODE.length + 10)
    let size ← read_u16 data (CODE.length + 12)
    .ok { x, y, width, height, current_mouse_x, current_mouse_y, size }

def MessageClientInfo.to_bytes (m : MessageClientInfo) : Bytes :=
  CODE ++ u16be m.x ++ u16be m.y ++ u16be m.width ++ u16be m.height ++
    u16be m.current_mouse_x ++ u16be m.current_mouse_y ++ u16be m.size

/-- Well-known `DsopOption` key values (the `from_u32` match arms in
`src/protocol.rs`); unrecognized keys are outside this list. -/
def dsopKnownKeys : List Nat :=
  [0x4844434C, 0x48444E4C, 0x4844534C, 0x4D4D4653, 0x4D4D4643, 0x4D4D4641,
   0x4D4D4647, 0x4D4D464D, 0x4D4D4652, 0x5353434D, 0x53534353, 0x53535754,
   0x53535454, 0x53534E53, 0x53534E43, 0x53534E41, 0x48415254, 0x50524F54,
   0x4D444C54, 0x4C545353, 0x444C5453, 0x434C5053, 0x434C535A, 0x58545855,
   0x53464F43, 0x5F4B4657]

structure MessageSetOptions where
  options : List (Nat × Nat)
  deriving DecidableEq

def MessageSetOptions.CODE : Bytes := [68, 83, 79, 80]

/-- The pair-reading loop of `MessageSetOptions::from_bytes`. -/
def read_pairs (data : Bytes) (offset : Nat) : Nat → Except ProtocolError (List (Nat × Nat))
  | 0 => .ok []
  | n + 1 => do
    let key ← read_u32 data offset
    let value ← read_u32 data (offset + 4)
    let rest ← read_pairs data (offset + 8) n
    .ok ((key, value) :: rest)

def MessageSetOptions.from_bytes (data : Bytes) : Except ProtocolError MessageSetOptions :=
  if data.length < CODE.length + 4 then
    .error (.insufficientData (CODE.length + 4) data.length)
  else do
    let len ← read_u32 data CODE.length
    if len < 1 then
      .error (.invalidData ("DSOP length must be at least 1"))
    else
      let num_elements := len - 1
      if num_elements % 2 ≠ 0 then
        .error (.invalidData ("DSOP must have an even number of elements (key-value pairs)"))
      else
        let num_pairs := num_elements / 2
        let expected_size := CODE.length + 4 + num_pairs * 8
        if data.length < expected_size then
          .error (.insufficientData expected_size data.length)
        else do
          let options ← read_pairs data (CODE.length + 4) num_pairs
          .ok { options }

/-- The pair-writing loop of `MessageSetOptions::to_bytes`. -/
def pairs_to_bytes : List (Nat × Nat) → Bytes
  | [] => []
  | (key, value) :: rest => u32be key ++ u32be value ++ pairs_to_bytes rest

def MessageSetOptions.to_bytes (m : MessageSetOptions) : Bytes :=
  CODE ++ u32be (1 + m.options.length * 2) ++ pairs_to_bytes m.options

structure MessageFileTransfer where
  mark : Nat
  data : Bytes
  deriving DecidableEq

def MessageFileTransfer.CODE : Bytes := [68, 70, 84, 82]

def MessageFileTransfer.from_bytes (data : Bytes) : Except ProtocolError MessageFileTransfer :=
  if data.length < CODE.length + 1 then
    .error (.insufficientData (CODE.length + 1) data.length)
  else do
    let lp ← lps_from_bytes data (CODE.length + 1)
    let mark ← read_u8 data CODE.length
    .ok { mark, data := lp.1 }

def MessageFileTransfer.to_bytes (m : MessageFileTransfer) : Bytes :=
  CODE ++ [m.mark % 256] ++ lps_to_bytes m.data

structure MessageDragInfo where
  size : Nat
  data : Bytes
  deriving DecidableEq

def MessageDragInfo.CODE : Bytes := [68, 68, 82, 71]

def MessageDragInfo.from_bytes (data : Bytes) : Except ProtocolError MessageDragInfo :=
  if data.length < CODE.length + 2 then
    .error (.insufficientData (CODE.length + 2) data.length)
  else do
    let lp ← lps_from_bytes data (CODE.length + 2)
    let size ← read_u16 data CODE.length
    .ok { size, data := lp.1 }

def MessageDragInfo.to_bytes (m : MessageDragInfo) : Bytes :=
  CODE ++ u16be m.size ++ lps_to_bytes m.data

structure MessageSecureEncryption where
  data : Bytes
  deriving DecidableEq

def MessageSecureEncryption.CODE : Bytes := [83, 69, 67, 78]

def MessageSecureEncryption.from_bytes (data : Bytes) :
    Except ProtocolError MessageSecureEncryption := do
  let lp ← lps_from_bytes data CODE.length
  .ok { data := lp.1 }

def MessageSecureEncryption.to_bytes (m : MessageSecureEncryption) : Bytes :=
  CODE ++ lps_to_bytes m.data

structure MessageLegacySynergy where
  data : Bytes
  deriving DecidableEq

def MessageLegacySynergy.CODE : Bytes := [76, 83, 89, 78]

def MessageLegacySynergy.from_bytes (data : Bytes) :
    Except ProtocolError MessageLegacySynergy := do
  let lp ← lps_from_bytes data CODE.length
  .ok { data := lp.1 }

def MessageLegacySynergy.to_bytes (m : MessageLegacySynergy) : Bytes :=
  CODE ++ lps_to_bytes m.data

structure MessageQueryInfo where
  deriving DecidableEq

def MessageQueryInfo.CODE : Bytes := [81, 73, 78, 70]

def MessageQueryInfo.from_bytes (_data : Bytes) : Except ProtocolError MessageQueryInfo := .ok {}

def MessageQueryInfo.to_bytes (_m : MessageQueryInfo) : Bytes := CODE

structure MessageIncompatibleVersion where
  major_remote : Nat
  minor_remote : Nat
  deriving DecidableEq

def MessageIncompatibleVersion.CODE : Bytes := [69, 73, 67, 86]

def MessageIncompatibleVersion.from_bytes (data : Bytes) :
    Except ProtocolError MessageIncompatibleVersion :=
  if data.length < CODE.length + 4 then
    .error (.insufficientData (CODE.length + 4) data.length)
  else do
    let major_remote ← read_u16 data CODE.length
    let minor_remote ← read_u16 data (CODE.length + 2)
    .ok { major_remote, minor_remote }

def MessageIncompatibleVersion.to_bytes (m : MessageIncompatibleVersion) : Bytes :=
  CODE ++ u16be m.major_remote ++ u16be m.minor_remote

structure MessageServerBusy where
  deriving DecidableEq

def MessageServerBusy.CODE : Bytes := [69, 66, 83, 89]

def MessageServerBusy.from_bytes (_data : Bytes) : Except ProtocolError MessageServerBusy := .ok {}

def MessageServerBusy.to_bytes (_m : MessageServerBusy) : Bytes := CODE

structure MessageUnknownClient where
  deriving DecidableEq

def MessageUnknownClient.CODE : Bytes := [69, 85, 78, 75]

def MessageUnknownClient.from_bytes (_data : Bytes) : Except ProtocolError MessageUnknownClient :=
  .ok {}

def MessageUnknownClient.to_bytes (_m : MessageUnknownClient) : Bytes := CODE

structure MessageProtocolError where
  deriving DecidableEq

def MessageProtocolError.CODE : Bytes := [69, 66, 65, 68]

def MessageProtocolError.from_bytes (_data : Bytes) : Except ProtocolError MessageProtocolError :=
  .ok {}

def MessageProtocolError.to_bytes (_m : MessageProtocolError) : Bytes := CODE

/-- Model of the `Message` enum. -/
inductive Message where
  | HelloBarrier (m : MessageHelloBarrier)
  | HelloSynergy (m : MessageHelloSynergy)
  | NoOp (m : MessageNoOp)
  | Close (m : MessageClose)
  | CursorEntered (m : MessageCursorEntered)
  | CursorLeft (m : MessageCursorLeft)
  | ClientClipboard (m : MessageClientClipboard)
  | ScreenSaverChange (m : MessageScreenSaverChange)
  | ResetOptions (m : MessageResetOptions)
  | InfoAcknowledgment (m : MessageInfoAcknowledgment)
  | KeepAlive (m : MessageKeepAlive)
  | KeyDownWithLanguage (m : MessageKeyDownWithLanguage)
  | KeyDown (m : MessageKeyDown)
  | KeyRepeat (m : MessageKeyRepeat)
  | KeyUp (m : MessageKeyUp)
  | MouseButtonDown (m : MessageMouseButtonDown)
  | MouseButtonUp (m : MessageMouseButtonUp)
  | MouseMove (m : MessageMouseMove)
  | MouseRelativeMove (m : MessageMouseRelativeMove)
  | MouseWheel (m : MessageMouseWheel)
  | ClipboardData (m : MessageClipboardData)
  | ClientInfo (m : MessageClientInfo)
  | SetOptions (m : MessageSetOptions)
  | FileTransfer (m : MessageFileTransfer)
  | DragInfo (m : MessageDragInfo)
  | SecureEncryption (m : MessageSecureEncryption)
  | LegacySynergy (m : MessageLegacySynergy)
  | QueryInfo (m : MessageQueryInfo)
  | IncompatibleVersion (m : MessageIncompatibleVersion)
  | ServerBusy (m : MessageServerBusy)
  | UnknownClient (m : MessageUnknownClient)
  | ProtocolErr (m : MessageProtocolError)
  deriving DecidableEq

/-- The inner `match` of `Message::to_bytes`: the encoded payload without the
4-byte length prefix. -/
def Message.payload_bytes : Message → Bytes
  | .HelloBarrier m => m.to_bytes
  | .HelloSynergy m => m.to_bytes
  | .NoOp m => m.to_bytes
  | .Close m => m.to_bytes
  | .CursorEntered m => m.to_bytes
  | .CursorLeft m => m.to_bytes
  | .ClientClipboard m => m.to_bytes
  | .ScreenSaverChange m => m.to_bytes
  | .ResetOptions m => m.to_bytes
  | .InfoAcknowledgment m => m.to_bytes
  | .KeepAlive m => m.to_bytes
  | .KeyDownWithLanguage m => m.to_bytes
  | .KeyDown m => m.to_bytes
  | .KeyRepeat m => m.to_bytes
  | .KeyUp m => m.to_bytes
  | .MouseButtonDown m => m.to_bytes
  | .MouseButtonUp m => m.to_bytes
  | .MouseMove m => m.to_bytes
  | .MouseRelativeMove m => m.to_bytes
  | .MouseWheel m => m.to_bytes
  | .ClipboardData m => m.to_bytes
  | .ClientInfo m => m.to_bytes
  | .SetOptions m => m.to_bytes
  | .FileTransfer m => m.to_bytes
  | .DragInfo m => m.to_bytes
  | .SecureEncryption m => m.to_bytes
  | .LegacySynergy m => m.to_bytes
  | .QueryInfo m => m.to_bytes
  | .IncompatibleVersion m => m.to_bytes
  | .ServerBusy m => m.to_bytes
  | .UnknownClient m => m.to_bytes
  | .ProtocolErr m => m.to_bytes

/-- Model of `Message::to_bytes`: 4-byte big-endian length prefix
(`data.len() as u32`, absorbed by `u32be`) followed by the payload. -/
def Message.to_bytes (m : Message) : Bytes :=
  u32be m.payload_bytes.length ++ m.payload_bytes

/-- Model of `parse_message`: dispatch on the leading 4 ASCII bytes (which
must be valid UTF-8), with the 7-byte Hello codes checked in the fallback
branch, exactly as in the source. -/
def parse_message (data : Bytes) : Except ProtocolError Message :=
  if data.length < 4 then .error (.insufficientData 4 data.length)
  else
    let code := data.take 4
    if validUtf8 code = false then .error .invalidMessageCode
    else if code = MessageNoOp.CODE then (MessageNoOp.from_bytes data).map .NoOp
    else if code = MessageClose.CODE then (MessageClose.from_bytes data).map .Close
    else if code = MessageCursorEntered.CODE then
      (MessageCursorEntered.from_bytes data).map .CursorEntered
    else if code = MessageCursorLeft.CODE then
      (MessageCursorLeft.from_bytes data).map .CursorLeft
    else if code = MessageClientClipboard.CODE then
      (MessageClientClipboard.from_bytes data).map .ClientClipboard
    else if code = MessageScreenSaverChange.CODE then
      (MessageScreenSaverChange.from_bytes data).map .ScreenSaverChange
    else if code = MessageResetOptions.CODE then
      (MessageResetOptions.from_bytes data).map .ResetOptions
    else if code = MessageInfoAcknowledgment.CODE then
      (MessageInfoAcknowledgment.from_bytes data).map .InfoAcknowledgment
    else if code = MessageKeepAlive.CODE then (MessageKeepAlive.from_bytes data).map .KeepAlive
    else if code = MessageKeyDownWithLanguage.CODE then
      (MessageKeyDownWithLanguage.from_bytes data).map .KeyDownWithLanguage
    else if code = MessageKeyDown.CODE then (MessageKeyDown.from_bytes data).map .KeyDown
    else if code = MessageKeyRepeat.CODE then (MessageKeyRepeat.from_bytes data).map .KeyRepeat
    else if code = MessageKeyUp.CODE then (MessageKeyUp.from_bytes data).map .KeyUp
    else if code = MessageMouseButtonDown.CODE then
      (MessageMouseButtonDown.from_bytes data).map .MouseButtonDown
    else if code = MessageMouseButtonUp.CODE then
      (MessageMouseButtonUp.from_bytes data).map .MouseButtonUp
    else if code = MessageMouseMove.CODE then (MessageMouseMove.from_bytes data).map .MouseMove
    else if code = MessageMouseRelativeMove.CODE then
      (MessageMouseRelativeMove.from_bytes data).map .MouseRelativeMove
    else if code = MessageMouseWheel.CODE then (MessageMouseWheel.from_bytes data).map .MouseWheel
    else if code = MessageClipboardData.CODE then
      (MessageClipboardData.from_bytes data).map .ClipboardData
    else if code = MessageClientInfo.CODE then (MessageClientInfo.from_bytes data).map .ClientInfo
    else if code = MessageSetOptions.CODE then (MessageSetOptions.from_bytes data).map .SetOptions
    else if code = MessageFileTransfer.CODE then
      (MessageFileTransfer.from_bytes data).map .FileTransfer
    else if code = MessageDragInfo.CODE then (MessageDragInfo.from_bytes data).map .DragInfo
    else if code = MessageSecureEncryption.CODE then
      (MessageSecureEncryption.from_bytes data).map .SecureEncryption
    else if code = MessageLegacySynergy.CODE then
      (MessageLegacySynergy.from_bytes data).map .LegacySynergy
    else if code = MessageQueryInfo.CODE then (MessageQueryInfo.from_bytes data).map .QueryInfo
    else if code = MessageIncompatibleVersion.CODE then
      (MessageIncompatibleVersion.from_bytes data).map .IncompatibleVersion
    else if code = MessageServerBusy.CODE then (MessageServerBusy.from_bytes data).map .ServerBusy
    else if code = MessageUnknownClient.CODE then
      (MessageUnknownClient.from_bytes data).map .UnknownClient
    else if code = MessageProtocolError.CODE then
      (MessageProtocolError.from_bytes data).map .ProtocolErr
    else if 7 ≤ data.length ∧ data.take 7 = MessageHelloBarrier.CODE then
      (MessageHelloBarrier.from_bytes data).map .HelloBarrier
    else if 7 ≤ data.length ∧ data.take 7 = MessageHelloSynergy.CODE then
      (MessageHelloSynergy.from_bytes data).map .HelloSynergy
    else .error (.unknownMessageCode code)

/-- Model of `parse_message_with_length`: 4-byte big-endian frame length, then
the payload slice `data[4..4+length]` handed to `parse_message`. -/
def parse_message_with_length (data : Bytes) : Except ProtocolError (Message × Nat) :=
  if data.length < 4 then .error (.insufficientData 4 data.length)
  else do
    let len ← read_u32 data 0
    let total_size := 4 + len
    if data.length < total_size then .error (.insufficientData total_size data.length)
    else do
      let msg ← parse_message ((data.drop 4).take len)
      .ok (msg, total_size)

/-! Auxiliary definitions used to state the claims. -/

/-- A byte segment `data[off..off+k]` as a list. -/
def seg (data : Bytes) (off k : Nat) : Bytes := (data.drop off).take k

/-- Whether a parse outcome is the `InsufficientData` error. -/
def is_insufficient : Except ProtocolError Message → Bool
  | .error (.insufficientData _ _) => true
  | _ => false

/-- Well-formed string content: the bytes of a Rust `String` are valid UTF-8. -/
def wf_str (s : Bytes) : Bool := validUtf8 s

/-- Constructibility of a `Message` in Rust, plus the wire-intrinsic bound that
the encoded payload fits a `u32` frame length: integer fields within their
Rust types' ranges, string fields valid UTF-8, and the payload below
`2 ^ 32` bytes. -/
def wf_msg (m : Message) : Bool :=
  (match m with
   | .HelloBarrier h => decide (h.major < 65536) && decide (h.minor < 65536) &&
       (match h.client_name with | none => true | some s => wf_str s)
   | .HelloSynergy h => decide (h.major < 65536) && decide (h.minor < 65536) &&
       (match h.client_name with | none => true | some s => wf_str s)
   | .NoOp _ => true
   | .Close _ => true
   | .CursorEntered c => decide (-32768 ≤ c.x) && decide (c.x < 32768) &&
       decide (-32768 ≤ c.y) && decide (c.y < 32768) &&
       decide (c.sequence < 4294967296) && decide (c.mask < 65536)
   | .CursorLeft _ => true
   | .ClientClipboard c => decide (c.id < 256) && decide (c.sequence < 4294967296)
   | .ScreenSaverChange c => decide (c.state < 256)
   | .ResetOptions _ => true
   | .InfoAcknowledgment _ => true
   | .KeepAlive _ => true
   | .KeyDownWithLanguage k => decide (k.keyid < 65536) && decide (k.mask < 65536) &&
       decide (k.button < 65536) && wf_str k.lang
   | .KeyDown k => decide (k.keyid < 65536) && decide (k.mask < 65536) &&
       decide (k.button < 65536)
   | .KeyRepeat k => decide (k.keyid < 65536) && decide (k.mask < 65536) &&
       decide (k.button < 65536) && decide (k.count < 65536) && wf_str k.lang
   | .KeyUp k => decide (k.keyid < 65536) && decide (k.mask < 65536) &&
       decide (k.button < 65536)
   | .MouseButtonDown b => decide (b.button < 256)
   | .MouseButtonUp b => decide (b.button < 256)
   | .MouseMove v => decide (-32768 ≤ v.x) && decide (v.x < 32768) &&
       decide (-32768 ≤ v.y) && decide (v.y < 32768)
   | .MouseRelativeMove v => decide (-32768 ≤ v.x) && decide (v.x < 32768) &&
       decide (-32768 ≤ v.y) && decide (v.y < 32768)
   | .MouseWheel v => decide (-32768 ≤ v.xdelta) && decide (v.xdelta < 32768) &&
       decide (-32768 ≤ v.ydelta) && decide (v.ydelta < 32768)
   | .ClipboardData c => decide (c.id < 256) && decide (c.sequence < 4294967296) &&
       decide (c.mark < 256) && wf_str c.data
   | .ClientInfo c => decide (c.x < 65536) && decide (c.y < 65536) &&
       decide (c.width < 65536) && decide (c.height < 65536) &&
       decide (c.current_mouse_x < 65536) && decide (c.current_mouse_y < 65536) &&
       decide (c.size < 65536)
   | .SetOptions s => s.options.all (fun p => decide (p.1 < 4294967296) && decide (p.2 < 4294967296))
   | .FileTransfer f => decide (f.mark < 256) && wf_str f.data
   | .DragInfo d => decide (d.size < 65536) && wf_str d.data
   | .SecureEncryption s => wf_str s.data
   | .LegacySynergy s => wf_str s.data
   | .QueryInfo _ => true
   | .IncompatibleVersion v => decide (v.major_remote < 65536) && decide (v.minor_remote < 65536)
   | .ServerBusy _ => true
   | .UnknownClient _ => true
   | .ProtocolErr _ => true) &&
  decide (m.payload_bytes.length < 4294967296)

/-- Whether a message is one of the two Hello variants. -/
def Message.is_hello : Message → Bool
  | .HelloBarrier _ => true
  | .HelloSynergy _ => true
  | _ => false

/-- Whether a message is a Hello variant carrying a client name. -/
def Message.hello_named : Message → Bool
  | .HelloBarrier h => h.client_name.isSome
  | .HelloSynergy h => h.client_name.isSome
  | _ => false

/-- The Hello message with its optional client name removed (identity on
non-Hello messages). -/
def Message.drop_hello_name : Message → Message
  | .HelloBarrier h => .HelloBarrier { h with client_name := none }
  | .HelloSynergy h => .HelloSynergy { h with client_name := none }
  | m => m

/-! Screen-topology registry (C9).

Modelled from the spec: the crate's `server` module (declared in
`src/lib.rs` but not present under `src/`) provides `ClientBuilder`,
`Position`, and a server `Builder` whose `add_client` validates placement.
Spec 4.5: "Adding fails with `DuplicatePosition` if the direction is already
taken in the relevant plane, or `UnknownReference` if a relative entry names
a client not yet present"; spec 3 (`ScreenTopology`): root plane for entries
with no reference, one secondary plane per reference client, no forward
references.  Error names follow spec 7: `DuplicatePosition`,
`UnknownReferenceClient`, `DuplicateRelativePosition`. -/

/-- Modelled from the spec: an absolute direction (spec 3, `Position`). -/
inductive Position where
  | Left
  | Right
  | Above
  | Below
  deriving DecidableEq

/-- Modelled from the spec: a configured client: identity, a `Position`, and
optionally the name of a previously registered client it is relative to
(spec 3, `ClientConfig`). -/
structure ClientConfig where
  name : String
  position : Position
  relative_to : Option String
  deriving DecidableEq

/-- Modelled from the spec: topology/configuration errors (spec 7). -/
inductive TopologyError where
  | DuplicatePosition
  | UnknownReferenceClient
  | DuplicateRelativePosition
  deriving DecidableEq

/-- Modelled from the spec: the server configuration builder holding the
registered clients in insertion order (spec 6, `Builder`). -/
structure Builder where
  clients : List ClientConfig
  deriving DecidableEq

/-- Modelled from the spec: `Builder::add_client` (spec 4.5): a root-plane
entry fails on an occupied root direction; a relative entry fails if its
reference is not yet registered, or if the direction is taken in that
reference's plane. -/
def Builder.add_client (b : Builder) (c : ClientConfig) : Except TopologyError Builder :=
  match c.relative_to with
  | none =>
    if b.clients.any (fun e => decide (e.relative_to = none) && decide (e.position = c.position)) then
      .error .DuplicatePosition
    else .ok { clients := b.clients ++ [c] }
  | some r =>
    if b.clients.any (fun e => decide (e.name = r)) = false then
      .error .UnknownReferenceClient
    else if b.clients.any (fun e => decide (e.relative_to = some r) && decide (e.position = c.position)) then
      .error .DuplicateRelativePosition
    else .ok { clients := b.clients ++ [c] }

/-- Adding a whole configuration sequence, starting from the empty builder. -/
def Builder.add_all (cs : List ClientConfig) : Except TopologyError Builder :=
  cs.foldlM Builder.add_client { clients := [] }

/-- Per-plane uniqueness: two registered clients in the same plane (same
`relative_to`, with `none` denoting the root plane) never occupy the same
direction. -/
def plane_unique (l : List ClientConfig) : Prop :=
  l.Pairwise (fun e1 e2 => e1.relative_to = e2.relative_to → e1.position ≠ e2.position)

/-- No forward references: every relative entry names a client added strictly
before it. -/
def refs_backward (l : List ClientConfig) : Prop :=
  ∀ i (h : i < l.length) (r : String), l[i].relative_to = some r →
    ∃ j, ∃ hj : j < l.length, j < i ∧ l[j].name = r

/-! Generic lemmas about the byte primitives. -/

theorem ebind_ok {ε α β : Type} (a : α) (f : α → Except ε β) :
    (Except.ok a >>= f : Except ε β) = f a := rfl

theorem ebind_err {ε α β : Type} (e : ε) (f : α → Except ε β) :
    (Except.error e >>= f : Except ε β) = Except.error e := rfl

theorem emap_ok {ε α β : Type} (a : α) (f : α → β) :
    (Except.ok a : Except ε α).map f = .ok (f a) := rfl

theorem emap_err {ε α β : Type} (e : ε) (f : α → β) :
    (Except.error e : Except ε α).map f = .error e := rfl

@[simp] theorem u16be_length (n : Nat) : (u16be n).length = 2 := rfl

@[simp] theorem u32be_length (n : Nat) : (u32be n).length = 4 := rfl

@[simp] theorem i16be_length (v : Int) : (i16be v).length = 2 := by simp [i16be]

@[simp] theorem lps_to_bytes_length (s : Bytes) : (lps_to_bytes s).length = 4 + s.length := by
  simp [lps_to_bytes]

theorem byteAt_append (l1 l2 : Bytes) (i : Nat) :
    byteAt (l1 ++ l2) i = if i < l1.length then byteAt l1 i else byteAt l2 (i - l1.length) := by
  unfold byteAt
  split
  · exact List.getD_append _ _ _ _ (by assumption)
  · exact List.getD_append_right _ _ _ _ (by omega)

theorem byteAt_append_right (l1 l2 : Bytes) (i : Nat) :
    byteAt (l1 ++ l2) (l1.length + i) = byteAt l2 i := by
  rw [byteAt_append, if_neg (by omega)]
  congr 1
  omega

@[simp] theorem byteAt_cons_zero (a : Nat) (l : Bytes) : byteAt (a :: l) 0 = a := rfl

@[simp] theorem byteAt_cons_one (a : Nat) (l : Bytes) : byteAt (a :: l) 1 = byteAt l 0 := rfl

@[simp] theorem byteAt_cons_two (a : Nat) (l : Bytes) : byteAt (a :: l) 2 = byteAt l 1 := rfl

@[simp] theorem byteAt_cons_three (a : Nat) (l : Bytes) : byteAt (a :: l) 3 = byteAt l 2 := rfl

theorem byteAt_take (data : Bytes) (n i : Nat) (h : i < n) :
    byteAt (data.take n) i = byteAt data i := by
  unfold byteAt
  rw [List.getD, List.getD, List.get?_eq_getElem?, List.get?_eq_getElem?,
    List.getElem?_take_of_lt h]

theorem byteAt_lt (data : Bytes) (i : Nat) (hw : ∀ b ∈ data, b < 256) (h : i < data.length) :
    byteAt data i < 256 := by
  unfold byteAt
  rw [List.getD, List.get?_eq_getElem?, List.getElem?_eq_getElem h]
  exact hw _ (List.getElem_mem h)

theorem byteAt_eq_getElem (data : Bytes) (i : Nat) (h : i < data.length) :
    byteAt data i = data[i] := by
  unfold byteAt
  rw [List.getD, List.get?_eq_getElem?, List.getElem?_eq_getElem h]
  rfl

theorem drop_shape (data pre r : Bytes) (off : Nat)
    (hd : data = pre ++ r) (hoff : pre.length = off) :
    data.drop off = r := by
  subst hd hoff; exact List.drop_left pre r

theorem u16val_shape (data pre r : Bytes) (n off : Nat)
    (hd : data = pre ++ (u16be n ++ r)) (hoff : pre.length = off) (hn : n < 65536) :
    u16val data off = n := by
  subst hd hoff
  have e0 := byteAt_append_right pre (u16be n ++ r) 0
  have e1 := byteAt_append_right pre (u16be n ++ r) 1
  rw [Nat.add_zero] at e0
  rw [u16val, e0, e1]
  simp [u16be]
  omega

theorem u32val_shape (data pre r : Bytes) (n off : Nat)
    (hd : data = pre ++ (u32be n ++ r)) (hoff : pre.length = off) (hn : n < 4294967296) :
    u32val data off = n := by
  subst hd hoff
  have e0 := byteAt_append_right pre (u32be n ++ r) 0
  have e1 := byteAt_append_right pre (u32be n ++ r) 1
  have e2 := byteAt_append_right pre (u32be n ++ r) 2
  have e3 := byteAt_append_right pre (u32be n ++ r) 3
  rw [Nat.add_zero] at e0
  rw [u32val, e0, e1, e2, e3]
  simp [u32be]
  omega

theorem i16val_shape (data pre r : Bytes) (v : Int) (off : Nat)
    (hd : data = pre ++ (i16be v ++ r)) (hoff : pre.length = off)
    (h1 : -32768 ≤ v) (h2 : v < 32768) :
    i16val data off = v := by
  have hmod1 : 0 ≤ v % 65536 := Int.emod_nonneg v (by norm_num)
  have hmod2 : v % 65536 < 65536 := Int.emod_lt_of_pos v (by norm_num)
  have h16 : u16val data off = (v % 65536).toNat :=
    u16val_shape data pre r _ off (by rw [hd]; rfl) hoff (by omega)
  rw [i16val, h16]
  split <;> omega

theorem byteAt_shape (data pre r : Bytes) (b off : Nat)
    (hd : data = pre ++ ([b] ++ r)) (hoff : pre.length = off) :
    byteAt data off = b := by
  subst hd hoff
  have e0 := byteAt_append_right pre ([b] ++ r) 0
  rw [Nat.add_zero] at e0
  rw [e0]
  rfl

theorem read_u16_shape (data pre r : Bytes) (n off : Nat)
    (hd : data = pre ++ (u16be n ++ r)) (hoff : pre.length = off) (hn : n < 65536) :
    read_u16 data off = .ok n := by
  rw [read_u16, if_neg (by subst hd hoff; simp; try omega),
    u16val_shape data pre r n off hd hoff hn]

theorem read_i16_shape (data pre r : Bytes) (v : Int) (off : Nat)
    (hd : data = pre ++ (i16be v ++ r)) (hoff : pre.length = off)
    (h1 : -32768 ≤ v) (h2 : v < 32768) :
    read_i16 data off = .ok v := by
  rw [read_i16, if_neg (by subst hd hoff; simp; try omega),
    i16val_shape data pre r v off hd hoff h1 h2]

theorem read_u32_shape (data pre r : Bytes) (n off : Nat)
    (hd : data = pre ++ (u32be n ++ r)) (hoff : pre.length = off) (hn : n < 4294967296) :
    read_u32 data off = .ok n := by
  rw [read_u32, if_neg (by subst hd hoff; simp; try omega),
    u32val_shape data pre r n off hd hoff hn]

theorem read_u8_shape (data pre r : Bytes) (b off : Nat)
    (hd : data = pre ++ ([b] ++ r)) (hoff : pre.length = off) :
    read_u8 data off = .ok b := by
  rw [read_u8, if_neg (by subst hd hoff; simp; try omega),
    byteAt_shape data pre r b off hd hoff]

theorem lps_from_bytes_shape (data pre r s : Bytes) (off : Nat)
    (hd : data = pre ++ (lps_to_bytes s ++ r)) (hoff : pre.length = off)
    (hu : validUtf8 s = true) (hl : s.length < 4294967296) :
    lps_from_bytes data off = .ok (s, 4 + s.length) := by
  rw [lps_from_bytes, if_neg (by subst hd hoff; simp [lps_to_bytes]; try omega)]
  rw [read_u32_shape data pre (s ++ r) s.length off
    (by rw [hd]; simp [lps_to_bytes]) hoff hl]
  rw [ebind_ok]
  rw [if_neg (by subst hd hoff; simp [lps_to_bytes]; try omega)]
  rw [drop_shape data (pre ++ u32be s.length) (s ++ r) (off + 4)
    (by rw [hd]; simp [lps_to_bytes]) (by simp [hoff])]
  rw [List.take_left, if_pos hu]

/-! Dispatch lemmas: which branch of `parse_message` fires for each leading
code. -/

theorem parse_dispatch_noOp (data : Bytes) (h4 : 4 ≤ data.length)
    (hc : data.take 4 = MessageNoOp.CODE) :
    parse_message data = (MessageNoOp.from_bytes data).map .NoOp := by
  simp [parse_message, hc, validUtf8, contB, show ¬ data.length < 4 by omega,
    MessageNoOp.CODE, MessageClose.CODE, MessageCursorEntered.CODE, MessageCursorLeft.CODE, MessageClientClipboard.CODE, MessageScreenSaverChange.CODE, MessageResetOptions.CODE, MessageInfoAcknowledgment.CODE, MessageKeepAlive.CODE, MessageKeyDownWithLanguage.CODE, MessageKeyDown.CODE, MessageKeyRepeat.CODE, MessageKeyUp.CODE, MessageMouseButtonDown.CODE, MessageMouseButtonUp.CODE, MessageMouseMove.CODE, MessageMouseRelativeMove.CODE, MessageMouseWheel.CODE, MessageClipboardData.CODE, MessageClientInfo.CODE, MessageSetOptions.CODE, MessageFileTransfer.CODE, MessageDragInfo.CODE, MessageSecureEncryption.CODE, MessageLegacySynergy.CODE, MessageQueryInfo.CODE, MessageIncompatibleVersion.CODE, MessageServerBusy.CODE, MessageUnknownClient.CODE, MessageProtocolError.CODE, MessageHelloBarrier.CODE, MessageHelloSynergy.CODE]

theorem parse_dispatch_close (data : Bytes) (h4 : 4 ≤ data.length)
    (hc : data.take 4 = MessageClose.CODE) :
    parse_message data = (MessageClose.from_bytes data).map .Close := by
  simp [parse_message, hc, validUtf8, contB, show ¬ data.length < 4 by omega,
    MessageNoOp.CODE, MessageClose.CODE, MessageCursorEntered.CODE, MessageCursorLeft.CODE, MessageClientClipboard.CODE, MessageScreenSaverChange.CODE, MessageResetOptions.CODE, MessageInfoAcknowledgment.CODE, MessageKeepAlive.CODE, MessageKeyDownWithLanguage.CODE, MessageKeyDown.CODE, MessageKeyRepeat.CODE, MessageKeyUp.CODE, MessageMouseButtonDown.CODE, MessageMouseButtonUp.CODE, MessageMouseMove.CODE, MessageMouseRelativeMove.CODE, MessageMouseWheel.CODE, MessageClipboardData.CODE, MessageClientInfo.CODE, MessageSetOptions.CODE, MessageFileTransfer.CODE, MessageDragInfo.CODE, MessageSecureEncryption.CODE, MessageLegacySynergy.CODE, MessageQueryInfo.CODE, MessageIncompatibleVersion.CODE, MessageServerBusy.CODE, MessageUnknownClient.CODE, MessageProtocolError.CODE, MessageHelloBarrier.CODE, MessageHelloSynergy.CODE]

theorem parse_dispatch_cursorEntered (data : Bytes) (h4 : 4 ≤ data.length)
    (hc : data.take 4 = MessageCursorEntered.CODE) :
    parse_message data = (MessageCursorEntered.from_bytes data).map .CursorEntered := by
  simp [parse_message, hc, validUtf8, contB, show ¬ data.length < 4 by omega,
    MessageNoOp.CODE, MessageClose.CODE, MessageCursorEntered.CODE, MessageCursorLeft.CODE, MessageClientClipboard.CODE, MessageScreenSaverChange.CODE, MessageResetOptions.CODE, MessageInfoAcknowledgment.CODE, MessageKeepAlive.CODE, MessageKeyDownWithLanguage.CODE, MessageKeyDown.CODE, MessageKeyRepeat.CODE, MessageKeyUp.CODE, MessageMouseButtonDown.CODE, MessageMouseButtonUp.CODE, MessageMouseMove.CODE, MessageMouseRelativeMove.CODE, MessageMouseWheel.CODE, MessageClipboardData.CODE, MessageClientInfo.CODE, MessageSetOptions.CODE, MessageFileTransfer.CODE, MessageDragInfo.CODE, MessageSecureEncryption.CODE, MessageLegacySynergy.CODE, MessageQueryInfo.CODE, MessageIncompatibleVersion.CODE, MessageServerBusy.CODE, MessageUnknownClient.CODE, MessageProtocolError.CODE, MessageHelloBarrier.CODE, MessageHelloSynergy.CODE]

theorem parse_dispatch_cursorLeft (data : Bytes) (h4 : 4 ≤ data.length)
    (hc : data.take 4 = MessageCursorLeft.CODE) :
    parse_message data = (MessageCursorLeft.from_bytes data).map .CursorLeft := by
  simp [parse_message, hc, validUtf8, contB, show ¬ data.length < 4 by omega,
    MessageNoOp.CODE, MessageClose.CODE, MessageCursorEntered.CODE, MessageCursorLeft.CODE, MessageClientClipboard.CODE, MessageScreenSaverChange.CODE, MessageResetOptions.CODE, MessageInfoAcknowledgment.CODE, MessageKeepAlive.CODE, MessageKeyDownWithLanguage.CODE, MessageKeyDown.CODE, MessageKeyRepeat.CODE, MessageKeyUp.CODE, MessageMouseButtonDown.CODE, MessageMouseButtonUp.CODE, MessageMouseMove.CODE, MessageMouseRelativeMove.CODE, MessageMouseWheel.CODE, MessageClipboardData.CODE, MessageClientInfo.CODE, MessageSetOptions.CODE, MessageFileTransfer.CODE, MessageDragInfo.CODE, MessageSecureEncryption.CODE, MessageLegacySynergy.CODE, MessageQueryInfo.CODE, MessageIncompatibleVersion.CODE, MessageServerBusy.CODE, MessageUnknownClient.CODE, MessageProtocolError.CODE, MessageHelloBarrier.CODE, MessageHelloSynergy.CODE]

theorem parse_dispatch_clientClipboard (data : Bytes) (h4 : 4 ≤ data.length)
    (hc : data.take 4 = MessageClientClipboard.CODE) :
    parse_message data = (MessageClientClipboard.from_bytes data).map .ClientClipboard := by
  simp [parse_message, hc, validUtf8, contB, show ¬ data.length < 4 by omega,
    MessageNoOp.CODE, MessageClose.CODE, MessageCursorEntered.CODE, MessageCursorLeft.CODE, MessageClientClipboard.CODE, MessageScreenSaverChange.CODE, MessageResetOptions.CODE, MessageInfoAcknowledgment.CODE, MessageKeepAlive.CODE, MessageKeyDownWithLanguage.CODE, MessageKeyDown.CODE, MessageKeyRepeat.CODE, MessageKeyUp.CODE, MessageMouseButtonDown.CODE, MessageMouseButtonUp.CODE, MessageMouseMove.CODE, MessageMouseRelativeMove.CODE, MessageMouseWheel.CODE, MessageClipboardData.CODE, MessageClientInfo.CODE, MessageSetOptions.CODE, MessageFileTransfer.CODE, MessageDragInfo.CODE, MessageSecureEncryption.CODE, MessageLegacySynergy.CODE, MessageQueryInfo.CODE, MessageIncompatibleVersion.CODE, MessageServerBusy.CODE, MessageUnknownClient.CODE, MessageProtocolError.CODE, MessageHelloBarrier.CODE, MessageHelloSynergy.CODE]

theorem parse_dispatch_screenSaverChange (data : Bytes) (h4 : 4 ≤ data.length)
    (hc : data.take 4 = MessageScreenSaverChange.CODE) :
    parse_message data = (MessageScreenSaverChange.from_bytes data).map .ScreenSaverChange := by
  simp [parse_message, hc, validUtf8, contB, show ¬ data.length < 4 by omega,
    MessageNoOp.CODE, MessageClose.CODE, MessageCursorEntered.CODE, MessageCursorLeft.CODE, MessageClientClipboard.CODE, MessageScreenSaverChange.CODE, MessageResetOptions.CODE, MessageInfoAcknowledgment.CODE, MessageKeepAlive.CODE, MessageKeyDownWithLanguage.CODE, MessageKeyDown.CODE, MessageKeyRepeat.CODE, MessageKeyUp.CODE, MessageMouseButtonDown.CODE, MessageMouseButtonUp.CODE, MessageMouseMove.CODE, MessageMouseRelativeMove.CODE, MessageMouseWheel.CODE, MessageClipboardData.CODE, MessageClientInfo.CODE, MessageSetOptions.CODE, MessageFileTransfer.CODE, MessageDragInfo.CODE, MessageSecureEncryption.CODE, MessageLegacySynergy.CODE, MessageQueryInfo.CODE, MessageIncompatibleVersion.CODE, MessageServerBusy.CODE, MessageUnknownClient.CODE, MessageProtocolError.CODE, MessageHelloBarrier.CODE, MessageHelloSynergy.CODE]

theorem parse_dispatch_resetOptions (data : Bytes) (h4 : 4 ≤ data.length)
    (hc : data.take 4 = MessageResetOptions.CODE) :
    parse_message data = (MessageResetOptions.from_bytes data).map .ResetOptions := by
  simp [parse_message, hc, validUtf8, contB, show ¬ data.length < 4 by omega,
    MessageNoOp.CODE, MessageClose.CODE, MessageCursorEntered.CODE, MessageCursorLeft.CODE, MessageClientClipboard.CODE, MessageScreenSaverChange.CODE, MessageResetOptions.CODE, MessageInfoAcknowledgment.CODE, MessageKeepAlive.CODE, MessageKeyDownWithLanguage.CODE, MessageKeyDown.CODE, MessageKeyRepeat.CODE, MessageKeyUp.CODE, MessageMouseButtonDown.CODE, MessageMouseButtonUp.CODE, MessageMouseMove.CODE, MessageMouseRelativeMove.CODE, MessageMouseWheel.CODE, MessageClipboardData.CODE, MessageClientInfo.CODE, MessageSetOptions.CODE, MessageFileTransfer.CODE, MessageDragInfo.CODE, MessageSecureEncryption.CODE, MessageLegacySynergy.CODE, MessageQueryInfo.CODE, MessageIncompatibleVersion.CODE, MessageServerBusy.CODE, MessageUnknownClient.CODE, MessageProtocolError.CODE, MessageHelloBarrier.CODE, MessageHelloSynergy.CODE]

theorem parse_dispatch_infoAcknowledgment (data : Bytes) (h4 : 4 ≤ data.length)
    (hc : data.take 4 = MessageInfoAcknowledgment.CODE) :
    parse_message data = (MessageInfoAcknowledgment.from_bytes data).map .InfoAcknowledgment := by
  simp [parse_message, hc, validUtf8, contB, show ¬ data.length < 4 by omega,
    MessageNoOp.CODE, MessageClose.CODE, MessageCursorEntered.CODE, MessageCursorLeft.CODE, MessageClientClipboard.CODE, MessageScreenSaverChange.CODE, MessageResetOptions.CODE, MessageInfoAcknowledgment.CODE, MessageKeepAlive.CODE, MessageKeyDownWithLanguage.CODE, MessageKeyDown.CODE, MessageKeyRepeat.CODE, MessageKeyUp.CODE, MessageMouseButtonDown.CODE, MessageMouseButtonUp.CODE, MessageMouseMove.CODE, MessageMouseRelativeMove.CODE, MessageMouseWheel.CODE, MessageClipboardData.CODE, MessageClientInfo.CODE, MessageSetOptions.CODE, MessageFileTransfer.CODE, MessageDragInfo.CODE, MessageSecureEncryption.CODE, MessageLegacySynergy.CODE, MessageQueryInfo.CODE, MessageIncompatibleVersion.CODE, MessageServerBusy.CODE, MessageUnknownClient.CODE, MessageProtocolError.CODE, MessageHelloBarrier.CODE, MessageHelloSynergy.CODE]

theorem parse_dispatch_keepAlive (data : Bytes) (h4 : 4 ≤ data.length)
    (hc : data.take 4 = MessageKeepAlive.CODE) :
    parse_message data = (MessageKeepAlive.from_bytes data).map .KeepAlive := by
  simp [parse_message, hc, validUtf8, contB, show ¬ data.length < 4 by omega,
    MessageNoOp.CODE, MessageClose.CODE, MessageCursorEntered.CODE, MessageCursorLeft.CODE, MessageClientClipboard.CODE, MessageScreenSaverChange.CODE, MessageResetOptions.CODE, MessageInfoAcknowledgment.CODE, MessageKeepAlive.CODE, MessageKeyDownWithLanguage.CODE, MessageKeyDown.CODE, MessageKeyRepeat.CODE, MessageKeyUp.CODE, MessageMouseButtonDown.CODE, MessageMouseButtonUp.CODE, MessageMouseMove.CODE, MessageMouseRelativeMove.CODE, MessageMouseWheel.CODE, MessageClipboardData.CODE, MessageClientInfo.CODE, MessageSetOptions.CODE, MessageFileTransfer.CODE, MessageDragInfo.CODE, MessageSecureEncryption.CODE, MessageLegacySynergy.CODE, MessageQueryInfo.CODE, MessageIncompatibleVersion.CODE, MessageServerBusy.CODE, MessageUnknownClient.CODE, MessageProtocolError.CODE, MessageHelloBarrier.CODE, MessageHelloSynergy.CODE]

theorem parse_dispatch_keyDownWithLanguage (data : Bytes) (h4 : 4 ≤ data.length)
    (hc : data.take 4 = MessageKeyDownWithLanguage.CODE) :
    parse_message data = (MessageKeyDownWithLanguage.from_bytes data).map .KeyDownWithLanguage := by
  simp [parse_message, hc, validUtf8, contB, show ¬ data.length < 4 by omega,
    MessageNoOp.CODE, MessageClose.CODE, MessageCursorEntered.CODE, MessageCursorLeft.CODE, MessageClientClipboard.CODE, MessageScreenSaverChange.CODE, MessageResetOptions.CODE, MessageInfoAcknowledgment.CODE, MessageKeepAlive.CODE, MessageKeyDownWithLanguage.CODE, MessageKeyDown.CODE, MessageKeyRepeat.CODE, MessageKeyUp.CODE, MessageMouseButtonDown.CODE, MessageMouseButtonUp.CODE, MessageMouseMove.CODE, MessageMouseRelativeMove.CODE, MessageMouseWheel.CODE, MessageClipboardData.CODE, MessageClientInfo.CODE, MessageSetOptions.CODE, MessageFileTransfer.CODE, MessageDragInfo.CODE, MessageSecureEncryption.CODE, MessageLegacySynergy.CODE, MessageQueryInfo.CODE, MessageIncompatibleVersion.CODE, MessageServerBusy.CODE, MessageUnknownClient.CODE, MessageProtocolError.CODE, MessageHelloBarrier.CODE, MessageHelloSynergy.CODE]

theorem parse_dispatch_keyDown (data : Bytes) (h4 : 4 ≤ data.length)
    (hc : data.take 4 = MessageKeyDown.CODE) :
    parse_message data = (MessageKeyDown.from_bytes data).map .KeyDown := by
  simp [parse_message, hc, validUtf8, contB, show ¬ data.length < 4 by omega,
    MessageNoOp.CODE, MessageClose.CODE, MessageCursorEntered.CODE, MessageCursorLeft.CODE, MessageClientClipboard.CODE, MessageScreenSaverChange.CODE, MessageResetOptions.CODE, MessageInfoAcknowledgment.CODE, MessageKeepAlive.CODE, MessageKeyDownWithLanguage.CODE, MessageKeyDown.CODE, MessageKeyRepeat.CODE, MessageKeyUp.CODE, MessageMouseButtonDown.CODE, MessageMouseButtonUp.CODE, MessageMouseMove.CODE, MessageMouseRelativeMove.CODE, MessageMouseWheel.CODE, MessageClipboardData.CODE, MessageClientInfo.CODE, MessageSetOptions.CODE, MessageFileTransfer.CODE, MessageDragInfo.CODE, MessageSecureEncryption.CODE, MessageLegacySynergy.CODE, MessageQueryInfo.CODE, MessageIncompatibleVersion.CODE, MessageServerBusy.CODE, MessageUnknownClient.CODE, MessageProtocolError.CODE, MessageHelloBarrier.CODE, MessageHelloSynergy.CODE]

theorem parse_dispatch_keyRepeat (data : Bytes) (h4 : 4 ≤ data.length)
    (hc : data.take 4 = MessageKeyRepeat.CODE) :
    parse_message data = (MessageKeyRepeat.from_bytes data).map .KeyRepeat := by
  simp [parse_message, hc, validUtf8, contB, show ¬ data.length < 4 by omega,
    MessageNoOp.CODE, MessageClose.CODE, MessageCursorEntered.CODE, MessageCursorLeft.CODE, MessageClientClipboard.CODE, MessageScreenSaverChange.CODE, MessageResetOptions.CODE, MessageInfoAcknowledgment.CODE, MessageKeepAlive.CODE, MessageKeyDownWithLanguage.CODE, MessageKeyDown.CODE, MessageKeyRepeat.CODE, MessageKeyUp.CODE, MessageMouseButtonDown.CODE, MessageMouseButtonUp.CODE, MessageMouseMove.CODE, MessageMouseRelativeMove.CODE, MessageMouseWheel.CODE, MessageClipboardData.CODE, MessageClientInfo.CODE, MessageSetOptions.CODE, MessageFileTransfer.CODE, MessageDragInfo.CODE, MessageSecureEncryption.CODE, MessageLegacySynergy.CODE, MessageQueryInfo.CODE, MessageIncompatibleVersion.CODE, MessageServerBusy.CODE, MessageUnknownClient.CODE, MessageProtocolError.CODE, MessageHelloBarrier.CODE, MessageHelloSynergy.CODE]

theorem parse_dispatch_keyUp (data : Bytes) (h4 : 4 ≤ data.length)
    (hc : data.take 4 = MessageKeyUp.CODE) :
    parse_message data = (MessageKeyUp.from_bytes data).map .KeyUp := by
  simp [parse_message, hc, validUtf8, contB, show ¬ data.length < 4 by omega,
    MessageNoOp.CODE, MessageClose.CODE, MessageCursorEntered.CODE, MessageCursorLeft.CODE, MessageClientClipboard.CODE, MessageScreenSaverChange.CODE, MessageResetOptions.CODE, MessageInfoAcknowledgment.CODE, MessageKeepAlive.CODE, MessageKeyDownWithLanguage.CODE, MessageKeyDown.CODE, MessageKeyRepeat.CODE, MessageKeyUp.CODE, MessageMouseButtonDown.CODE, MessageMouseButtonUp.CODE, MessageMouseMove.CODE, MessageMouseRelativeMove.CODE, MessageMouseWheel.CODE, MessageClipboardData.CODE, MessageClientInfo.CODE, MessageSetOptions.CODE, MessageFileTransfer.CODE, MessageDragInfo.CODE, MessageSecureEncryption.CODE, MessageLegacySynergy.CODE, MessageQueryInfo.CODE, MessageIncompatibleVersion.CODE, MessageServerBusy.CODE, MessageUnknownClient.CODE, MessageProtocolError.CODE, MessageHelloBarrier.CODE, MessageHelloSynergy.CODE]

theorem parse_dispatch_mouseButtonDown (data : Bytes) (h4 : 4 ≤ data.length)
    (hc : data.take 4 = MessageMouseButtonDown.CODE) :
    parse_message data = (MessageMouseButtonDown.from_bytes data).map .MouseButtonDown := by
  simp [parse_message, hc, validUtf8, contB, show ¬ data.length < 4 by omega,
    MessageNoOp.CODE, MessageClose.CODE, MessageCursorEntered.CODE, MessageCursorLeft.CODE, MessageClientClipboard.CODE, MessageScreenSaverChange.CODE, MessageResetOptions.CODE, MessageInfoAcknowledgment.CODE, MessageKeepAlive.CODE, MessageKeyDownWithLanguage.CODE, MessageKeyDown.CODE, MessageKeyRepeat.CODE, MessageKeyUp.CODE, MessageMouseButtonDown.CODE, MessageMouseButtonUp.CODE, MessageMouseMove.CODE, MessageMouseRelativeMove.CODE, MessageMouseWheel.CODE, MessageClipboardData.CODE, MessageClientInfo.CODE, MessageSetOptions.CODE, MessageFileTransfer.CODE, MessageDragInfo.CODE, MessageSecureEncryption.CODE, MessageLegacySynergy.CODE, MessageQueryInfo.CODE, MessageIncompatibleVersion.CODE, MessageServerBusy.CODE, MessageUnknownClient.CODE, MessageProtocolError.CODE, MessageHelloBarrier.CODE, MessageHelloSynergy.CODE]

theorem parse_dispatch_mouseButtonUp (data : Bytes) (h4 : 4 ≤ data.length)
    (hc : data.take 4 = MessageMouseButtonUp.CODE) :
    parse_message data = (MessageMouseButtonUp.from_bytes data).map .MouseButtonUp := by
  simp [parse_message, hc, validUtf8, contB, show ¬ data.length < 4 by omega,
    MessageNoOp.CODE, MessageClose.CODE, MessageCursorEntered.CODE, MessageCursorLeft.CODE, MessageClientClipboard.CODE, MessageScreenSaverChange.CODE, MessageResetOptions.CODE, MessageInfoAcknowledgment.CODE, MessageKeepAlive.CODE, MessageKeyDownWithLanguage.CODE, MessageKeyDown.CODE, MessageKeyRepeat.CODE, MessageKeyUp.CODE, MessageMouseButtonDown.CODE, MessageMouseButtonUp.CODE, MessageMouseMove.CODE, MessageMouseRelativeMove.CODE, MessageMouseWheel.CODE, MessageClipboardData.CODE, MessageClientInfo.CODE, MessageSetOptions.CODE, MessageFileTransfer.CODE, MessageDragInfo.CODE, MessageSecureEncryption.CODE, MessageLegacySynergy.CODE, MessageQueryInfo.CODE, MessageIncompatibleVersion.CODE, MessageServerBusy.CODE, MessageUnknownClient.CODE, MessageProtocolError.CODE, MessageHelloBarrier.CODE, MessageHelloSynergy.CODE]

theorem parse_dispatch_mouseMove (data : Bytes) (h4 : 4 ≤ data.length)
    (hc : data.take 4 = MessageMouseMove.CODE) :
    parse_message data = (MessageMouseMove.from_bytes data).map .MouseMove := by
  simp [parse_message, hc, validUtf8, contB, show ¬ data.length < 4 by omega,
    MessageNoOp.CODE, MessageClose.CODE, MessageCursorEntered.CODE, MessageCursorLeft.CODE, MessageClientClipboard.CODE, MessageScreenSaverChange.CODE, MessageResetOptions.CODE, MessageInfoAcknowledgment.CODE, MessageKeepAlive.CODE, MessageKeyDownWithLanguage.CODE, MessageKeyDown.CODE, MessageKeyRepeat.CODE, MessageKeyUp.CODE, MessageMouseButtonDown.CODE, MessageMouseButtonUp.CODE, MessageMouseMove.CODE, MessageMouseRelativeMove.CODE, MessageMouseWheel.CODE, MessageClipboardData.CODE, MessageClientInfo.CODE, MessageSetOptions.CODE, MessageFileTransfer.CODE, MessageDragInfo.CODE, MessageSecureEncryption.CODE, MessageLegacySynergy.CODE, MessageQueryInfo.CODE, MessageIncompatibleVersion.CODE, MessageServerBusy.CODE, MessageUnknownClient.CODE, MessageProtocolError.CODE, MessageHelloBarrier.CODE, MessageHelloSynergy.CODE]

theorem parse_dispatch_mouseRelativeMove (data : Bytes) (h4 : 4 ≤ data.length)
    (hc : data.take 4 = MessageMouseRelativeMove.CODE) :
    parse_message data = (MessageMouseRelativeMove.from_bytes data).map .MouseRelativeMove := by
  simp [parse_message, hc, validUtf8, contB, show ¬ data.length < 4 by omega,
    MessageNoOp.CODE, MessageClose.CODE, MessageCursorEntered.CODE, MessageCursorLeft.CODE, MessageClientClipboard.CODE, MessageScreenSaverChange.CODE, MessageResetOptions.CODE, MessageInfoAcknowledgment.CODE, MessageKeepAlive.CODE, MessageKeyDownWithLanguage.CODE, MessageKeyDown.CODE, MessageKeyRepeat.CODE, MessageKeyUp.CODE, MessageMouseButtonDown.CODE, MessageMouseButtonUp.CODE, MessageMouseMove.CODE, MessageMouseRelativeMove.CODE, MessageMouseWheel.CODE, MessageClipboardData.CODE, MessageClientInfo.CODE, MessageSetOptions.CODE, MessageFileTransfer.CODE, MessageDragInfo.CODE, MessageSecureEncryption.CODE, MessageLegacySynergy.CODE, MessageQueryInfo.CODE, MessageIncompatibleVersion.CODE, MessageServerBusy.CODE, MessageUnknownClient.CODE, MessageProtocolError.CODE, MessageHelloBarrier.CODE, MessageHelloSynergy.CODE]

theorem parse_dispatch_mouseWheel (data : Bytes) (h4 : 4 ≤ data.length)
    (hc : data.take 4 = MessageMouseWheel.CODE) :
    parse_message data = (MessageMouseWheel.from_bytes data).map .MouseWheel := by
  simp [parse_message, hc, validUtf8, contB, show ¬ data.length < 4 by omega,
    MessageNoOp.CODE, MessageClose.CODE, MessageCursorEntered.CODE, MessageCursorLeft.CODE, MessageClientClipboard.CODE, MessageScreenSaverChange.CODE, MessageResetOptions.CODE, MessageInfoAcknowledgment.CODE, MessageKeepAlive.CODE, MessageKeyDownWithLanguage.CODE, MessageKeyDown.CODE, MessageKeyRepeat.CODE, MessageKeyUp.CODE, MessageMouseButtonDown.CODE, MessageMouseButtonUp.CODE, MessageMouseMove.CODE, MessageMouseRelativeMove.CODE, MessageMouseWheel.CODE, MessageClipboardData.CODE, MessageClientInfo.CODE, MessageSetOptions.CODE, MessageFileTransfer.CODE, MessageDragInfo.CODE, MessageSecureEncryption.CODE, MessageLegacySynergy.CODE, MessageQueryInfo.CODE, MessageIncompatibleVersion.CODE, MessageServerBusy.CODE, MessageUnknownClient.CODE, MessageProtocolError.CODE, MessageHelloBarrier.CODE, MessageHelloSynergy.CODE]

theorem parse_dispatch_clipboardData (data : Bytes) (h4 : 4 ≤ data.length)
    (hc : data.take 4 = MessageClipboardData.CODE) :
    parse_message data = (MessageClipboardData.from_bytes data).map .ClipboardData := by
  simp [parse_message, hc, validUtf8, contB, show ¬ data.length < 4 by omega,
    MessageNoOp.CODE, MessageClose.CODE, MessageCursorEntered.CODE, MessageCursorLeft.CODE, MessageClientClipboard.CODE, MessageScreenSaverChange.CODE, MessageResetOptions.CODE, MessageInfoAcknowledgment.CODE, MessageKeepAlive.CODE, MessageKeyDownWithLanguage.CODE, MessageKeyDown.CODE, MessageKeyRepeat.CODE, MessageKeyUp.CODE, MessageMouseButtonDown.CODE, MessageMouseButtonUp.CODE, MessageMouseMove.CODE, MessageMouseRelativeMove.CODE, MessageMouseWheel.CODE, MessageClipboardData.CODE, MessageClientInfo.CODE, MessageSetOptions.CODE, MessageFileTransfer.CODE, MessageDragInfo.CODE, MessageSecureEncryption.CODE, MessageLegacySynergy.CODE, MessageQueryInfo.CODE, MessageIncompatibleVersion.CODE, MessageServerBusy.CODE, MessageUnknownClient.CODE, MessageProtocolError.CODE, MessageHelloBarrier.CODE, MessageHelloSynergy.CODE]

theorem parse_dispatch_clientInfo (data : Bytes) (h4 : 4 ≤ data.length)
    (hc : data.take 4 = MessageClientInfo.CODE) :
    parse_message data = (MessageClientInfo.from_bytes data).map .ClientInfo := by
  simp [parse_message, hc, validUtf8, contB, show ¬ data.length < 4 by omega,
    MessageNoOp.CODE, MessageClose.CODE, MessageCursorEntered.CODE, MessageCursorLeft.CODE, MessageClientClipboard.CODE, MessageScreenSaverChange.CODE, MessageResetOptions.CODE, MessageInfoAcknowledgment.CODE, MessageKeepAlive.CODE, MessageKeyDownWithLanguage.CODE, MessageKeyDown.CODE, MessageKeyRepeat.CODE, MessageKeyUp.CODE, MessageMouseButtonDown.CODE, MessageMouseButtonUp.CODE, MessageMouseMove.CODE, MessageMouseRelativeMove.CODE, MessageMouseWheel.CODE, MessageClipboardData.CODE, MessageClientInfo.CODE, MessageSetOptions.CODE, MessageFileTransfer.CODE, MessageDragInfo.CODE, MessageSecureEncryption.CODE, MessageLegacySynergy.CODE, MessageQueryInfo.CODE, MessageIncompatibleVersion.CODE, MessageServerBusy.CODE, MessageUnknownClient.CODE, MessageProtocolError.CODE, MessageHelloBarrier.CODE, MessageHelloSynergy.CODE]

theorem parse_dispatch_setOptions (data : Bytes) (h4 : 4 ≤ data.length)
    (hc : data.take 4 = MessageSetOptions.CODE) :
    parse_message data = (MessageSetOptions.from_bytes data).map .SetOptions := by
  simp [parse_message, hc, validUtf8, contB, show ¬ data.length < 4 by omega,
    MessageNoOp.CODE, MessageClose.CODE, MessageCursorEntered.CODE, MessageCursorLeft.CODE, MessageClientClipboard.CODE, MessageScreenSaverChange.CODE, MessageResetOptions.CODE, MessageInfoAcknowledgment.CODE, MessageKeepAlive.CODE, MessageKeyDownWithLanguage.CODE, MessageKeyDown.CODE, MessageKeyRepeat.CODE, MessageKeyUp.CODE, MessageMouseButtonDown.CODE, MessageMouseButtonUp.CODE, MessageMouseMove.CODE, MessageMouseRelativeMove.CODE, MessageMouseWheel.CODE, MessageClipboardData.CODE, MessageClientInfo.CODE, MessageSetOptions.CODE, MessageFileTransfer.CODE, MessageDragInfo.CODE, MessageSecureEncryption.CODE, MessageLegacySynergy.CODE, MessageQueryInfo.CODE, MessageIncompatibleVersion.CODE, MessageServerBusy.CODE, MessageUnknownClient.CODE, MessageProtocolError.CODE, MessageHelloBarrier.CODE, MessageHelloSynergy.CODE]

theorem parse_dispatch_fileTransfer (data : Bytes) (h4 : 4 ≤ data.length)
    (hc : data.take 4 = MessageFileTransfer.CODE) :
    parse_message data = (MessageFileTransfer.from_bytes data).map .FileTransfer := by
  simp [parse_message, hc, validUtf8, contB, show ¬ data.length < 4 by omega,
    MessageNoOp.CODE, MessageClose.CODE, MessageCursorEntered.CODE, MessageCursorLeft.CODE, MessageClientClipboard.CODE, MessageScreenSaverChange.CODE, MessageResetOptions.CODE, MessageInfoAcknowledgment.CODE, MessageKeepAlive.CODE, MessageKeyDownWithLanguage.CODE, MessageKeyDown.CODE, MessageKeyRepeat.CODE, MessageKeyUp.CODE, MessageMouseButtonDown.CODE, MessageMouseButtonUp.CODE, MessageMouseMove.CODE, MessageMouseRelativeMove.CODE, MessageMouseWheel.CODE, MessageClipboardData.CODE, MessageClientInfo.CODE, MessageSetOptions.CODE, MessageFileTransfer.CODE, MessageDragInfo.CODE, MessageSecureEncryption.CODE, MessageLegacySynergy.CODE, MessageQueryInfo.CODE, MessageIncompatibleVersion.CODE, MessageServerBusy.CODE, MessageUnknownClient.CODE, MessageProtocolError.CODE, MessageHelloBarrier.CODE, MessageHelloSynergy.CODE]

theorem parse_dispatch_dragInfo (data : Bytes) (h4 : 4 ≤ data.length)
    (hc : data.take 4 = MessageDragInfo.CODE) :
    parse_message data = (MessageDragInfo.from_bytes data).map .DragInfo := by
  simp [parse_message, hc, validUtf8, contB, show ¬ data.length < 4 by omega,
    MessageNoOp.CODE, MessageClose.CODE, MessageCursorEntered.CODE, MessageCursorLeft.CODE, MessageClientClipboard.CODE, MessageScreenSaverChange.CODE, MessageResetOptions.CODE, MessageInfoAcknowledgment.CODE, MessageKeepAlive.CODE, MessageKeyDownWithLanguage.CODE, MessageKeyDown.CODE, MessageKeyRepeat.CODE, MessageKeyUp.CODE, MessageMouseButtonDown.CODE, MessageMouseButtonUp.CODE, MessageMouseMove.CODE, MessageMouseRelativeMove.CODE, MessageMouseWheel.CODE, MessageClipboardData.CODE, MessageClientInfo.CODE, MessageSetOptions.CODE, MessageFileTransfer.CODE, MessageDragInfo.CODE, MessageSecureEncryption.CODE, MessageLegacySynergy.CODE, MessageQueryInfo.CODE, MessageIncompatibleVersion.CODE, MessageServerBusy.CODE, MessageUnknownClient.CODE, MessageProtocolError.CODE, MessageHelloBarrier.CODE, MessageHelloSynergy.CODE]

theorem parse_dispatch_secureEncryption (data : Bytes) (h4 : 4 ≤ data.length)
    (hc : data.take 4 = MessageSecureEncryption.CODE) :
    parse_message data = (MessageSecureEncryption.from_bytes data).map .SecureEncryption := by
  simp [parse_message, hc, validUtf8, contB, show ¬ data.length < 4 by omega,
    MessageNoOp.CODE, MessageClose.CODE, MessageCursorEntered.CODE, MessageCursorLeft.CODE, MessageClientClipboard.CODE, MessageScreenSaverChange.CODE, MessageResetOptions.CODE, MessageInfoAcknowledgment.CODE, MessageKeepAlive.CODE, MessageKeyDownWithLanguage.CODE, MessageKeyDown.CODE, MessageKeyRepeat.CODE, MessageKeyUp.CODE, MessageMouseButtonDown.CODE, MessageMouseButtonUp.CODE, MessageMouseMove.CODE, MessageMouseRelativeMove.CODE, MessageMouseWheel.CODE, MessageClipboardData.CODE, MessageClientInfo.CODE, MessageSetOptions.CODE, MessageFileTransfer.CODE, MessageDragInfo.CODE, MessageSecureEncryption.CODE, MessageLegacySynergy.CODE, MessageQueryInfo.CODE, MessageIncompatibleVersion.CODE, MessageServerBusy.CODE, MessageUnknownClient.CODE, MessageProtocolError.CODE, MessageHelloBarrier.CODE, MessageHelloSynergy.CODE]

theorem parse_dispatch_legacySynergy (data : Bytes) (h4 : 4 ≤ data.length)
    (hc : data.take 4 = MessageLegacySynergy.CODE) :
    parse_message data = (MessageLegacySynergy.from_bytes data).map .LegacySynergy := by
  simp [parse_message, hc, validUtf8, contB, show ¬ data.length < 4 by omega,
    MessageNoOp.CODE, MessageClose.CODE, MessageCursorEntered.CODE, MessageCursorLeft.CODE, MessageClientClipboard.CODE, MessageScreenSaverChange.CODE, MessageResetOptions.CODE, MessageInfoAcknowledgment.CODE, MessageKeepAlive.CODE, MessageKeyDownWithLanguage.CODE, MessageKeyDown.CODE, MessageKeyRepeat.CODE, MessageKeyUp.CODE, MessageMouseButtonDown.CODE, MessageMouseButtonUp.CODE, MessageMouseMove.CODE, MessageMouseRelativeMove.CODE, MessageMouseWheel.CODE, MessageClipboardData.CODE, MessageClientInfo.CODE, MessageSetOptions.CODE, MessageFileTransfer.CODE, MessageDragInfo.CODE, MessageSecureEncryption.CODE, MessageLegacySynergy.CODE, MessageQueryInfo.CODE, MessageIncompatibleVersion.CODE, MessageServerBusy.CODE, MessageUnknownClient.CODE, MessageProtocolError.CODE, MessageHelloBarrier.CODE, MessageHelloSynergy.CODE]

theorem parse_dispatch_queryInfo (data : Bytes) (h4 : 4 ≤ data.length)
    (hc : data.take 4 = MessageQueryInfo.CODE) :
    parse_message data = (MessageQueryInfo.from_bytes data).map .QueryInfo := by
  simp [parse_message, hc, validUtf8, contB, show ¬ data.length < 4 by omega,
    MessageNoOp.CODE, MessageClose.CODE, MessageCursorEntered.CODE, MessageCursorLeft.CODE, MessageClientClipboard.CODE, MessageScreenSaverChange.CODE, MessageResetOptions.CODE, MessageInfoAcknowledgment.CODE, MessageKeepAlive.CODE, MessageKeyDownWithLanguage.CODE, MessageKeyDown.CODE, MessageKeyRepeat.CODE, MessageKeyUp.CODE, MessageMouseButtonDown.CODE, MessageMouseButtonUp.CODE, MessageMouseMove.CODE, MessageMouseRelativeMove.CODE, MessageMouseWheel.CODE, MessageClipboardData.CODE, MessageClientInfo.CODE, MessageSetOptions.CODE, MessageFileTransfer.CODE, MessageDragInfo.CODE, MessageSecureEncryption.CODE, MessageLegacySynergy.CODE, MessageQueryInfo.CODE, MessageIncompatibleVersion.CODE, MessageServerBusy.CODE, MessageUnknownClient.CODE, MessageProtocolError.CODE, MessageHelloBarrier.CODE, MessageHelloSynergy.CODE]

theorem parse_dispatch_incompatibleVersion (data : Bytes) (h4 : 4 ≤ data.length)
    (hc : data.take 4 = MessageIncompatibleVersion.CODE) :
    parse_message data = (MessageIncompatibleVersion.from_bytes data).map .IncompatibleVersion := by
  simp [parse_message, hc, validUtf8, contB, show ¬ data.length < 4 by omega,
    MessageNoOp.CODE, MessageClose.CODE, MessageCursorEntered.CODE, MessageCursorLeft.CODE, MessageClientClipboard.CODE, MessageScreenSaverChange.CODE, MessageResetOptions.CODE, MessageInfoAcknowledgment.CODE, MessageKeepAlive.CODE, MessageKeyDownWithLanguage.CODE, MessageKeyDown.CODE, MessageKeyRepeat.CODE, MessageKeyUp.CODE, MessageMouseButtonDown.CODE, MessageMouseButtonUp.CODE, MessageMouseMove.CODE, MessageMouseRelativeMove.CODE, MessageMouseWheel.CODE, MessageClipboardData.CODE, MessageClientInfo.CODE, MessageSetOptions.CODE, MessageFileTransfer.CODE, MessageDragInfo.CODE, MessageSecureEncryption.CODE, MessageLegacySynergy.CODE, MessageQueryInfo.CODE, MessageIncompatibleVersion.CODE, MessageServerBusy.CODE, MessageUnknownClient.CODE, MessageProtocolError.CODE, MessageHelloBarrier.CODE, MessageHelloSynergy.CODE]

theorem parse_dispatch_serverBusy (data : Bytes) (h4 : 4 ≤ data.length)
    (hc : data.take 4 = MessageServerBusy.CODE) :
    parse_message data = (MessageServerBusy.from_bytes data).map .ServerBusy := by
  simp [parse_message, hc, validUtf8, contB, show ¬ data.length < 4 by omega,
    MessageNoOp.CODE, MessageClose.CODE, MessageCursorEntered.CODE, MessageCursorLeft.CODE, MessageClientClipboard.CODE, MessageScreenSaverChange.CODE, MessageResetOptions.CODE, MessageInfoAcknowledgment.CODE, MessageKeepAlive.CODE, MessageKeyDownWithLanguage.CODE, MessageKeyDown.CODE, MessageKeyRepeat.CODE, MessageKeyUp.CODE, MessageMouseButtonDown.CODE, MessageMouseButtonUp.CODE, MessageMouseMove.CODE, MessageMouseRelativeMove.CODE, MessageMouseWheel.CODE, MessageClipboardData.CODE, MessageClientInfo.CODE, MessageSetOptions.CODE, MessageFileTransfer.CODE, MessageDragInfo.CODE, MessageSecureEncryption.CODE, MessageLegacySynergy.CODE, MessageQueryInfo.CODE, MessageIncompatibleVersion.CODE, MessageServerBusy.CODE, MessageUnknownClient.CODE, MessageProtocolError.CODE, MessageHelloBarrier.CODE, MessageHelloSynergy.CODE]

theorem parse_dispatch_unknownClient (data : Bytes) (h4 : 4 ≤ data.length)
    (hc : data.take 4 = MessageUnknownClient.CODE) :
    parse_message data = (MessageUnknownClient.from_bytes data).map .UnknownClient := by
  simp [parse_message, hc, validUtf8, contB, show ¬ data.length < 4 by omega,
    MessageNoOp.CODE, MessageClose.CODE, MessageCursorEntered.CODE, MessageCursorLeft.CODE, MessageClientClipboard.CODE, MessageScreenSaverChange.CODE, MessageResetOptions.CODE, MessageInfoAcknowledgment.CODE, MessageKeepAlive.CODE, MessageKeyDownWithLanguage.CODE, MessageKeyDown.CODE, MessageKeyRepeat.CODE, MessageKeyUp.CODE, MessageMouseButtonDown.CODE, MessageMouseButtonUp.CODE, MessageMouseMove.CODE, MessageMouseRelativeMove.CODE, MessageMouseWheel.CODE, MessageClipboardData.CODE, MessageClientInfo.CODE, MessageSetOptions.CODE, MessageFileTransfer.CODE, MessageDragInfo.CODE, MessageSecureEncryption.CODE, MessageLegacySynergy.CODE, MessageQueryInfo.CODE, MessageIncompatibleVersion.CODE, MessageServerBusy.CODE, MessageUnknownClient.CODE, MessageProtocolError.CODE, MessageHelloBarrier.CODE, MessageHelloSynergy.CODE]

theorem parse_dispatch_protocolErr (data : Bytes) (h4 : 4 ≤ data.length)
    (hc : data.take 4 = MessageProtocolError.CODE) :
    parse_message data = (MessageProtocolError.from_bytes data).map .ProtocolErr := by
  simp [parse_message, hc, validUtf8, contB, show ¬ data.length < 4 by omega,
    MessageNoOp.CODE, MessageClose.CODE, MessageCursorEntered.CODE, MessageCursorLeft.CODE, MessageClientClipboard.CODE, MessageScreenSaverChange.CODE, MessageResetOptions.CODE, MessageInfoAcknowledgment.CODE, MessageKeepAlive.CODE, MessageKeyDownWithLanguage.CODE, MessageKeyDown.CODE, MessageKeyRepeat.CODE, MessageKeyUp.CODE, MessageMouseButtonDown.CODE, MessageMouseButtonUp.CODE, MessageMouseMove.CODE, MessageMouseRelativeMove.CODE, MessageMouseWheel.CODE, MessageClipboardData.CODE, MessageClientInfo.CODE, MessageSetOptions.CODE, MessageFileTransfer.CODE, MessageDragInfo.CODE, MessageSecureEncryption.CODE, MessageLegacySynergy.CODE, MessageQueryInfo.CODE, MessageIncompatibleVersion.CODE, MessageServerBusy.CODE, MessageUnknownClient.CODE, MessageProtocolError.CODE, MessageHelloBarrier.CODE, MessageHelloSynergy.CODE]

theorem parse_dispatch_helloBarrier (data : Bytes) (h7 : 7 ≤ data.length)
    (hc : data.take 7 = MessageHelloBarrier.CODE) :
    parse_message data = (MessageHelloBarrier.from_bytes data).map .HelloBarrier := by
  have hc4 : data.take 4 = MessageHelloBarrier.CODE.take 4 := by
    have h44 : (data.take 7).take 4 = data.take 4 := by simp [List.take_take]
    rw [← h44, hc]
  simp [parse_message, hc4, hc, h7, validUtf8, contB, show ¬ data.length < 4 by omega,
    MessageNoOp.CODE, MessageClose.CODE, MessageCursorEntered.CODE, MessageCursorLeft.CODE, MessageClientClipboard.CODE, MessageScreenSaverChange.CODE, MessageResetOptions.CODE, MessageInfoAcknowledgment.CODE, MessageKeepAlive.CODE, MessageKeyDownWithLanguage.CODE, MessageKeyDown.CODE, MessageKeyRepeat.CODE, MessageKeyUp.CODE, MessageMouseButtonDown.CODE, MessageMouseButtonUp.CODE, MessageMouseMove.CODE, MessageMouseRelativeMove.CODE, MessageMouseWheel.CODE, MessageClipboardData.CODE, MessageClientInfo.CODE, MessageSetOptions.CODE, MessageFileTransfer.CODE, MessageDragInfo.CODE, MessageSecureEncryption.CODE, MessageLegacySynergy.CODE, MessageQueryInfo.CODE, MessageIncompatibleVersion.CODE, MessageServerBusy.CODE, MessageUnknownClient.CODE, MessageProtocolError.CODE, MessageHelloBarrier.CODE, MessageHelloSynergy.CODE]

theorem parse_dispatch_helloSynergy (data : Bytes) (h7 : 7 ≤ data.length)
    (hc : data.take 7 = MessageHelloSynergy.CODE) :
    parse_message data = (MessageHelloSynergy.from_bytes data).map .HelloSynergy := by
  have hc4 : data.take 4 = MessageHelloSynergy.CODE.take 4 := by
    have h44 : (data.take 7).take 4 = data.take 4 := by simp [List.take_take]
    rw [← h44, hc]
  simp [parse_message, hc4, hc, h7, validUtf8, contB, show ¬ data.length < 4 by omega,
    MessageNoOp.CODE, MessageClose.CODE, MessageCursorEntered.CODE, MessageCursorLeft.CODE, MessageClientClipboard.CODE, MessageScreenSaverChange.CODE, MessageResetOptions.CODE, MessageInfoAcknowledgment.CODE, MessageKeepAlive.CODE, MessageKeyDownWithLanguage.CODE, MessageKeyDown.CODE, MessageKeyRepeat.CODE, MessageKeyUp.CODE, MessageMouseButtonDown.CODE, MessageMouseButtonUp.CODE, MessageMouseMove.CODE, MessageMouseRelativeMove.CODE, MessageMouseWheel.CODE, MessageClipboardData.CODE, MessageClientInfo.CODE, MessageSetOptions.CODE, MessageFileTransfer.CODE, MessageDragInfo.CODE, MessageSecureEncryption.CODE, MessageLegacySynergy.CODE, MessageQueryInfo.CODE, MessageIncompatibleVersion.CODE, MessageServerBusy.CODE, MessageUnknownClient.CODE, MessageProtocolError.CODE, MessageHelloBarrier.CODE, MessageHelloSynergy.CODE]

theorem read_u8_shape_mod (data pre r : Bytes) (b off : Nat)
    (hd : data = pre ++ ([b % 256] ++ r)) (hoff : pre.length = off) (hb : b < 256) :
    read_u8 data off = .ok b := by
  have h := read_u8_shape data pre r (b % 256) off hd hoff
  rwa [Nat.mod_eq_of_lt hb] at h

/-! Per-variant decode-of-encode lemmas (`from_bytes` after `to_bytes`). -/

theorem from_to_cursorEntered (m : MessageCursorEntered) (h_x1 : -32768 ≤ m.x) (h_x2 : m.x < 32768) (h_y1 : -32768 ≤ m.y) (h_y2 : m.y < 32768) (h_sequence : m.sequence < 4294967296) (h_mask : m.mask < 65536) :
    MessageCursorEntered.from_bytes m.to_bytes = .ok m := by
  simp only [MessageCursorEntered.from_bytes]
  rw [if_neg (by simp [MessageCursorEntered.to_bytes, MessageCursorEntered.CODE]; try omega)]
  rw [read_i16_shape _ (MessageCursorEntered.CODE) ((i16be m.y ++ u32be m.sequence ++ u16be m.mask)) m.x (MessageCursorEntered.CODE.length) (by simp [MessageCursorEntered.to_bytes]) rfl h_x1 h_x2, ebind_ok]
  rw [read_i16_shape _ (MessageCursorEntered.CODE ++ i16be m.x) ((u32be m.sequence ++ u16be m.mask)) m.y (MessageCursorEntered.CODE.length + 2) (by simp [MessageCursorEntered.to_bytes]) (by simp) h_y1 h_y2, ebind_ok]
  rw [read_u32_shape _ (MessageCursorEntered.CODE ++ i16be m.x ++ i16be m.y) (u16be m.mask) m.sequence (MessageCursorEntered.CODE.length + 4) (by simp [MessageCursorEntered.to_bytes]) (by simp) h_sequence, ebind_ok]
  rw [read_u16_shape _ (MessageCursorEntered.CODE ++ i16be m.x ++ i16be m.y ++ u32be m.sequence) (([] : Bytes)) m.mask (MessageCursorEntered.CODE.length + 8) (by simp [MessageCursorEntered.to_bytes]) (by simp) h_mask, ebind_ok]

theorem from_to_clientClipboard (m : MessageClientClipboard) (h_id : m.id < 256) (h_sequence : m.sequence < 4294967296) :
    MessageClientClipboard.from_bytes m.to_bytes = .ok m := by
  simp only [MessageClientClipboard.from_bytes]
  rw [if_neg (by simp [MessageClientClipboard.to_bytes, MessageClientClipboard.CODE]; try omega)]
  rw [read_u8_shape_mod _ (MessageClientClipboard.CODE) (u32be m.sequence) m.id (MessageClientClipboard.CODE.length) (by simp [MessageClientClipboard.to_bytes]) rfl h_id, ebind_ok]
  rw [read_u32_shape _ (MessageClientClipboard.CODE ++ [m.id % 256]) (([] : Bytes)) m.sequence (MessageClientClipboard.CODE.length + 1) (by simp [MessageClientClipboard.to_bytes]) (by simp) h_sequence, ebind_ok]

theorem from_to_screenSaverChange (m : MessageScreenSaverChange) (h_state : m.state < 256) :
    MessageScreenSaverChange.from_bytes m.to_bytes = .ok m := by
  simp only [MessageScreenSaverChange.from_bytes]
  rw [if_neg (by simp [MessageScreenSaverChange.to_bytes, MessageScreenSaverChange.CODE]; try omega)]
  rw [read_u8_shape_mod _ (MessageScreenSaverChange.CODE) (([] : Bytes)) m.state (MessageScreenSaverChange.CODE.length) (by simp [MessageScreenSaverChange.to_bytes]) rfl h_state, ebind_ok]

theorem from_to_keyDownWithLanguage (m : MessageKeyDownWithLanguage) (h_keyid : m.keyid < 65536) (h_mask : m.mask < 65536) (h_button : m.button < 65536) (h_langu : validUtf8 m.lang = true) (h_langl : m.lang.length < 4294967296) :
    MessageKeyDownWithLanguage.from_bytes m.to_bytes = .ok m := by
  simp only [MessageKeyDownWithLanguage.from_bytes]
  rw [if_neg (by simp [MessageKeyDownWithLanguage.to_bytes, MessageKeyDownWithLanguage.CODE]; try omega)]
  rw [lps_from_bytes_shape _ (MessageKeyDownWithLanguage.CODE ++ u16be m.keyid ++ u16be m.mask ++ u16be m.button) (([] : Bytes)) m.lang (MessageKeyDownWithLanguage.CODE.length + 6) (by simp [MessageKeyDownWithLanguage.to_bytes]) (by simp) h_langu h_langl, ebind_ok]
  rw [read_u16_shape _ (MessageKeyDownWithLanguage.CODE) ((u16be m.mask ++ u16be m.button ++ lps_to_bytes m.lang)) m.keyid (MessageKeyDownWithLanguage.CODE.length) (by simp [MessageKeyDownWithLanguage.to_bytes]) rfl h_keyid, ebind_ok]
  rw [read_u16_shape _ (MessageKeyDownWithLanguage.CODE ++ u16be m.keyid) ((u16be m.button ++ lps_to_bytes m.lang)) m.mask (MessageKeyDownWithLanguage.CODE.length + 2) (by simp [MessageKeyDownWithLanguage.to_bytes]) (by simp) h_mask, ebind_ok]
  rw [read_u16_shape _ (MessageKeyDownWithLanguage.CODE ++ u16be m.keyid ++ u16be m.mask) (lps_to_bytes m.lang) m.button (MessageKeyDownWithLanguage.CODE.length + 4) (by simp [MessageKeyDownWithLanguage.to_bytes]) (by simp) h_button, ebind_ok]

theorem from_to_keyDown (m : MessageKeyDown) (h_keyid : m.keyid < 65536) (h_mask : m.mask < 65536) (h_button : m.button < 65536) :
    MessageKeyDown.from_bytes m.to_bytes = .ok m := by
  simp only [MessageKeyDown.from_bytes]
  rw [if_neg (by simp [MessageKeyDown.to_bytes, MessageKeyDown.CODE]; try omega)]
  rw [read_u16_shape _ (MessageKeyDown.CODE) ((u16be m.mask ++ u16be m.button)) m.keyid (MessageKeyDown.CODE.length) (by simp [MessageKeyDown.to_bytes]) rfl h_keyid, ebind_ok]
  rw [read_u16_shape _ (MessageKeyDown.CODE ++ u16be m.keyid) (u16be m.button) m.mask (MessageKeyDown.CODE.length + 2) (by simp [MessageKeyDown.to_bytes]) (by simp) h_mask, ebind_ok]
  rw [read_u16_shape _ (MessageKeyDown.CODE ++ u16be m.keyid ++ u16be m.mask) (([] : Bytes)) m.button (MessageKeyDown.CODE.length + 4) (by simp [MessageKeyDown.to_bytes]) (by simp) h_button, ebind_ok]

theorem from_to_keyRepeat (m : MessageKeyRepeat) (h_keyid : m.keyid < 65536) (h_mask : m.mask < 65536) (h_button : m.button < 65536) (h_count : m.count < 65536) (h_langu : validUtf8 m.lang = true) (h_langl : m.lang.length < 4294967296) :
    MessageKeyRepeat.from_bytes m.to_bytes = .ok m := by
  simp only [MessageKeyRepeat.from_bytes]
  rw [if_neg (by simp [MessageKeyRepeat.to_bytes, MessageKeyRepeat.CODE]; try omega)]
  rw [lps_from_bytes_shape _ (MessageKeyRepeat.CODE ++ u16be m.keyid ++ u16be m.mask ++ u16be m.button ++ u16be m.count) (([] : Bytes)) m.lang (MessageKeyRepeat.CODE.length + 8) (by simp [MessageKeyRepeat.to_bytes]) (by simp) h_langu h_langl, ebind_ok]
  rw [read_u16_shape _ (MessageKeyRepeat.CODE) ((u16be m.mask ++ u16be m.button ++ u16be m.count ++ lps_to_bytes m.lang)) m.keyid (MessageKeyRepeat.CODE.length) (by simp [MessageKeyRepeat.to_bytes]) rfl h_keyid, ebind_ok]
  rw [read_u16_shape _ (MessageKeyRepeat.CODE ++ u16be m.keyid) ((u16be m.button ++ u16be m.count ++ lps_to_bytes m.lang)) m.mask (MessageKeyRepeat.CODE.length + 2) (by simp [MessageKeyRepeat.to_bytes]) (by simp) h_mask, ebind_ok]
  rw [read_u16_shape _ (MessageKeyRepeat.CODE ++ u16be m.keyid ++ u16be m.mask) ((u16be m.count ++ lps_to_bytes m.lang)) m.button (MessageKeyRepeat.CODE.length + 4) (by simp [MessageKeyRepeat.to_bytes]) (by simp) h_button, ebind_ok]
  rw [read_u16_shape _ (MessageKeyRepeat.CODE ++ u16be m.keyid ++ u16be m.mask ++ u16be m.button) (lps_to_bytes m.lang) m.count (MessageKeyRepeat.CODE.length + 6) (by simp [MessageKeyRepeat.to_bytes]) (by simp) h_count, ebind_ok]

theorem from_to_keyUp (m : MessageKeyUp) (h_keyid : m.keyid < 65536) (h_mask : m.mask < 65536) (h_button : m.button < 65536) :
    MessageKeyUp.from_bytes m.to_bytes = .ok m := by
  simp only [MessageKeyUp.from_bytes]
  rw [if_neg (by simp [MessageKeyUp.to_bytes, MessageKeyUp.CODE]; try omega)]
  rw [read_u16_shape _ (MessageKeyUp.CODE) ((u16be m.mask ++ u16be m.button)) m.keyid (MessageKeyUp.CODE.length) (by simp [MessageKeyUp.to_bytes]) rfl h_keyid, ebind_ok]
  rw [read_u16_shape _ (MessageKeyUp.CODE ++ u16be m.keyid) (u16be m.button) m.mask (MessageKeyUp.CODE.length + 2) (by simp [MessageKeyUp.to_bytes]) (by simp) h_mask, ebind_ok]
  rw [read_u16_shape _ (MessageKeyUp.CODE ++ u16be m.keyid ++ u16be m.mask) (([] : Bytes)) m.button (MessageKeyUp.CODE.length + 4) (by simp [MessageKeyUp.to_bytes]) (by simp) h_button, ebind_ok]

theorem from_to_mouseButtonDown (m : MessageMouseButtonDown) (h_button : m.button < 256) :
    MessageMouseButtonDown.from_bytes m.to_bytes = .ok m := by
  simp only [MessageMouseButtonDown.from_bytes]
  rw [if_neg (by simp [MessageMouseButtonDown.to_bytes, MessageMouseButtonDown.CODE]; try omega)]
  rw [read_u8_shape_mod _ (MessageMouseButtonDown.CODE) (([] : Bytes)) m.button (MessageMouseButtonDown.CODE.length) (by simp [MessageMouseButtonDown.to_bytes]) rfl h_button, ebind_ok]

theorem from_to_mouseButtonUp (m : MessageMouseButtonUp) (h_button : m.button < 256) :
    MessageMouseButtonUp.from_bytes m.to_bytes = .ok m := by
  simp only [MessageMouseButtonUp.from_bytes]
  rw [if_neg (by simp [MessageMouseButtonUp.to_bytes, MessageMouseButtonUp.CODE]; try omega)]
  rw [read_u8_shape_mod _ (MessageMouseButtonUp.CODE) (([] : Bytes)) m.button (MessageMouseButtonUp.CODE.length) (by simp [MessageMouseButtonUp.to_bytes]) rfl h_button, ebind_ok]

theorem from_to_mouseMove (m : MessageMouseMove) (h_x1 : -32768 ≤ m.x) (h_x2 : m.x < 32768) (h_y1 : -32768 ≤ m.y) (h_y2 : m.y < 32768) :
    MessageMouseMove.from_bytes m.to_bytes = .ok m := by
  simp only [MessageMouseMove.from_bytes]
  rw [if_neg (by simp [MessageMouseMove.to_bytes, MessageMouseMove.CODE]; try omega)]
  rw [read_i16_shape _ (MessageMouseMove.CODE) (i16be m.y) m.x (MessageMouseMove.CODE.length) (by simp [MessageMouseMove.to_bytes]) rfl h_x1 h_x2, ebind_ok]
  rw [read_i16_shape _ (MessageMouseMove.CODE ++ i16be m.x) (([] : Bytes)) m.y (MessageMouseMove.CODE.length + 2) (by simp [MessageMouseMove.to_bytes]) (by simp) h_y1 h_y2, ebind_ok]

theorem from_to_mouseRelativeMove (m : MessageMouseRelativeMove) (h_x1 : -32768 ≤ m.x) (h_x2 : m.x < 32768) (h_y1 : -32768 ≤ m.y) (h_y2 : m.y < 32768) :
    MessageMouseRelativeMove.from_bytes m.to_bytes = .ok m := by
  simp only [MessageMouseRelativeMove.from_bytes]
  rw [if_neg (by simp [MessageMouseRelativeMove.to_bytes, MessageMouseRelativeMove.CODE]; try omega)]
  rw [read_i16_shape _ (MessageMouseRelativeMove.CODE) (i16be m.y) m.x (MessageMouseRelativeMove.CODE.length) (by simp [MessageMouseRelativeMove.to_bytes]) rfl h_x1 h_x2, ebind_ok]
  rw [read_i16_shape _ (MessageMouseRelativeMove.CODE ++ i16be m.x) (([] : Bytes)) m.y (MessageMouseRelativeMove.CODE.length + 2) (by simp [MessageMouseRelativeMove.to_bytes]) (by simp) h_y1 h_y2, ebind_ok]

theorem from_to_mouseWheel (m : MessageMouseWheel) (h_xdelta1 : -32768 ≤ m.xdelta) (h_xdelta2 : m.xdelta < 32768) (h_ydelta1 : -32768 ≤ m.ydelta) (h_ydelta2 : m.ydelta < 32768) :
    MessageMouseWheel.from_bytes m.to_bytes = .ok m := by
  simp only [MessageMouseWheel.from_bytes]
  rw [if_neg (by simp [MessageMouseWheel.to_bytes, MessageMouseWheel.CODE]; try omega)]
  rw [read_i16_shape _ (MessageMouseWheel.CODE) (i16be m.ydelta) m.xdelta (MessageMouseWheel.CODE.length) (by simp [MessageMouseWheel.to_bytes]) rfl h_xdelta1 h_xdelta2, ebind_ok]
  rw [read_i16_shape _ (MessageMouseWheel.CODE ++ i16be m.xdelta) (([] : Bytes)) m.ydelta (MessageMouseWheel.CODE.length + 2) (by simp [MessageMouseWheel.to_bytes]) (by simp) h_ydelta1 h_ydelta2, ebind_ok]

theorem from_to_clipboardData (m : MessageClipboardData) (h_id : m.id < 256) (h_sequence : m.sequence < 4294967296) (h_mark : m.mark < 256) (h_datau : validUtf8 m.data = true) (h_datal : m.data.length < 4294967296) :
    MessageClipboardData.from_bytes m.to_bytes = .ok m := by
  simp only [MessageClipboardData.from_bytes]
  rw [if_neg (by simp [MessageClipboardData.to_bytes, MessageClipboardData.CODE]; try omega)]
  rw [lps_from_bytes_shape _ (MessageClipboardData.CODE ++ [m.id % 256] ++ u32be m.sequence ++ [m.mark % 256]) (([] : Bytes)) m.data (MessageClipboardData.CODE.length + 6) (by simp [MessageClipboardData.to_bytes]) (by simp) h_datau h_datal, ebind_ok]
  rw [read_u8_shape_mod _ (MessageClipboardData.CODE) ((u32be m.sequence ++ [m.mark % 256] ++ lps_to_bytes m.data)) m.id (MessageClipboardData.CODE.length) (by simp [MessageClipboardData.to_bytes]) rfl h_id, ebind_ok]
  rw [read_u32_shape _ (MessageClipboardData.CODE ++ [m.id % 256]) (([m.mark % 256] ++ lps_to_bytes m.data)) m.sequence (MessageClipboardData.CODE.length + 1) (by simp [MessageClipboardData.to_bytes]) (by simp) h_sequence, ebind_ok]
  rw [read_u8_shape_mod _ (MessageClipboardData.CODE ++ [m.id % 256] ++ u32be m.sequence) (lps_to_bytes m.data) m.mark (MessageClipboardData.CODE.length + 5) (by simp [MessageClipboardData.to_bytes]) (by simp) h_mark, ebind_ok]

theorem from_to_clientInfo (m : MessageClientInfo) (h_x : m.x < 65536) (h_y : m.y < 65536) (h_width : m.width < 65536) (h_height : m.height < 65536) (h_current_mouse_x : m.current_mouse_x < 65536) (h_current_mouse_y : m.current_mouse_y < 65536) (h_size : m.size < 65536) :
    MessageClientInfo.from_bytes m.to_bytes = .ok m := by
  simp only [MessageClientInfo.from_bytes]
  rw [if_neg (by simp [MessageClientInfo.to_bytes, MessageClientInfo.CODE]; try omega)]
  rw [read_u16_shape _ (MessageClientInfo.CODE) ((u16be m.y ++ u16be m.width ++ u16be m.height ++ u16be m.current_mouse_x ++ u16be m.current_mouse_y ++ u16be m.size)) m.x (MessageClientInfo.CODE.length) (by simp [MessageClientInfo.to_bytes]) rfl h_x, ebind_ok]
  rw [read_u16_shape _ (MessageClientInfo.CODE ++ u16be m.x) ((u16be m.width ++ u16be m.height ++ u16be m.current_mouse_x ++ u16be m.current_mouse_y ++ u16be m.size)) m.y (MessageClientInfo.CODE.length + 2) (by simp [MessageClientInfo.to_bytes]) (by simp) h_y, ebind_ok]
  rw [read_u16_shape _ (MessageClientInfo.CODE ++ u16be m.x ++ u16be m.y) ((u16be m.height ++ u16be m.current_mouse_x ++ u16be m.current_mouse_y ++ u16be m.size)) m.width (MessageClientInfo.CODE.length + 4) (by simp [MessageClientInfo.to_bytes]) (by simp) h_width, ebind_ok]
  rw [read_u16_shape _ (MessageClientInfo.CODE ++ u16be m.x ++ u16be m.y ++ u16be m.width) ((u16be m.current_mouse_x ++ u16be m.current_mouse_y ++ u16be m.size)) m.height (MessageClientInfo.CODE.length + 6) (by simp [MessageClientInfo.to_bytes]) (by simp) h_height, ebind_ok]
  rw [read_u16_shape _ (MessageClientInfo.CODE ++ u16be m.x ++ u16be m.y ++ u16be m.width ++ u16be m.height) ((u16be m.current_mouse_y ++ u16be m.size)) m.current_mouse_x (MessageClientInfo.CODE.length + 8) (by simp [MessageClientInfo.to_bytes]) (by simp) h_current_mouse_x, ebind_ok]
  rw [read_u16_shape _ (MessageClientInfo.CODE ++ u16be m.x ++ u16be m.y ++ u16be m.width ++ u16be m.height ++ u16be m.current_mouse_x) (u16be m.size) m.current_mouse_y (MessageClientInfo.CODE.length + 10) (by simp [MessageClientInfo.to_bytes]) (by simp) h_current_mouse_y, ebind_ok]
  rw [read_u16_shape _ (MessageClientInfo.CODE ++ u16be m.x ++ u16be m.y ++ u16be m.width ++ u16be m.height ++ u16be m.current_mouse_x ++ u16be m.current_mouse_y) (([] : Bytes)) m.size (MessageClientInfo.CODE.length + 12) (by simp [MessageClientInfo.to_bytes]) (by simp) h_size, ebind_ok]

theorem from_to_fileTransfer (m : MessageFileTransfer) (h_mark : m.mark < 256) (h_datau : validUtf8 m.data = true) (h_datal : m.data.length < 4294967296) :
    MessageFileTransfer.from_bytes m.to_bytes = .ok m := by
  simp only [MessageFileTransfer.from_bytes]
  rw [if_neg (by simp [MessageFileTransfer.to_bytes, MessageFileTransfer.CODE]; try omega)]
  rw [lps_from_bytes_shape _ (MessageFileTransfer.CODE ++ [m.mark % 256]) (([] : Bytes)) m.data (MessageFileTransfer.CODE.length + 1) (by simp [MessageFileTransfer.to_bytes]) (by simp) h_datau h_datal, ebind_ok]
  rw [read_u8_shape_mod _ (MessageFileTransfer.CODE) (lps_to_bytes m.data) m.mark (MessageFileTransfer.CODE.length) (by simp [MessageFileTransfer.to_bytes]) rfl h_mark, ebind_ok]

theorem from_to_dragInfo (m : MessageDragInfo) (h_size : m.size < 65536) (h_datau : validUtf8 m.data = true) (h_datal : m.data.length < 4294967296) :
    MessageDragInfo.from_bytes m.to_bytes = .ok m := by
  simp only [MessageDragInfo.from_bytes]
  rw [if_neg (by simp [MessageDragInfo.to_bytes, MessageDragInfo.CODE]; try omega)]
  rw [lps_from_bytes_shape _ (MessageDragInfo.CODE ++ u16be m.size) (([] : Bytes)) m.data (MessageDragInfo.CODE.length + 2) (by simp [MessageDragInfo.to_bytes]) (by simp) h_datau h_datal, ebind_ok]
  rw [read_u16_shape _ (MessageDragInfo.CODE) (lps_to_bytes m.data) m.size (MessageDragInfo.CODE.length) (by simp [MessageDragInfo.to_bytes]) rfl h_size, ebind_ok]

theorem from_to_secureEncryption (m : MessageSecureEncryption) (h_datau : validUtf8 m.data = true) (h_datal : m.data.length < 4294967296) :
    MessageSecureEncryption.from_bytes m.to_bytes = .ok m := by
  simp only [MessageSecureEncryption.from_bytes]
  rw [lps_from_bytes_shape _ (MessageSecureEncryption.CODE) (([] : Bytes)) m.data (MessageSecureEncryption.CODE.length) (by simp [MessageSecureEncryption.to_bytes]) rfl h_datau h_datal, ebind_ok]

theorem from_to_legacySynergy (m : MessageLegacySynergy) (h_datau : validUtf8 m.data = true) (h_datal : m.data.length < 4294967296) :
    MessageLegacySynergy.from_bytes m.to_bytes = .ok m := by
  simp only [MessageLegacySynergy.from_bytes]
  rw [lps_from_bytes_shape _ (MessageLegacySynergy.CODE) (([] : Bytes)) m.data (MessageLegacySynergy.CODE.length) (by simp [MessageLegacySynergy.to_bytes]) rfl h_datau h_datal, ebind_ok]

theorem from_to_incompatibleVersion (m : MessageIncompatibleVersion) (h_major_remote : m.major_remote < 65536) (h_minor_remote : m.minor_remote < 65536) :
    MessageIncompatibleVersion.from_bytes m.to_bytes = .ok m := by
  simp only [MessageIncompatibleVersion.from_bytes]
  rw [if_neg (by simp [MessageIncompatibleVersion.to_bytes, MessageIncompatibleVersion.CODE]; try omega)]
  rw [read_u16_shape _ (MessageIncompatibleVersion.CODE) (u16be m.minor_remote) m.major_remote (MessageIncompatibleVersion.CODE.length) (by simp [MessageIncompatibleVersion.to_bytes]) rfl h_major_remote, ebind_ok]
  rw [read_u16_shape _ (MessageIncompatibleVersion.CODE ++ u16be m.major_remote) (([] : Bytes)) m.minor_remote (MessageIncompatibleVersion.CODE.length + 2) (by simp [MessageIncompatibleVersion.to_bytes]) (by simp) h_minor_remote, ebind_ok]

theorem from_to_helloBarrier_named (major minor : Nat) (nm : Bytes)
    (h1 : major < 65536) (h2 : minor < 65536)
    (hu : validUtf8 nm = true) (hl : nm.length < 4294967296) :
    MessageHelloBarrier.from_bytes
        (MessageHelloBarrier.to_bytes { major, minor, client_name := some nm }) =
      .ok { major, minor, client_name := some nm } := by
  have hlen : (MessageHelloBarrier.to_bytes { major, minor, client_name := some nm }).length
      = 15 + nm.length := by
    simp [MessageHelloBarrier.to_bytes, MessageHelloBarrier.CODE]
    omega
  rw [MessageHelloBarrier.from_bytes, hlen]
  rw [if_neg (by simp [MessageHelloBarrier.CODE]; try omega)]
  rw [read_u16, hlen, if_neg (by simp [MessageHelloBarrier.CODE]; try omega)]
  rw [u16val_shape _ MessageHelloBarrier.CODE
      (u16be minor ++ (u32be nm.length ++ nm)) major _
      (by simp [MessageHelloBarrier.to_bytes]) (by rfl) h1]
  rw [ebind_ok]
  rw [read_u16, hlen, if_neg (by simp [MessageHelloBarrier.CODE]; try omega)]
  rw [u16val_shape _ (MessageHelloBarrier.CODE ++ u16be major)
      (u32be nm.length ++ nm) minor _
      (by simp [MessageHelloBarrier.to_bytes]) (by simp [MessageHelloBarrier.CODE]) h2]
  rw [ebind_ok]
  rw [if_pos (by simp [MessageHelloBarrier.CODE]; try omega)]
  rw [if_neg (by simp [MessageHelloBarrier.CODE]; try omega)]
  rw [read_u32, hlen, if_neg (by simp [MessageHelloBarrier.CODE]; try omega)]
  rw [u32val_shape _ (MessageHelloBarrier.CODE ++ u16be major ++ u16be minor)
      nm nm.length _ (by simp [MessageHelloBarrier.to_bytes]; try omega)
      (by simp [MessageHelloBarrier.CODE]) hl]
  rw [ebind_ok]
  rw [if_neg (by simp [MessageHelloBarrier.CODE]; try omega)]
  rw [drop_shape _ (MessageHelloBarrier.CODE ++ u16be major ++ u16be minor ++ u32be nm.length)
      nm _ (by simp [MessageHelloBarrier.to_bytes]; try omega) (by simp [MessageHelloBarrier.CODE])]
  rw [List.take_length, if_pos hu]

theorem from_to_helloBarrier_unnamed (major minor : Nat)
    (h1 : major < 65536) (h2 : minor < 65536) :
    MessageHelloBarrier.from_bytes
        (MessageHelloBarrier.to_bytes { major, minor, client_name := none }) =
      .ok { major, minor, client_name := none } := by
  have hlen : (MessageHelloBarrier.to_bytes { major, minor, client_name := none }).length
      = 11 := by
    simp [MessageHelloBarrier.to_bytes, MessageHelloBarrier.CODE]
  rw [MessageHelloBarrier.from_bytes, hlen]
  rw [if_neg (by simp [MessageHelloBarrier.CODE])]
  rw [read_u16, hlen, if_neg (by simp [MessageHelloBarrier.CODE])]
  rw [u16val_shape _ MessageHelloBarrier.CODE (u16be minor) major _
      (by simp [MessageHelloBarrier.to_bytes]) (by rfl) h1]
  rw [ebind_ok]
  rw [read_u16, hlen, if_neg (by simp [MessageHelloBarrier.CODE])]
  rw [u16val_shape _ (MessageHelloBarrier.CODE ++ u16be major) ([] : Bytes) minor _
      (by simp [MessageHelloBarrier.to_bytes]) (by simp [MessageHelloBarrier.CODE]) h2]
  rw [ebind_ok]
  rw [if_neg (by simp [MessageHelloBarrier.CODE])]

theorem from_to_helloSynergy_named (major minor : Nat) (nm : Bytes)
    (h1 : major < 65536) (h2 : minor < 65536)
    (hu : validUtf8 nm = true) (hl : nm.length < 4294967296) :
    MessageHelloSynergy.from_bytes
        (MessageHelloSynergy.to_bytes { major, minor, client_name := some nm }) =
      .ok { major, minor, client_name := some nm } := by
  have hlen : (MessageHelloSynergy.to_bytes { major, minor, client_name := some nm }).length
      = 15 + nm.length := by
    simp [MessageHelloSynergy.to_bytes, MessageHelloSynergy.CODE]
    omega
  rw [MessageHelloSynergy.from_bytes, hlen]
  rw [if_neg (by simp [MessageHelloSynergy.CODE]; try omega)]
  rw [read_u16, hlen, if_neg (by simp [MessageHelloSynergy.CODE]; try omega)]
  rw [u16val_shape _ MessageHelloSynergy.CODE
      (u16be minor ++ (u32be nm.length ++ nm)) major _
      (by simp [MessageHelloSynergy.to_bytes]) (by rfl) h1]
  rw [ebind_ok]
  rw [read_u16, hlen, if_neg (by simp [MessageHelloSynergy.CODE]; try omega)]
  rw [u16val_shape _ (MessageHelloSynergy.CODE ++ u16be major)
      (u32be nm.length ++ nm) minor _
      (by simp [MessageHelloSynergy.to_bytes]) (by simp [MessageHelloSynergy.CODE]) h2]
  rw [ebind_ok]
  rw [if_pos (by simp [MessageHelloSynergy.CODE]; try omega)]
  rw [if_neg (by simp [MessageHelloSynergy.CODE]; try omega)]
  rw [read_u32, hlen, if_neg (by simp [MessageHelloSynergy.CODE]; try omega)]
  rw [u32val_shape _ (MessageHelloSynergy.CODE ++ u16be major ++ u16be minor)
      nm nm.length _ (by simp [MessageHelloSynergy.to_bytes]; try omega)
      (by simp [MessageHelloSynergy.CODE]) hl]
  rw [ebind_ok]
  rw [if_neg (by simp [MessageHelloSynergy.CODE]; try omega)]
  rw [drop_shape _ (MessageHelloSynergy.CODE ++ u16be major ++ u16be minor ++ u32be nm.length)
      nm _ (by simp [MessageHelloSynergy.to_bytes]; try omega) (by simp [MessageHelloSynergy.CODE])]
  rw [List.take_length, if_pos hu]

theorem from_to_helloSynergy_unnamed (major minor : Nat)
    (h1 : major < 65536) (h2 : minor < 65536) :
    MessageHelloSynergy.from_bytes
        (MessageHelloSynergy.to_bytes { major, minor, client_name := none }) =
      .ok { major, minor, client_name := none } := by
  have hlen : (MessageHelloSynergy.to_bytes { major, minor, client_name := none }).length
      = 11 := by
    simp [MessageHelloSynergy.to_bytes, MessageHelloSynergy.CODE]
  rw [MessageHelloSynergy.from_bytes, hlen]
  rw [if_neg (by simp [MessageHelloSynergy.CODE])]
  rw [read_u16, hlen, if_neg (by simp [MessageHelloSynergy.CODE])]
  rw [u16val_shape _ MessageHelloSynergy.CODE (u16be minor) major _
      (by simp [MessageHelloSynergy.to_bytes]) (by rfl) h1]
  rw [ebind_ok]
  rw [read_u16, hlen, if_neg (by simp [MessageHelloSynergy.CODE])]
  rw [u16val_shape _ (MessageHelloSynergy.CODE ++ u16be major) ([] : Bytes) minor _
      (by simp [MessageHelloSynergy.to_bytes]) (by simp [MessageHelloSynergy.CODE]) h2]
  rw [ebind_ok]
  rw [if_neg (by simp [MessageHelloSynergy.CODE])]

@[simp] theorem pairs_to_bytes_length (l : List (Nat × Nat)) :
    (pairs_to_bytes l).length = 8 * l.length := by
  induction l with
  | nil => rfl
  | cons p rest ih =>
    obtain ⟨k, v⟩ := p
    simp [pairs_to_bytes, ih]
    omega

theorem read_pairs_shape (opts : List (Nat × Nat)) (data : Bytes) :
    ∀ (pre r : Bytes) (off : Nat),
    data = pre ++ (pairs_to_bytes opts ++ r) → pre.length = off →
    (∀ p ∈ opts, p.1 < 4294967296 ∧ p.2 < 4294967296) →
    read_pairs data off opts.length = .ok opts := by
  induction opts with
  | nil => intro pre r off hd hoff hwf; rfl
  | cons p rest ih =>
    intro pre r off hd hoff hwf
    obtain ⟨k, v⟩ := p
    have hk := (hwf (k, v) (by simp)).1
    have hv := (hwf (k, v) (by simp)).2
    show read_pairs data off (rest.length + 1) = _
    rw [read_pairs]
    rw [read_u32_shape data pre (u32be v ++ (pairs_to_bytes rest ++ r)) k off
        (by rw [hd]; simp [pairs_to_bytes]) hoff hk, ebind_ok]
    rw [read_u32_shape data (pre ++ u32be k) (pairs_to_bytes rest ++ r) v (off + 4)
        (by rw [hd]; simp [pairs_to_bytes]) (by simp [hoff]) hv, ebind_ok]
    rw [ih (pre ++ u32be k ++ u32be v) r (off + 8)
        (by rw [hd]; simp [pairs_to_bytes]) (by simp [hoff])
        (fun q hq => hwf q (by simp [hq])), ebind_ok]

theorem from_to_setOptions (m : MessageSetOptions)
    (hn : 1 + m.options.length * 2 < 4294967296)
    (hwf : ∀ p ∈ m.options, p.1 < 4294967296 ∧ p.2 < 4294967296) :
    MessageSetOptions.from_bytes m.to_bytes = .ok m := by
  simp only [MessageSetOptions.from_bytes]
  rw [if_neg (by simp [MessageSetOptions.to_bytes, MessageSetOptions.CODE]; try omega)]
  rw [read_u32_shape _ MessageSetOptions.CODE (pairs_to_bytes m.options)
      (1 + m.options.length * 2) (MessageSetOptions.CODE.length)
      (by simp [MessageSetOptions.to_bytes]) rfl hn, ebind_ok]
  rw [if_neg (by omega)]
  rw [if_neg (by simp; try omega)]
  rw [show (1 + m.options.length * 2 - 1) / 2 = m.options.length by omega]
  rw [if_neg (by simp [MessageSetOptions.to_bytes, MessageSetOptions.CODE]; try omega)]
  rw [read_pairs_shape m.options _ (MessageSetOptions.CODE ++ u32be (1 + m.options.length * 2))
      ([] : Bytes) (MessageSetOptions.CODE.length + 4)
      (by simp [MessageSetOptions.to_bytes]) (by simp [MessageSetOptions.CODE]) hwf, ebind_ok]

theorem take4_of_shape (data code rest : Bytes) (hd : data = code ++ rest)
    (h : code.length = 4) : data.take 4 = code := by
  subst hd; rw [← h, List.take_left]

theorem take7_of_shape (data code rest : Bytes) (hd : data = code ++ rest)
    (h : code.length = 7) : data.take 7 = code := by
  subst hd; rw [← h, List.take_left]

/-! Payload length lemmas and parse-level round-trip lemmas. -/

@[simp] theorem to_bytes_length_noOp (m : MessageNoOp) : m.to_bytes.length = 4 := rfl

@[simp] theorem to_bytes_length_close (m : MessageClose) : m.to_bytes.length = 4 := rfl

@[simp] theorem to_bytes_length_cursorLeft (m : MessageCursorLeft) : m.to_bytes.length = 4 := rfl

@[simp] theorem to_bytes_length_resetOptions (m : MessageResetOptions) : m.to_bytes.length = 4 := rfl

@[simp] theorem to_bytes_length_infoAcknowledgment (m : MessageInfoAcknowledgment) : m.to_bytes.length = 4 := rfl

@[simp] theorem to_bytes_length_keepAlive (m : MessageKeepAlive) : m.to_bytes.length = 4 := rfl

@[simp] theorem to_bytes_length_queryInfo (m : MessageQueryInfo) : m.to_bytes.length = 4 := rfl

@[simp] theorem to_bytes_length_serverBusy (m : MessageServerBusy) : m.to_bytes.length = 4 := rfl

@[simp] theorem to_bytes_length_unknownClient (m : MessageUnknownClient) : m.to_bytes.length = 4 := rfl

@[simp] theorem to_bytes_length_protocolErr (m : MessageProtocolError) : m.to_bytes.length = 4 := rfl

@[simp] theorem to_bytes_length_cursorEntered (m : MessageCursorEntered) : m.to_bytes.length = 14 := by
  simp [MessageCursorEntered.to_bytes, MessageCursorEntered.CODE]

@[simp] theorem to_bytes_length_clientClipboard (m : MessageClientClipboard) : m.to_bytes.length = 9 := by
  simp [MessageClientClipboard.to_bytes, MessageClientClipboard.CODE]

@[simp] theorem to_bytes_length_screenSaverChange (m : MessageScreenSaverChange) : m.to_bytes.length = 5 := by
  simp [MessageScreenSaverChange.to_bytes, MessageScreenSaverChange.CODE]

@[simp] theorem to_bytes_length_keyDown (m : MessageKeyDown) : m.to_bytes.length = 10 := by
  simp [MessageKeyDown.to_bytes, MessageKeyDown.CODE]

@[simp] theorem to_bytes_length_keyUp (m : MessageKeyUp) : m.to_bytes.length = 10 := by
  simp [MessageKeyUp.to_bytes, MessageKeyUp.CODE]

@[simp] theorem to_bytes_length_mouseButtonDown (m : MessageMouseButtonDown) : m.to_bytes.length = 5 := by
  simp [MessageMouseButtonDown.to_bytes, MessageMouseButtonDown.CODE]

@[simp] theorem to_bytes_length_mouseButtonUp (m : MessageMouseButtonUp) : m.to_bytes.length = 5 := by
  simp [MessageMouseButtonUp.to_bytes, MessageMouseButtonUp.CODE]

@[simp] theorem to_bytes_length_mouseMove (m : MessageMouseMove) : m.to_bytes.length = 8 := by
  simp [MessageMouseMove.to_bytes, MessageMouseMove.CODE]

@[simp] theorem to_bytes_length_mouseRelativeMove (m : MessageMouseRelativeMove) : m.to_bytes.length = 8 := by
  simp [MessageMouseRelativeMove.to_bytes, MessageMouseRelativeMove.CODE]

@[simp] theorem to_bytes_length_mouseWheel (m : MessageMouseWheel) : m.to_bytes.length = 8 := by
  simp [MessageMouseWheel.to_bytes, MessageMouseWheel.CODE]

@[simp] theorem to_bytes_length_clientInfo (m : MessageClientInfo) : m.to_bytes.length = 18 := by
  simp [MessageClientInfo.to_bytes, MessageClientInfo.CODE]

@[simp] theorem to_bytes_length_incompatibleVersion (m : MessageIncompatibleVersion) : m.to_bytes.length = 8 := by
  simp [MessageIncompatibleVersion.to_bytes, MessageIncompatibleVersion.CODE]

@[simp] theorem to_bytes_length_keyDownWithLanguage (m : MessageKeyDownWithLanguage) :
    m.to_bytes.length = 14 + m.lang.length := by
  simp [MessageKeyDownWithLanguage.to_bytes, MessageKeyDownWithLanguage.CODE]
  omega

@[simp] theorem to_bytes_length_keyRepeat (m : MessageKeyRepeat) :
    m.to_bytes.length = 16 + m.lang.length := by
  simp [MessageKeyRepeat.to_bytes, MessageKeyRepeat.CODE]
  omega

@[simp] theorem to_bytes_length_clipboardData (m : MessageClipboardData) :
    m.to_bytes.length = 14 + m.data.length := by
  simp [MessageClipboardData.to_bytes, MessageClipboardData.CODE]
  omega

@[simp] theorem to_bytes_length_fileTransfer (m : MessageFileTransfer) :
    m.to_bytes.length = 9 + m.data.length := by
  simp [MessageFileTransfer.to_bytes, MessageFileTransfer.CODE]
  omega

@[simp] theorem to_bytes_length_dragInfo (m : MessageDragInfo) :
    m.to_bytes.length = 10 + m.data.length := by
  simp [MessageDragInfo.to_bytes, MessageDragInfo.CODE]
  omega

@[simp] theorem to_bytes_length_secureEncryption (m : MessageSecureEncryption) :
    m.to_bytes.length = 8 + m.data.length := by
  simp [MessageSecureEncryption.to_bytes, MessageSecureEncryption.CODE]
  omega

@[simp] theorem to_bytes_length_legacySynergy (m : MessageLegacySynergy) :
    m.to_bytes.length = 8 + m.data.length := by
  simp [MessageLegacySynergy.to_bytes, MessageLegacySynergy.CODE]
  omega

@[simp] theorem to_bytes_length_setOptions (m : MessageSetOptions) :
    m.to_bytes.length = 8 + 8 * m.options.length := by
  simp [MessageSetOptions.to_bytes, MessageSetOptions.CODE]
  omega

theorem to_bytes_length_helloBarrier_named (m : MessageHelloBarrier) (nm : Bytes)
    (h : m.client_name = some nm) : m.to_bytes.length = 15 + nm.length := by
  simp [MessageHelloBarrier.to_bytes, MessageHelloBarrier.CODE, h]
  omega

theorem to_bytes_length_helloBarrier_unnamed (m : MessageHelloBarrier)
    (h : m.client_name = none) : m.to_bytes.length = 11 := by
  simp [MessageHelloBarrier.to_bytes, MessageHelloBarrier.CODE, h]

theorem to_bytes_length_helloSynergy_named (m : MessageHelloSynergy) (nm : Bytes)
    (h : m.client_name = some nm) : m.to_bytes.length = 15 + nm.length := by
  simp [MessageHelloSynergy.to_bytes, MessageHelloSynergy.CODE, h]
  omega

theorem to_bytes_length_helloSynergy_unnamed (m : MessageHelloSynergy)
    (h : m.client_name = none) : m.to_bytes.length = 11 := by
  simp [MessageHelloSynergy.to_bytes, MessageHelloSynergy.CODE, h]

theorem rt_noOp (m : MessageNoOp) :
    parse_message (MessageNoOp.to_bytes m) = .ok (.NoOp m) := by
  rw [parse_dispatch_noOp _ (by simp)
    (take4_of_shape _ MessageNoOp.CODE [] (by simp [MessageNoOp.to_bytes]) rfl)]
  rfl

theorem rt_close (m : MessageClose) :
    parse_message (MessageClose.to_bytes m) = .ok (.Close m) := by
  rw [parse_dispatch_close _ (by simp)
    (take4_of_shape _ MessageClose.CODE [] (by simp [MessageClose.to_bytes]) rfl)]
  rfl

theorem rt_cursorLeft (m : MessageCursorLeft) :
    parse_message (MessageCursorLeft.to_bytes m) = .ok (.CursorLeft m) := by
  rw [parse_dispatch_cursorLeft _ (by simp)
    (take4_of_shape _ MessageCursorLeft.CODE [] (by simp [MessageCursorLeft.to_bytes]) rfl)]
  rfl

theorem rt_resetOptions (m : MessageResetOptions) :
    parse_message (MessageResetOptions.to_bytes m) = .ok (.ResetOptions m) := by
  rw [parse_dispatch_resetOptions _ (by simp)
    (take4_of_shape _ MessageResetOptions.CODE [] (by simp [MessageResetOptions.to_bytes]) rfl)]
  rfl

theorem rt_infoAcknowledgment (m : MessageInfoAcknowledgment) :
    parse_message (MessageInfoAcknowledgment.to_bytes m) = .ok (.InfoAcknowledgment m) := by
  rw [parse_dispatch_infoAcknowledgment _ (by simp)
    (take4_of_shape _ MessageInfoAcknowledgment.CODE [] (by simp [MessageInfoAcknowledgment.to_bytes]) rfl)]
  rfl

theorem rt_keepAlive (m : MessageKeepAlive) :
    parse_message (MessageKeepAlive.to_bytes m) = .ok (.KeepAlive m) := by
  rw [parse_dispatch_keepAlive _ (by simp)
    (take4_of_shape _ MessageKeepAlive.CODE [] (by simp [MessageKeepAlive.to_bytes]) rfl)]
  rfl

theorem rt_queryInfo (m : MessageQueryInfo) :
    parse_message (MessageQueryInfo.to_bytes m) = .ok (.QueryInfo m) := by
  rw [parse_dispatch_queryInfo _ (by simp)
    (take4_of_shape _ MessageQueryInfo.CODE [] (by simp [MessageQueryInfo.to_bytes]) rfl)]
  rfl

theorem rt_serverBusy (m : MessageServerBusy) :
    parse_message (MessageServerBusy.to_bytes m) = .ok (.ServerBusy m) := by
  rw [parse_dispatch_serverBusy _ (by simp)
    (take4_of_shape _ MessageServerBusy.CODE [] (by simp [MessageServerBusy.to_bytes]) rfl)]
  rfl

theorem rt_unknownClient (m : MessageUnknownClient) :
    parse_message (MessageUnknownClient.to_bytes m) = .ok (.UnknownClient m) := by
  rw [parse_dispatch_unknownClient _ (by simp)
    (take4_of_shape _ MessageUnknownClient.CODE [] (by simp [MessageUnknownClient.to_bytes]) rfl)]
  rfl

theorem rt_protocolErr (m : MessageProtocolError) :
    parse_message (MessageProtocolError.to_bytes m) = .ok (.ProtocolErr m) := by
  rw [parse_dispatch_protocolErr _ (by simp)
    (take4_of_shape _ MessageProtocolError.CODE [] (by simp [MessageProtocolError.to_bytes]) rfl)]
  rfl

theorem rt_cursorEntered (m : MessageCursorEntered) (h_x1 : -32768 ≤ m.x) (h_x2 : m.x < 32768) (h_y1 : -32768 ≤ m.y) (h_y2 : m.y < 32768) (h_sequence : m.sequence < 4294967296) (h_mask : m.mask < 65536) :
    parse_message (MessageCursorEntered.to_bytes m) = .ok (.CursorEntered m) := by
  rw [parse_dispatch_cursorEntered _ (by simp; try omega)
    (take4_of_shape _ MessageCursorEntered.CODE (i16be m.x ++ i16be m.y ++ u32be m.sequence ++ u16be m.mask) (by simp [MessageCursorEntered.to_bytes]) rfl),
    from_to_cursorEntered m h_x1 h_x2 h_y1 h_y2 h_sequence h_mask, emap_ok]

theorem rt_clientClipboard (m : MessageClientClipboard) (h_id : m.id < 256) (h_sequence : m.sequence < 4294967296) :
    parse_message (MessageClientClipboard.to_bytes m) = .ok (.ClientClipboard m) := by
  rw [parse_dispatch_clientClipboard _ (by simp; try omega)
    (take4_of_shape _ MessageClientClipboard.CODE ([m.id % 256] ++ u32be m.sequence) (by simp [MessageClientClipboard.to_bytes]) rfl),
    from_to_clientClipboard m h_id h_sequence, emap_ok]

theorem rt_screenSaverChange (m : MessageScreenSaverChange) (h_state : m.state < 256) :
    parse_message (MessageScreenSaverChange.to_bytes m) = .ok (.ScreenSaverChange m) := by
  rw [parse_dispatch_screenSaverChange _ (by simp; try omega)
    (take4_of_shape _ MessageScreenSaverChange.CODE ([m.state % 256]) (by simp [MessageScreenSaverChange.to_bytes]) rfl),
    from_to_screenSaverChange m h_state, emap_ok]

theorem rt_keyDownWithLanguage (m : MessageKeyDownWithLanguage) (h_keyid : m.keyid < 65536) (h_mask : m.mask < 65536) (h_button : m.button < 65536) (h_langu : validUtf8 m.lang = true) (h_langl : m.lang.length < 4294967296) :
    parse_message (MessageKeyDownWithLanguage.to_bytes m) = .ok (.KeyDownWithLanguage m) := by
  rw [parse_dispatch_keyDownWithLanguage _ (by simp; try omega)
    (take4_of_shape _ MessageKeyDownWithLanguage.CODE (u16be m.keyid ++ u16be m.mask ++ u16be m.button ++ lps_to_bytes m.lang) (by simp [MessageKeyDownWithLanguage.to_bytes]) rfl),
    from_to_keyDownWithLanguage m h_keyid h_mask h_button h_langu h_langl, emap_ok]

theorem rt_keyDown (m : MessageKeyDown) (h_keyid : m.keyid < 65536) (h_mask : m.mask < 65536) (h_button : m.button < 65536) :
    parse_message (MessageKeyDown.to_bytes m) = .ok (.KeyDown m) := by
  rw [parse_dispatch_keyDown _ (by simp; try omega)
    (take4_of_shape _ MessageKeyDown.CODE (u16be m.keyid ++ u16be m.mask ++ u16be m.button) (by simp [MessageKeyDown.to_bytes]) rfl),
    from_to_keyDown m h_keyid h_mask h_button, emap_ok]

theorem rt_keyRepeat (m : MessageKeyRepeat) (h_keyid : m.keyid < 65536) (h_mask : m.mask < 65536) (h_button : m.button < 65536) (h_count : m.count < 65536) (h_langu : validUtf8 m.lang = true) (h_langl : m.lang.length < 4294967296) :
    parse_message (MessageKeyRepeat.to_bytes m) = .ok (.KeyRepeat m) := by
  rw [parse_dispatch_keyRepeat _ (by simp; try omega)
    (take4_of_shape _ MessageKeyRepeat.CODE (u16be m.keyid ++ u16be m.mask ++ u16be m.button ++ u16be m.count ++ lps_to_bytes m.lang) (by simp [MessageKeyRepeat.to_bytes]) rfl),
    from_to_keyRepeat m h_keyid h_mask h_button h_count h_langu h_langl, emap_ok]

theorem rt_keyUp (m : MessageKeyUp) (h_keyid : m.keyid < 65536) (h_mask : m.mask < 65536) (h_button : m.button < 65536) :
    parse_message (MessageKeyUp.to_bytes m) = .ok (.KeyUp m) := by
  rw [parse_dispatch_keyUp _ (by simp; try omega)
    (take4_of_shape _ MessageKeyUp.CODE (u16be m.keyid ++ u16be m.mask ++ u16be m.button) (by simp [MessageKeyUp.to_bytes]) rfl),
    from_to_keyUp m h_keyid h_mask h_button, emap_ok]

theorem rt_mouseButtonDown (m : MessageMouseButtonDown) (h_button : m.button < 256) :
    parse_message (MessageMouseButtonDown.to_bytes m) = .ok (.MouseButtonDown m) := by
  rw [parse_dispatch_mouseButtonDown _ (by simp; try omega)
    (take4_of_shape _ MessageMouseButtonDown.CODE ([m.button % 256]) (by simp [MessageMouseButtonDown.to_bytes]) rfl),
    from_to_mouseButtonDown m h_button, emap_ok]

theorem rt_mouseButtonUp (m : MessageMouseButtonUp) (h_button : m.button < 256) :
    parse_message (MessageMouseButtonUp.to_bytes m) = .ok (.MouseButtonUp m) := by
  rw [parse_dispatch_mouseButtonUp _ (by simp; try omega)
    (take4_of_shape _ MessageMouseButtonUp.CODE ([m.button % 256]) (by simp [MessageMouseButtonUp.to_bytes]) rfl),
    from_to_mouseButtonUp m h_button, emap_ok]

theorem rt_mouseMove (m : MessageMouseMove) (h_x1 : -32768 ≤ m.x) (h_x2 : m.x < 32768) (h_y1 : -32768 ≤ m.y) (h_y2 : m.y < 32768) :
    parse_message (MessageMouseMove.to_bytes m) = .ok (.MouseMove m) := by
  rw [parse_dispatch_mouseMove _ (by simp; try omega)
    (take4_of_shape _ MessageMouseMove.CODE (i16be m.x ++ i16be m.y) (by simp [MessageMouseMove.to_bytes]) rfl),
    from_to_mouseMove m h_x1 h_x2 h_y1 h_y2, emap_ok]

theorem rt_mouseRelativeMove (m : MessageMouseRelativeMove) (h_x1 : -32768 ≤ m.x) (h_x2 : m.x < 32768) (h_y1 : -32768 ≤ m.y) (h_y2 : m.y < 32768) :
    parse_message (MessageMouseRelativeMove.to_bytes m) = .ok (.MouseRelativeMove m) := by
  rw [parse_dispatch_mouseRelativeMove _ (by simp; try omega)
    (take4_of_shape _ MessageMouseRelativeMove.CODE (i16be m.x ++ i16be m.y) (by simp [MessageMouseRelativeMove.to_bytes]) rfl),
    from_to_mouseRelativeMove m h_x1 h_x2 h_y1 h_y2, emap_ok]

theorem rt_mouseWheel (m : MessageMouseWheel) (h_xdelta1 : -32768 ≤ m.xdelta) (h_xdelta2 : m.xdelta < 32768) (h_ydelta1 : -32768 ≤ m.ydelta) (h_ydelta2 : m.ydelta < 32768) :
    parse_message (MessageMouseWheel.to_bytes m) = .ok (.MouseWheel m) := by
  rw [parse_dispatch_mouseWheel _ (by simp; try omega)
    (take4_of_shape _ MessageMouseWheel.CODE (i16be m.xdelta ++ i16be m.ydelta) (by simp [MessageMouseWheel.to_bytes]) rfl),
    from_to_mouseWheel m h_xdelta1 h_xdelta2 h_ydelta1 h_ydelta2, emap_ok]

theorem rt_clipboardData (m : MessageClipboardData) (h_id : m.id < 256) (h_sequence : m.sequence < 4294967296) (h_mark : m.mark < 256) (h_datau : validUtf8 m.data = true) (h_datal : m.data.length < 4294967296) :
    parse_message (MessageClipboardData.to_bytes m) = .ok (.ClipboardData m) := by
  rw [parse_dispatch_clipboardData _ (by simp; try omega)
    (take4_of_shape _ MessageClipboardData.CODE ([m.id % 256] ++ u32be m.sequence ++ [m.mark % 256] ++ lps_to_bytes m.data) (by simp [MessageClipboardData.to_bytes]) rfl),
    from_to_clipboardData m h_id h_sequence h_mark h_datau h_datal, emap_ok]

theorem rt_clientInfo (m : MessageClientInfo) (h_x : m.x < 65536) (h_y : m.y < 65536) (h_width : m.width < 65536) (h_height : m.height < 65536) (h_current_mouse_x : m.current_mouse_x < 65536) (h_current_mouse_y : m.current_mouse_y < 65536) (h_size : m.size < 65536) :
    parse_message (MessageClientInfo.to_bytes m) = .ok (.ClientInfo m) := by
  rw [parse_dispatch_clientInfo _ (by simp; try omega)
    (take4_of_shape _ MessageClientInfo.CODE (u16be m.x ++ u16be m.y ++ u16be m.width ++ u16be m.height ++ u16be m.current_mouse_x ++ u16be m.current_mouse_y ++ u16be m.size) (by simp [MessageClientInfo.to_bytes]) rfl),
    from_to_clientInfo m h_x h_y h_width h_height h_current_mouse_x h_current_mouse_y h_size, emap_ok]

theorem rt_fileTransfer (m : MessageFileTransfer) (h_mark : m.mark < 256) (h_datau : validUtf8 m.data = true) (h_datal : m.data.length < 4294967296) :
    parse_message (MessageFileTransfer.to_bytes m) = .ok (.FileTransfer m) := by
  rw [parse_dispatch_fileTransfer _ (by simp; try omega)
    (take4_of_shape _ MessageFileTransfer.CODE ([m.mark % 256] ++ lps_to_bytes m.data) (by simp [MessageFileTransfer.to_bytes]) rfl),
    from_to_fileTransfer m h_mark h_datau h_datal, emap_ok]

theorem rt_dragInfo (m : MessageDragInfo) (h_size : m.size < 65536) (h_datau : validUtf8 m.data = true) (h_datal : m.data.length < 4294967296) :
    parse_message (MessageDragInfo.to_bytes m) = .ok (.DragInfo m) := by
  rw [parse_dispatch_dragInfo _ (by simp; try omega)
    (take4_of_shape _ MessageDragInfo.CODE (u16be m.size ++ lps_to_bytes m.data) (by simp [MessageDragInfo.to_bytes]) rfl),
    from_to_dragInfo m h_size h_datau h_datal, emap_ok]

theorem rt_secureEncryption (m : MessageSecureEncryption) (h_datau : validUtf8 m.data = true) (h_datal : m.data.length < 4294967296) :
    parse_message (MessageSecureEncryption.to_bytes m) = .ok (.SecureEncryption m) := by
  rw [parse_dispatch_secureEncryption _ (by simp; try omega)
    (take4_of_shape _ MessageSecureEncryption.CODE (lps_to_bytes m.data) (by simp [MessageSecureEncryption.to_bytes]) rfl),
    from_to_secureEncryption m h_datau h_datal, emap_ok]

theorem rt_legacySynergy (m : MessageLegacySynergy) (h_datau : validUtf8 m.data = true) (h_datal : m.data.length < 4294967296) :
    parse_message (MessageLegacySynergy.to_bytes m) = .ok (.LegacySynergy m) := by
  rw [parse_dispatch_legacySynergy _ (by simp; try omega)
    (take4_of_shape _ MessageLegacySynergy.CODE (lps_to_bytes m.data) (by simp [MessageLegacySynergy.to_bytes]) rfl),
    from_to_legacySynergy m h_datau h_datal, emap_ok]

theorem rt_incompatibleVersion (m : MessageIncompatibleVersion) (h_major_remote : m.major_remote < 65536) (h_minor_remote : m.minor_remote < 65536) :
    parse_message (MessageIncompatibleVersion.to_bytes m) = .ok (.IncompatibleVersion m) := by
  rw [parse_dispatch_incompatibleVersion _ (by simp; try omega)
    (take4_of_shape _ MessageIncompatibleVersion.CODE (u16be m.major_remote ++ u16be m.minor_remote) (by simp [MessageIncompatibleVersion.to_bytes]) rfl),
    from_to_incompatibleVersion m h_major_remote h_minor_remote, emap_ok]

theorem rt_setOptions (m : MessageSetOptions)
    (hn : 1 + m.options.length * 2 < 4294967296)
    (hwf : ∀ p ∈ m.options, p.1 < 4294967296 ∧ p.2 < 4294967296) :
    parse_message (MessageSetOptions.to_bytes m) = .ok (.SetOptions m) := by
  rw [parse_dispatch_setOptions _ (by simp; try omega)
    (take4_of_shape _ MessageSetOptions.CODE
      (u32be (1 + m.options.length * 2) ++ pairs_to_bytes m.options)
      (by simp [MessageSetOptions.to_bytes]) rfl),
    from_to_setOptions m hn hwf, emap_ok]

theorem rt_helloBarrier (m : MessageHelloBarrier)
    (h1 : m.major < 65536) (h2 : m.minor < 65536)
    (hs : ∀ nm, m.client_name = some nm → validUtf8 nm = true ∧ nm.length < 4294967296) :
    parse_message (MessageHelloBarrier.to_bytes m) = .ok (.HelloBarrier m) := by
  obtain ⟨major, minor, cn⟩ := m
  cases cn with
  | none =>
    rw [parse_dispatch_helloBarrier _
      (by rw [to_bytes_length_helloBarrier_unnamed _ rfl]; omega)
      (take7_of_shape _ MessageHelloBarrier.CODE (u16be major ++ u16be minor)
        (by simp [MessageHelloBarrier.to_bytes]) rfl),
      from_to_helloBarrier_unnamed major minor h1 h2, emap_ok]
  | some nm =>
    obtain ⟨hu, hl⟩ := hs nm rfl
    rw [parse_dispatch_helloBarrier _
      (by rw [to_bytes_length_helloBarrier_named _ nm rfl]; omega)
      (take7_of_shape _ MessageHelloBarrier.CODE
        (u16be major ++ u16be minor ++ (u32be nm.length ++ nm))
        (by simp [MessageHelloBarrier.to_bytes]) rfl),
      from_to_helloBarrier_named major minor nm h1 h2 hu hl, emap_ok]

theorem rt_helloSynergy (m : MessageHelloSynergy)
    (h1 : m.major < 65536) (h2 : m.minor < 65536)
    (hs : ∀ nm, m.client_name = some nm → validUtf8 nm = true ∧ nm.length < 4294967296) :
    parse_message (MessageHelloSynergy.to_bytes m) = .ok (.HelloSynergy m) := by
  obtain ⟨major, minor, cn⟩ := m
  cases cn with
  | none =>
    rw [parse_dispatch_helloSynergy _
      (by rw [to_bytes_length_helloSynergy_unnamed _ rfl]; omega)
      (take7_of_shape _ MessageHelloSynergy.CODE (u16be major ++ u16be minor)
        (by simp [MessageHelloSynergy.to_bytes]) rfl),
      from_to_helloSynergy_unnamed major minor h1 h2, emap_ok]
  | some nm =>
    obtain ⟨hu, hl⟩ := hs nm rfl
    rw [parse_dispatch_helloSynergy _
      (by rw [to_bytes_length_helloSynergy_named _ nm rfl]; omega)
      (take7_of_shape _ MessageHelloSynergy.CODE
        (u16be major ++ u16be minor ++ (u32be nm.length ++ nm))
        (by simp [MessageHelloSynergy.to_bytes]) rfl),
      from_to_helloSynergy_named major minor nm h1 h2 hu hl, emap_ok]

theorem parse_with_length_frame (p : Bytes) (m : Message)
    (hp : parse_message p = .ok m) (hl : p.length < 4294967296) :
    parse_message_with_length (u32be p.length ++ p) = .ok (m, 4 + p.length) := by
  simp only [parse_message_with_length]
  rw [if_neg (by simp)]
  rw [read_u32_shape _ ([] : Bytes) p p.length 0 (by simp) rfl hl, ebind_ok]
  rw [if_neg (by simp)]
  rw [drop_shape _ (u32be p.length) p 4 rfl (by simp)]
  rw [List.take_length, hp, ebind_ok]

theorem parse_payload_of_wf (m : Message) (hwf : wf_msg m = true) :
    parse_message m.payload_bytes = .ok m := by
  cases m with
  | NoOp mm => exact rt_noOp mm
  | Close mm => exact rt_close mm
  | CursorLeft mm => exact rt_cursorLeft mm
  | ResetOptions mm => exact rt_resetOptions mm
  | InfoAcknowledgment mm => exact rt_infoAcknowledgment mm
  | KeepAlive mm => exact rt_keepAlive mm
  | QueryInfo mm => exact rt_queryInfo mm
  | ServerBusy mm => exact rt_serverBusy mm
  | UnknownClient mm => exact rt_unknownClient mm
  | ProtocolErr mm => exact rt_protocolErr mm
  | CursorEntered mm =>
    simp only [wf_msg, Bool.and_eq_true, decide_eq_true_eq, wf_str] at hwf
    obtain ⟨⟨⟨⟨⟨⟨hx1, hx2⟩, hy1⟩, hy2⟩, hs⟩, hm⟩, hplen⟩ := hwf
    exact rt_cursorEntered mm hx1 hx2 hy1 hy2 hs hm
  | ClientClipboard mm =>
    simp only [wf_msg, Bool.and_eq_true, decide_eq_true_eq, wf_str] at hwf
    obtain ⟨⟨h1, h2⟩, hplen⟩ := hwf
    exact rt_clientClipboard mm h1 h2
  | ScreenSaverChange mm =>
    simp only [wf_msg, Bool.and_eq_true, decide_eq_true_eq, wf_str] at hwf
    obtain ⟨h1, hplen⟩ := hwf
    exact rt_screenSaverChange mm h1
  | KeyDownWithLanguage mm =>
    simp only [wf_msg, Bool.and_eq_true, decide_eq_true_eq, wf_str] at hwf
    obtain ⟨⟨⟨⟨h1, h2⟩, h3⟩, h4⟩, hplen⟩ := hwf
    have hsl : mm.lang.length < 4294967296 := by
      simp [Message.payload_bytes] at hplen
      omega
    exact rt_keyDownWithLanguage mm h1 h2 h3 h4 hsl
  | KeyDown mm =>
    simp only [wf_msg, Bool.and_eq_true, decide_eq_true_eq, wf_str] at hwf
    obtain ⟨⟨⟨h1, h2⟩, h3⟩, hplen⟩ := hwf
    exact rt_keyDown mm h1 h2 h3
  | KeyRepeat mm =>
    simp only [wf_msg, Bool.and_eq_true, decide_eq_true_eq, wf_str] at hwf
    obtain ⟨⟨⟨⟨⟨h1, h2⟩, h3⟩, h4⟩, h5⟩, hplen⟩ := hwf
    have hsl : mm.lang.length < 4294967296 := by
      simp [Message.payload_bytes] at hplen
      omega
    exact rt_keyRepeat mm h1 h2 h3 h4 h5 hsl
  | KeyUp mm =>
    simp only [wf_msg, Bool.and_eq_true, decide_eq_true_eq, wf_str] at hwf
    obtain ⟨⟨⟨h1, h2⟩, h3⟩, hplen⟩ := hwf
    exact rt_keyUp mm h1 h2 h3
  | MouseButtonDown mm =>
    simp only [wf_msg, Bool.and_eq_true, decide_eq_true_eq, wf_str] at hwf
    obtain ⟨h1, hplen⟩ := hwf
    exact rt_mouseButtonDown mm h1
  | MouseButtonUp mm =>
    simp only [wf_msg, Bool.and_eq_true, decide_eq_true_eq, wf_str] at hwf
    obtain ⟨h1, hplen⟩ := hwf
    exact rt_mouseButtonUp mm h1
  | MouseMove mm =>
    simp only [wf_msg, Bool.and_eq_true, decide_eq_true_eq, wf_str] at hwf
    obtain ⟨⟨⟨⟨h1, h2⟩, h3⟩, h4⟩, hplen⟩ := hwf
    exact rt_mouseMove mm h1 h2 h3 h4
  | MouseRelativeMove mm =>
    simp only [wf_msg, Bool.and_eq_true, decide_eq_true_eq, wf_str] at hwf
    obtain ⟨⟨⟨⟨h1, h2⟩, h3⟩, h4⟩, hplen⟩ := hwf
    exact rt_mouseRelativeMove mm h1 h2 h3 h4
  | MouseWheel mm =>
    simp only [wf_msg, Bool.and_eq_true, decide_eq_true_eq, wf_str] at hwf
    obtain ⟨⟨⟨⟨h1, h2⟩, h3⟩, h4⟩, hplen⟩ := hwf
    exact rt_mouseWheel mm h1 h2 h3 h4
  | ClipboardData mm =>
    simp only [wf_msg, Bool.and_eq_true, decide_eq_true_eq, wf_str] at hwf
    obtain ⟨⟨⟨⟨h1, h2⟩, h3⟩, h4⟩, hplen⟩ := hwf
    have hsl : mm.data.length < 4294967296 := by
      simp [Message.payload_bytes] at hplen
      omega
    exact rt_clipboardData mm h1 h2 h3 h4 hsl
  | ClientInfo mm =>
    simp only [wf_msg, Bool.and_eq_true, decide_eq_true_eq, wf_str] at hwf
    obtain ⟨⟨⟨⟨⟨⟨⟨h1, h2⟩, h3⟩, h4⟩, h5⟩, h6⟩, h7⟩, hplen⟩ := hwf
    exact rt_clientInfo mm h1 h2 h3 h4 h5 h6 h7
  | FileTransfer mm =>
    simp only [wf_msg, Bool.and_eq_true, decide_eq_true_eq, wf_str] at hwf
    obtain ⟨⟨h1, h2⟩, hplen⟩ := hwf
    have hsl : mm.data.length < 4294967296 := by
      simp [Message.payload_bytes] at hplen
      omega
    exact rt_fileTransfer mm h1 h2 hsl
  | DragInfo mm =>
    simp only [wf_msg, Bool.and_eq_true, decide_eq_true_eq, wf_str] at hwf
    obtain ⟨⟨h1, h2⟩, hplen⟩ := hwf
    have hsl : mm.data.length < 4294967296 := by
      simp [Message.payload_bytes] at hplen
      omega
    exact rt_dragInfo mm h1 h2 hsl
  | SecureEncryption mm =>
    simp only [wf_msg, Bool.and_eq_true, decide_eq_true_eq, wf_str] at hwf
    obtain ⟨h1, hplen⟩ := hwf
    have hsl : mm.data.length < 4294967296 := by
      simp [Message.payload_bytes] at hplen
      omega
    exact rt_secureEncryption mm h1 hsl
  | LegacySynergy mm =>
    simp only [wf_msg, Bool.and_eq_true, decide_eq_true_eq, wf_str] at hwf
    obtain ⟨h1, hplen⟩ := hwf
    have hsl : mm.data.length < 4294967296 := by
      simp [Message.payload_bytes] at hplen
      omega
    exact rt_legacySynergy mm h1 hsl
  | IncompatibleVersion mm =>
    simp only [wf_msg, Bool.and_eq_true, decide_eq_true_eq, wf_str] at hwf
    obtain ⟨⟨h1, h2⟩, hplen⟩ := hwf
    exact rt_incompatibleVersion mm h1 h2
  | SetOptions mm =>
    simp only [wf_msg, Bool.and_eq_true, decide_eq_true_eq, List.all_eq_true] at hwf
    obtain ⟨hall, hplen⟩ := hwf
    have hn : 1 + mm.options.length * 2 < 4294967296 := by
      simp [Message.payload_bytes] at hplen
      omega
    exact rt_setOptions mm hn hall
  | HelloBarrier mm =>
    simp only [wf_msg, Bool.and_eq_true, decide_eq_true_eq] at hwf
    obtain ⟨⟨⟨h1, h2⟩, hcn⟩, hplen⟩ := hwf
    refine rt_helloBarrier mm h1 h2 ?_
    intro nm hnm
    rw [hnm] at hcn
    simp only [wf_str] at hcn
    refine ⟨hcn, ?_⟩
    have hlen := to_bytes_length_helloBarrier_named mm nm hnm
    simp only [Message.payload_bytes] at hplen
    omega
  | HelloSynergy mm =>
    simp only [wf_msg, Bool.and_eq_true, decide_eq_true_eq] at hwf
    obtain ⟨⟨⟨h1, h2⟩, hcn⟩, hplen⟩ := hwf
    refine rt_helloSynergy mm h1 h2 ?_
    intro nm hnm
    rw [hnm] at hcn
    simp only [wf_str] at hcn
    refine ⟨hcn, ?_⟩
    have hlen := to_bytes_length_helloSynergy_named mm nm hnm
    simp only [Message.payload_bytes] at hplen
    omega

/-- C8: encoding CursorEntered{x=1920, y=1080, sequence=42, mask=3} yields the
ASCII code "CINN" followed by 1920 and 1080 as big-endian i16, 42 as
big-endian u32 and 3 as big-endian u16 (payload of exactly 14 bytes), and
`Message::to_bytes` frames it as [0, 0, 0, 14] followed by that payload. -/
theorem c8_cursor_entered_concrete :
    MessageCursorEntered.to_bytes { x := 1920, y := 1080, sequence := 42, mask := 3 } =
      [67, 73, 78, 78, 7, 128, 4, 56, 0, 0, 0, 42, 0, 3] ∧
    (MessageCursorEntered.to_bytes { x := 1920, y := 1080, sequence := 42, mask := 3 }).length
      = 14 ∧
    Message.to_bytes (.CursorEntered { x := 1920, y := 1080, sequence := 42, mask := 3 }) =
      [0, 0, 0, 14, 67, 73, 78, 78, 7, 128, 4, 56, 0, 0, 0, 42, 0, 3] := by
  refine ⟨by decide, by decide, by decide⟩

/-- C5: `parse_message_with_length` on a buffer whose first 4 bytes declare a
length N consumes exactly 4 + N bytes and parses the message from exactly the
N payload bytes `data[4..4+N]`; with fewer than 4 + N bytes available it
fails with InsufficientData{expected: 4 + N, actual: buffer length}. -/
theorem c5_frame_consumption (data : Bytes) (h4 : 4 ≤ data.length) :
    (4 + u32val data 0 ≤ data.length →
      parse_message_with_length data =
        (parse_message ((data.drop 4).take (u32val data 0))).map
          (fun msg => (msg, 4 + u32val data 0))) ∧
    (data.length < 4 + u32val data 0 →
      parse_message_with_length data =
        .error (.insufficientData (4 + u32val data 0) data.length)) := by
  constructor
  · intro hle
    simp only [parse_message_with_length]
    rw [if_neg (by omega), read_u32, if_neg (by omega), ebind_ok, if_neg (by omega)]
    cases hp : parse_message ((data.drop 4).take (u32val data 0)) with
    | ok msg => rw [ebind_ok]; rfl
    | error e => rfl
  · intro hlt
    simp only [parse_message_with_length]
    rw [if_neg (by omega), read_u32, if_neg (by omega), ebind_ok, if_pos (by omega)]

/-- C5 witness: the documented frame [0,0,0,4]"CALV" consumes 8 bytes, and the
same frame truncated by one byte fails with InsufficientData{8, 7}. -/
theorem c5_frame_consumption_witness :
    parse_message_with_length [0, 0, 0, 4, 67, 65, 76, 86] = .ok (.KeepAlive {}, 8) ∧
    parse_message_with_length [0, 0, 0, 4, 67, 65, 76] =
      .error (.insufficientData 8 7) := by
  constructor
  · have h := (c5_frame_consumption [0, 0, 0, 4, 67, 65, 76, 86] (by decide)).1 (by decide)
    rw [h]
    decide
  · have h := (c5_frame_consumption [0, 0, 0, 4, 67, 65, 76] (by decide)).2 (by decide)
    rw [h]
    decide

/-- C1 (amended): decoding inverts encoding for every constructible message
whose encoded payload fits in a `u32` frame, i.e. is shorter than `2 ^ 32`
bytes (`wf_msg`); without that bound the `as u32` truncation of string
lengths and of the frame length falsifies the claim (see the
counterexample). -/
theorem c1_roundtrip_decode_encode (m : Message) (hwf : wf_msg m = true) :
    parse_message m.payload_bytes = .ok m ∧
    parse_message_with_length m.to_bytes = .ok (m, m.to_bytes.length) := by
  have h1 := parse_payload_of_wf m hwf
  have hplen : m.payload_bytes.length < 4294967296 := by
    simp only [wf_msg, Bool.and_eq_true, decide_eq_true_eq] at hwf
    exact hwf.2
  refine ⟨h1, ?_⟩
  have h2 := parse_with_length_frame m.payload_bytes m h1 hplen
  have hsh : Message.to_bytes m = u32be m.payload_bytes.length ++ m.payload_bytes := rfl
  rw [hsh, h2]
  have : (u32be m.payload_bytes.length ++ m.payload_bytes).length =
      4 + m.payload_bytes.length := by simp
  rw [this]

/-- C1 witness: the round trip at the concrete reply Hello carrying the
client name "a". -/
theorem c1_roundtrip_decode_encode_witness :
    wf_msg (.HelloBarrier { major := 1, minor := 8, client_name := some [97] }) = true ∧
    (parse_message
        (Message.payload_bytes
          (.HelloBarrier { major := 1, minor := 8, client_name := some [97] })) =
      .ok (.HelloBarrier { major := 1, minor := 8, client_name := some [97] }) ∧
    parse_message_with_length
        (Message.to_bytes (.HelloBarrier { major := 1, minor := 8, client_name := some [97] })) =
      .ok (.HelloBarrier { major := 1, minor := 8, client_name := some [97] },
        (Message.to_bytes
          (.HelloBarrier { major := 1, minor := 8, client_name := some [97] })).length)) :=
  ⟨by decide, c1_roundtrip_decode_encode _ (by decide)⟩

theorem hello_name_length_wraps (nm : Bytes) (h : nm.length = 4294967296) :
    parse_message
        (Message.payload_bytes (.HelloBarrier { major := 1, minor := 8, client_name := some nm })) =
      .ok (.HelloBarrier { major := 1, minor := 8, client_name := some [] }) := by
  have hsh : Message.payload_bytes (.HelloBarrier { major := 1, minor := 8, client_name := some nm }) =
      MessageHelloBarrier.to_bytes { major := 1, minor := 8, client_name := some nm } := rfl
  have hlen : (MessageHelloBarrier.to_bytes { major := 1, minor := 8, client_name := some nm }).length
      = 15 + nm.length := to_bytes_length_helloBarrier_named _ nm rfl
  have hze : u32be nm.length = u32be 0 := by rw [h]; decide
  rw [hsh]
  rw [parse_dispatch_helloBarrier _ (by omega)
    (take7_of_shape _ MessageHelloBarrier.CODE
      (u16be 1 ++ u16be 8 ++ (u32be nm.length ++ nm))
      (by simp [MessageHelloBarrier.to_bytes]) rfl)]
  rw [MessageHelloBarrier.from_bytes, hlen]
  rw [if_neg (by simp [MessageHelloBarrier.CODE]; try omega)]
  rw [read_u16, hlen, if_neg (by simp [MessageHelloBarrier.CODE]; try omega)]
  rw [u16val_shape _ MessageHelloBarrier.CODE
      (u16be 8 ++ (u32be nm.length ++ nm)) 1 _
      (by simp [MessageHelloBarrier.to_bytes]) (by rfl) (by omega)]
  rw [ebind_ok]
  rw [read_u16, hlen, if_neg (by simp [MessageHelloBarrier.CODE]; try omega)]
  rw [u16val_shape _ (MessageHelloBarrier.CODE ++ u16be 1)
      (u32be nm.length ++ nm) 8 _
      (by simp [MessageHelloBarrier.to_bytes]) (by simp [MessageHelloBarrier.CODE]) (by omega)]
  rw [ebind_ok]
  rw [if_pos (by simp [MessageHelloBarrier.CODE]; try omega)]
  rw [if_neg (by simp [MessageHelloBarrier.CODE]; try omega)]
  rw [read_u32, hlen, if_neg (by simp [MessageHelloBarrier.CODE]; try omega)]
  rw [u32val_shape _ (MessageHelloBarrier.CODE ++ u16be 1 ++ u16be 8)
      nm 0 _
      (by rw [← hze]; simp [MessageHelloBarrier.to_bytes])
      (by simp [MessageHelloBarrier.CODE]) (by omega)]
  rw [ebind_ok]
  rw [if_neg (by simp [MessageHelloBarrier.CODE]; try omega)]
  rw [List.take_zero]
  rw [if_pos (by decide)]
  rfl

/-- C1 counterexample: a constructible Hello whose client name holds exactly
`2 ^ 32` bytes does not survive the round trip: the `as u32` cast wraps the
name-length prefix to 0, so decoding its own encoding yields the empty name
instead of the original one. -/
theorem c1_counterexample :
    parse_message
        (Message.payload_bytes
          (.HelloBarrier
            { major := 1, minor := 8, client_name := some (List.replicate 4294967296 97) })) ≠
      .ok (.HelloBarrier
        { major := 1, minor := 8, client_name := some (List.replicate 4294967296 97) }) := by
  have key : ∀ nm : Bytes, nm.length = 4294967296 →
      parse_message (Message.payload_bytes
        (.HelloBarrier { major := 1, minor := 8, client_name := some nm })) ≠
      .ok (.HelloBarrier { major := 1, minor := 8, client_name := some nm }) := by
    intro nm h
    rw [hello_name_length_wraps nm h]
    intro hcontra
    have h1 : ([] : Bytes) = nm := by
      have hname := congrArg (fun r => match r with
        | Except.ok (Message.HelloBarrier hb) => hb.client_name
        | _ => none) hcontra
      simpa using hname
    have h2 : nm.length = 0 := by rw [← h1]; rfl
    omega
  exact key (List.replicate 4294967296 97) (List.length_replicate _ _)

theorem hello_barrier_name_by_length (data : Bytes) :
    (data.length = 11 →
      MessageHelloBarrier.from_bytes data =
        .ok { major := u16val data 7, minor := u16val data 9, client_name := none }) ∧
    (11 < data.length →
      MessageHelloBarrier.from_bytes data =
        (lps_from_bytes data 11).map
          (fun p => { major := u16val data 7, minor := u16val data 9,
                      client_name := some p.1 })) := by
  constructor
  · intro h11
    rw [MessageHelloBarrier.from_bytes]
    rw [if_neg (by simp [MessageHelloBarrier.CODE]; omega)]
    rw [read_u16, if_neg (by simp [MessageHelloBarrier.CODE]; omega), ebind_ok]
    rw [read_u16, if_neg (by simp [MessageHelloBarrier.CODE]; omega), ebind_ok]
    rw [if_neg (by simp [MessageHelloBarrier.CODE]; omega)]
    rfl
  · intro h11
    rw [MessageHelloBarrier.from_bytes]
    rw [if_neg (by simp [MessageHelloBarrier.CODE]; omega)]
    rw [read_u16, if_neg (by simp [MessageHelloBarrier.CODE]; omega), ebind_ok]
    rw [read_u16, if_neg (by simp [MessageHelloBarrier.CODE]; omega), ebind_ok]
    rw [if_pos (by simp [MessageHelloBarrier.CODE]; omega)]
    rw [lps_from_bytes]
    have hoffs : MessageHelloBarrier.CODE.length + 4 = 11 := by
      simp [MessageHelloBarrier.CODE]
    rw [hoffs]
    by_cases hc15 : data.length < 11 + 4
    · rw [if_pos hc15, if_pos hc15]
      rfl
    · rw [if_neg hc15, if_neg hc15]
      rw [read_u32, if_neg (by omega)]
      simp only [ebind_ok]
      by_cases hcl : data.length < 11 + 4 + u32val data 11
      · rw [if_pos hcl, if_pos hcl]
        rfl
      · rw [if_neg hcl, if_neg hcl]
        by_cases hcu : validUtf8 ((data.drop (11 + 4)).take (u32val data 11)) = true
        · rw [if_pos hcu, if_pos hcu]
          rfl
        · rw [if_neg hcu, if_neg hcu]
          rfl

theorem hello_synergy_name_by_length (data : Bytes) :
    (data.length = 11 →
      MessageHelloSynergy.from_bytes data =
        .ok { major := u16val data 7, minor := u16val data 9, client_name := none }) ∧
    (11 < data.length →
      MessageHelloSynergy.from_bytes data =
        (lps_from_bytes data 11).map
          (fun p => { major := u16val data 7, minor := u16val data 9,
                      client_name := some p.1 })) := by
  constructor
  · intro h11
    rw [MessageHelloSynergy.from_bytes]
    rw [if_neg (by simp [MessageHelloSynergy.CODE]; omega)]
    rw [read_u16, if_neg (by simp [MessageHelloSynergy.CODE]; omega), ebind_ok]
    rw [read_u16, if_neg (by simp [MessageHelloSynergy.CODE]; omega), ebind_ok]
    rw [if_neg (by simp [MessageHelloSynergy.CODE]; omega)]
    rfl
  · intro h11
    rw [MessageHelloSynergy.from_bytes]
    rw [if_neg (by simp [MessageHelloSynergy.CODE]; omega)]
    rw [read_u16, if_neg (by simp [MessageHelloSynergy.CODE]; omega), ebind_ok]
    rw [read_u16, if_neg (by simp [MessageHelloSynergy.CODE]; omega), ebind_ok]
    rw [if_pos (by simp [MessageHelloSynergy.CODE]; omega)]
    rw [lps_from_bytes]
    have hoffs : MessageHelloSynergy.CODE.length + 4 = 11 := by
      simp [MessageHelloSynergy.CODE]
    rw [hoffs]
    by_cases hc15 : data.length < 11 + 4
    · rw [if_pos hc15, if_pos hc15]
      rfl
    · rw [if_neg hc15, if_neg hc15]
      rw [read_u32, if_neg (by omega)]
      simp only [ebind_ok]
      by_cases hcl : data.length < 11 + 4 + u32val data 11
      · rw [if_pos hcl, if_pos hcl]
        rfl
      · rw [if_neg hcl, if_neg hcl]
        by_cases hcu : validUtf8 ((data.drop (11 + 4)).take (u32val data 11)) = true
        · rw [if_pos hcu, if_pos hcu]
          rfl
        · rw [if_neg hcu, if_neg hcu]
          rfl

/-- C6: for both Hello variants the presence of the optional client name is
decided purely by leftover buffer length: a buffer of exactly code length + 4
bytes (the two u16 version fields) decodes with client_name = None, and any
strictly longer buffer is decoded by treating the bytes after the version
fields as one 4-byte-length-prefixed UTF-8 string, yielding
client_name = Some(name) exactly when that string parse succeeds; no flag
byte is consulted. -/
theorem c6_hello_name_presence (data : Bytes) :
    (data.length = 11 →
      MessageHelloBarrier.from_bytes data =
        .ok { major := u16val data 7, minor := u16val data 9, client_name := none } ∧
      MessageHelloSynergy.from_bytes data =
        .ok { major := u16val data 7, minor := u16val data 9, client_name := none }) ∧
    (11 < data.length →
      MessageHelloBarrier.from_bytes data =
        (lps_from_bytes data 11).map
          (fun p => { major := u16val data 7, minor := u16val data 9,
                      client_name := some p.1 }) ∧
      MessageHelloSynergy.from_bytes data =
        (lps_from_bytes data 11).map
          (fun p => { major := u16val data 7, minor := u16val data 9,
                      client_name := some p.1 })) := by
  constructor
  · intro h
    exact ⟨(hello_barrier_name_by_length data).1 h, (hello_synergy_name_by_length data).1 h⟩
  · intro h
    exact ⟨(hello_barrier_name_by_length data).2 h, (hello_synergy_name_by_length data).2 h⟩

/-- C6 witness: an 11-byte buffer decodes with no name; a 16-byte buffer with
a 1-byte length-prefixed name decodes with Some name. -/
theorem c6_hello_name_presence_witness :
    MessageHelloBarrier.from_bytes [66, 97, 114, 114, 105, 101, 114, 0, 1, 0, 8] =
      .ok { major := 1, minor := 8, client_name := none } ∧
    MessageHelloBarrier.from_bytes
        [66, 97, 114, 114, 105, 101, 114, 0, 1, 0, 8, 0, 0, 0, 1, 97] =
      .ok { major := 1, minor := 8, client_name := some [97] } := by
  constructor
  · have h := ((c6_hello_name_presence
      [66, 97, 114, 114, 105, 101, 114, 0, 1, 0, 8]).1 (by decide)).1
    rw [h]
    decide
  · have h := ((c6_hello_name_presence
      [66, 97, 114, 114, 105, 101, 114, 0, 1, 0, 8, 0, 0, 0, 1, 97]).2
      (by decide)).1
    rw [h]
    decide

/-- C3 (amended): encoding k DSOP option pairs emits the code "DSOP" and a
leading 4-byte big-endian element count whose value is 1 + 2k whenever
k < 2^31 (in general (1 + 2k) mod 2^32, by the `as u32` cast — see the
counterexample); decoding fails with InvalidData when the leading count is 0
or when count - 1 is odd; and decoding an encoded option list recovers
exactly its k pairs in insertion order, with unrecognized keys (those outside
`dsopKnownKeys`) preserved as opaque pairs rather than rejected. -/
theorem c3_dsop_arithmetic :
    (∀ opts : List (Nat × Nat), opts.length < 2147483648 →
      (MessageSetOptions.to_bytes { options := opts }).take 4 = MessageSetOptions.CODE ∧
      read_u32 (MessageSetOptions.to_bytes { options := opts }) 4 =
        .ok (1 + 2 * opts.length)) ∧
    (∀ data : Bytes, 8 ≤ data.length → u32val data 4 = 0 →
      MessageSetOptions.from_bytes data =
        .error (.invalidData ("DSOP length must be at least 1"))) ∧
    (∀ data : Bytes, 8 ≤ data.length → (u32val data 4 - 1) % 2 = 1 →
      MessageSetOptions.from_bytes data =
        .error (.invalidData
          ("DSOP must have an even number of elements (key-value pairs)"))) ∧
    (∀ opts : List (Nat × Nat), opts.length < 2147483648 →
      (∀ p ∈ opts, p.1 < 4294967296 ∧ p.2 < 4294967296) →
      MessageSetOptions.from_bytes (MessageSetOptions.to_bytes { options := opts }) =
        .ok { options := opts }) := by
  refine ⟨?_, ?_, ?_, ?_⟩
  · intro opts hk
    constructor
    · exact take4_of_shape _ MessageSetOptions.CODE
        (u32be (1 + opts.length * 2) ++ pairs_to_bytes opts)
        (by simp [MessageSetOptions.to_bytes]) rfl
    · rw [read_u32_shape _ MessageSetOptions.CODE (pairs_to_bytes opts)
        (1 + opts.length * 2) 4
        (by simp [MessageSetOptions.to_bytes]) rfl (by omega)]
      rw [show 1 + opts.length * 2 = 1 + 2 * opts.length by omega]
  · intro data h8 h0
    simp only [MessageSetOptions.from_bytes, MessageSetOptions.CODE]
    rw [if_neg (by simp; omega)]
    rw [read_u32, if_neg (by simp; omega), ebind_ok]
    simp only [List.length_cons, List.length_nil]
    rw [h0]
    rfl
  · intro data h8 hodd
    have h1 : 1 ≤ u32val data 4 := by omega
    simp only [MessageSetOptions.from_bytes, MessageSetOptions.CODE]
    rw [if_neg (by simp; omega)]
    rw [read_u32, if_neg (by simp; omega), ebind_ok]
    norm_num
    rw [if_neg (by omega)]
    rw [if_pos (by omega)]
  · intro opts hk hwf
    exact from_to_setOptions { options := opts } (by simp; omega) hwf

/-- C3 witness: encoding one unrecognized pair (key 1, outside
`dsopKnownKeys`) gives count 3; count 0 and count 2 buffers are rejected as
InvalidData; the one-pair round trip succeeds. -/
theorem c3_dsop_arithmetic_witness :
    ((MessageSetOptions.to_bytes { options := [(1, 5)] }).take 4 =
        MessageSetOptions.CODE ∧
      read_u32 (MessageSetOptions.to_bytes { options := [(1, 5)] }) 4 = .ok 3) ∧
    MessageSetOptions.from_bytes [68, 83, 79, 80, 0, 0, 0, 0] =
      .error (.invalidData ("DSOP length must be at least 1")) ∧
    MessageSetOptions.from_bytes [68, 83, 79, 80, 0, 0, 0, 2] =
      .error (.invalidData
        ("DSOP must have an even number of elements (key-value pairs)")) ∧
    dsopKnownKeys.contains 1 = false ∧
    MessageSetOptions.from_bytes (MessageSetOptions.to_bytes { options := [(1, 5)] }) =
      .ok { options := [(1, 5)] } := by
  refine ⟨c3_dsop_arithmetic.1 [(1, 5)] (by decide), ?_, ?_, by decide, ?_⟩
  · have h := c3_dsop_arithmetic.2.1 [68, 83, 79, 80, 0, 0, 0, 0] (by decide) (by decide)
    exact h
  · have h := c3_dsop_arithmetic.2.2.1 [68, 83, 79, 80, 0, 0, 0, 2] (by decide) (by decide)
    exact h
  · exact c3_dsop_arithmetic.2.2.2 [(1, 5)] (by decide) (by decide)

theorem dsop_count_wraps (opts : List (Nat × Nat)) (h : opts.length = 2147483648) :
    read_u32 (MessageSetOptions.to_bytes { options := opts }) 4 = .ok 1 := by
  have hze : u32be (1 + opts.length * 2) = u32be 1 := by rw [h]; decide
  rw [read_u32_shape _ MessageSetOptions.CODE (pairs_to_bytes opts) 1 4
    (by rw [← hze]; simp [MessageSetOptions.to_bytes]) rfl (by omega)]

/-- C3 counterexample: for a list of 2^31 pairs the leading element count is
not 1 + 2k: the `(len * 2) as u32` cast wraps, so the encoded count reads
back as 1. -/
theorem c3_counterexample :
    read_u32 (MessageSetOptions.to_bytes
        { options := List.replicate 2147483648 (0, 0) }) 4 = .ok 1 ∧
    (1 : Nat) ≠ 1 + 2 * 2147483648 := by
  constructor
  · exact dsop_count_wraps (List.replicate 2147483648 (0, 0)) (List.length_replicate _ _)
  · decide

theorem lps_isOk_length (data : Bytes) (off : Nat)
    (h : (lps_from_bytes data off).isOk = true) : off + 4 ≤ data.length := by
  by_contra hc
  rw [lps_from_bytes, if_pos (by omega)] at h
  exact Bool.noConfusion h

theorem fixed_fields_isOk_cursorEntered (data : Bytes) (h : 14 ≤ data.length) :
    (MessageCursorEntered.from_bytes data).isOk = true := by
  simp only [MessageCursorEntered.from_bytes, MessageCursorEntered.CODE,
    read_i16, read_u32, read_u16, read_u8]
  norm_num
  rw [if_neg (by omega)]
  repeat first
  | rw [if_neg (by omega)]
  | rw [ebind_ok]
  rfl
theorem fixed_fields_isOk_clientClipboard (data : Bytes) (h : 9 ≤ data.length) :
    (MessageClientClipboard.from_bytes data).isOk = true := by
  simp only [MessageClientClipboard.from_bytes, MessageClientClipboard.CODE, read_u8, read_u32]
  norm_num
  rw [if_neg (by omega)]
  repeat first
  | rw [if_neg (by omega)]
  | rw [ebind_ok]
  rfl

theorem fixed_fields_isOk_screenSaverChange (data : Bytes) (h : 5 ≤ data.length) :
    (MessageScreenSaverChange.from_bytes data).isOk = true := by
  simp only [MessageScreenSaverChange.from_bytes, MessageScreenSaverChange.CODE, read_u8]
  norm_num
  rw [if_neg (by omega)]
  repeat first
  | rw [if_neg (by omega)]
  | rw [ebind_ok]
  rfl

theorem fixed_fields_isOk_keyDown (data : Bytes) (h : 10 ≤ data.length) :
    (MessageKeyDown.from_bytes data).isOk = true := by
  simp only [MessageKeyDown.from_bytes, MessageKeyDown.CODE, read_u16]
  norm_num
  rw [if_neg (by omega)]
  repeat first
  | rw [if_neg (by omega)]
  | rw [ebind_ok]
  rfl

theorem fixed_fields_isOk_keyUp (data : Bytes) (h : 10 ≤ data.length) :
    (MessageKeyUp.from_bytes data).isOk = true := by
  simp only [MessageKeyUp.from_bytes, MessageKeyUp.CODE, read_u16]
  norm_num
  rw [if_neg (by omega)]
  repeat first
  | rw [if_neg (by omega)]
  | rw [ebind_ok]
  rfl

theorem fixed_fields_isOk_mouseButtonDown (data : Bytes) (h : 5 ≤ data.length) :
    (MessageMouseButtonDown.from_bytes data).isOk = true := by
  simp only [MessageMouseButtonDown.from_bytes, MessageMouseButtonDown.CODE, read_u8]
  norm_num
  rw [if_neg (by omega)]
  repeat first
  | rw [if_neg (by omega)]
  | rw [ebind_ok]
  rfl

theorem fixed_fields_isOk_mouseButtonUp (data : Bytes) (h : 5 ≤ data.length) :
    (MessageMouseButtonUp.from_bytes data).isOk = true := by
  simp only [MessageMouseButtonUp.from_bytes, MessageMouseButtonUp.CODE, read_u8]
  norm_num
  rw [if_neg (by omega)]
  repeat first
  | rw [if_neg (by omega)]
  | rw [ebind_ok]
  rfl

theorem fixed_fields_isOk_mouseMove (data : Bytes) (h : 8 ≤ data.length) :
    (MessageMouseMove.from_bytes data).isOk = true := by
  simp only [MessageMouseMove.from_bytes, MessageMouseMove.CODE, read_i16]
  norm_num
  rw [if_neg (by omega)]
  repeat first
  | rw [if_neg (by omega)]
  | rw [ebind_ok]
  rfl

theorem fixed_fields_isOk_mouseRelativeMove (data : Bytes) (h : 8 ≤ data.length) :
    (MessageMouseRelativeMove.from_bytes data).isOk = true := by
  simp only [MessageMouseRelativeMove.from_bytes, MessageMouseRelativeMove.CODE, read_i16]
  norm_num
  rw [if_neg (by omega)]
  repeat first
  | rw [if_neg (by omega)]
  | rw [ebind_ok]
  rfl

theorem fixed_fields_isOk_mouseWheel (data : Bytes) (h : 8 ≤ data.length) :
    (MessageMouseWheel.from_bytes data).isOk = true := by
  simp only [MessageMouseWheel.from_bytes, MessageMouseWheel.CODE, read_i16]
  norm_num
  rw [if_neg (by omega)]
  repeat first
  | rw [if_neg (by omega)]
  | rw [ebind_ok]
  rfl

theorem fixed_fields_isOk_clientInfo (data : Bytes) (h : 18 ≤ data.length) :
    (MessageClientInfo.from_bytes data).isOk = true := by
  simp only [MessageClientInfo.from_bytes, MessageClientInfo.CODE, read_u16]
  norm_num
  rw [if_neg (by omega)]
  repeat first
  | rw [if_neg (by omega)]
  | rw [ebind_ok]
  rfl

theorem fixed_fields_isOk_incompatibleVersion (data : Bytes) (h : 8 ≤ data.length) :
    (MessageIncompatibleVersion.from_bytes data).isOk = true := by
  simp only [MessageIncompatibleVersion.from_bytes, MessageIncompatibleVersion.CODE, read_u16]
  norm_num
  rw [if_neg (by omega)]
  repeat first
  | rw [if_neg (by omega)]
  | rw [ebind_ok]
  rfl

theorem lps_fields_isOk_keyDownWithLanguage (data : Bytes)
    (hl : (lps_from_bytes data 10).isOk = true) :
    (MessageKeyDownWithLanguage.from_bytes data).isOk = true := by
  have hle := lps_isOk_length data 10 hl
  simp only [MessageKeyDownWithLanguage.from_bytes, MessageKeyDownWithLanguage.CODE, read_u16]
  norm_num
  rw [if_neg (by omega)]
  cases hlp : lps_from_bytes data 10 with
  | error e =>
    rw [hlp] at hl
    exact Bool.noConfusion hl
  | ok p =>
    rw [ebind_ok]
    repeat first
    | rw [if_neg (by omega)]
    | rw [ebind_ok]
    rfl

theorem lps_fields_isOk_keyRepeat (data : Bytes)
    (hl : (lps_from_bytes data 12).isOk = true) :
    (MessageKeyRepeat.from_bytes data).isOk = true := by
  have hle := lps_isOk_length data 12 hl
  simp only [MessageKeyRepeat.from_bytes, MessageKeyRepeat.CODE, read_u16]
  norm_num
  rw [if_neg (by omega)]
  cases hlp : lps_from_bytes data 12 with
  | error e =>
    rw [hlp] at hl
    exact Bool.noConfusion hl
  | ok p =>
    rw [ebind_ok]
    repeat first
    | rw [if_neg (by omega)]
    | rw [ebind_ok]
    rfl

theorem lps_fields_isOk_clipboardData (data : Bytes)
    (hl : (lps_from_bytes data 10).isOk = true) :
    (MessageClipboardData.from_bytes data).isOk = true := by
  have hle := lps_isOk_length data 10 hl
  simp only [MessageClipboardData.from_bytes, MessageClipboardData.CODE, read_u8, read_u32]
  norm_num
  rw [if_neg (by omega)]
  cases hlp : lps_from_bytes data 10 with
  | error e =>
    rw [hlp] at hl
    exact Bool.noConfusion hl
  | ok p =>
    rw [ebind_ok]
    repeat first
    | rw [if_neg (by omega)]
    | rw [ebind_ok]
    rfl

theorem lps_fields_isOk_fileTransfer (data : Bytes)
    (hl : (lps_from_bytes data 5).isOk = true) :
    (MessageFileTransfer.from_bytes data).isOk = true := by
  have hle := lps_isOk_length data 5 hl
  simp only [MessageFileTransfer.from_bytes, MessageFileTransfer.CODE, read_u8]
  norm_num
  rw [if_neg (by omega)]
  cases hlp : lps_from_bytes data 5 with
  | error e =>
    rw [hlp] at hl
    exact Bool.noConfusion hl
  | ok p =>
    rw [ebind_ok]
    repeat first
    | rw [if_neg (by omega)]
    | rw [ebind_ok]
    rfl

theorem lps_fields_isOk_dragInfo (data : Bytes)
    (hl : (lps_from_bytes data 6).isOk = true) :
    (MessageDragInfo.from_bytes data).isOk = true := by
  have hle := lps_isOk_length data 6 hl
  simp only [MessageDragInfo.from_bytes, MessageDragInfo.CODE, read_u16]
  norm_num
  rw [if_neg (by omega)]
  cases hlp : lps_from_bytes data 6 with
  | error e =>
    rw [hlp] at hl
    exact Bool.noConfusion hl
  | ok p =>
    rw [ebind_ok]
    repeat first
    | rw [if_neg (by omega)]
    | rw [ebind_ok]
    rfl

theorem lps_fields_isOk_secureEncryption (data : Bytes)
    (hl : (lps_from_bytes data 4).isOk = true) :
    (MessageSecureEncryption.from_bytes data).isOk = true := by
  simp only [MessageSecureEncryption.from_bytes, MessageSecureEncryption.CODE]
  norm_num
  cases hlp : lps_from_bytes data 4 with
  | error e =>
    rw [hlp] at hl
    exact Bool.noConfusion hl
  | ok p =>
    rw [ebind_ok]
    rfl

theorem lps_fields_isOk_legacySynergy (data : Bytes)
    (hl : (lps_from_bytes data 4).isOk = true) :
    (MessageLegacySynergy.from_bytes data).isOk = true := by
  simp only [MessageLegacySynergy.from_bytes, MessageLegacySynergy.CODE]
  norm_num
  cases hlp : lps_from_bytes data 4 with
  | error e =>
    rw [hlp] at hl
    exact Bool.noConfusion hl
  | ok p =>
    rw [ebind_ok]
    rfl

theorem hello_fields_isOk_helloBarrier (data : Bytes) (h : data.length = 11) :
    (MessageHelloBarrier.from_bytes data).isOk = true := by
  simp only [MessageHelloBarrier.from_bytes, MessageHelloBarrier.CODE, read_u16]
  norm_num
  rw [if_neg (by omega)]
  repeat first
  | rw [if_neg (by omega)]
  | rw [ebind_ok]
  rfl

theorem hello_fields_isOk_helloSynergy (data : Bytes) (h : data.length = 11) :
    (MessageHelloSynergy.from_bytes data).isOk = true := by
  simp only [MessageHelloSynergy.from_bytes, MessageHelloSynergy.CODE, read_u16]
  norm_num
  rw [if_neg (by omega)]
  repeat first
  | rw [if_neg (by omega)]
  | rw [ebind_ok]
  rfl

/-- C10 (amended): none of the per-type `from_bytes` functions checks that the
buffer begins with the type's CODE; only `parse_message` dispatches on it.
Every field-less type parses Ok from every buffer, including the empty one;
every fixed-field type parses Ok from any buffer long enough for its fields
regardless of the leading bytes, with a Hello buffer of exactly 11 bytes
parsing Ok; and every string-carrying type parses Ok from any buffer whose
length-prefixed string payload parses (long enough and valid UTF-8 — without
the UTF-8 proviso the original claim fails, see the counterexample). -/
theorem c10_from_bytes_no_code_check :
    (∀ data : Bytes,
      MessageKeepAlive.from_bytes data = .ok {} ∧
      MessageNoOp.from_bytes data = .ok {} ∧
      MessageClose.from_bytes data = .ok {} ∧
      MessageCursorLeft.from_bytes data = .ok {} ∧
      MessageResetOptions.from_bytes data = .ok {} ∧
      MessageInfoAcknowledgment.from_bytes data = .ok {} ∧
      MessageQueryInfo.from_bytes data = .ok {} ∧
      MessageServerBusy.from_bytes data = .ok {} ∧
      MessageUnknownClient.from_bytes data = .ok {} ∧
      MessageProtocolError.from_bytes data = .ok {}) ∧
    (∀ data : Bytes,
      (14 ≤ data.length → (MessageCursorEntered.from_bytes data).isOk = true) ∧
      (9 ≤ data.length → (MessageClientClipboard.from_bytes data).isOk = true) ∧
      (5 ≤ data.length → (MessageScreenSaverChange.from_bytes data).isOk = true) ∧
      (10 ≤ data.length → (MessageKeyDown.from_bytes data).isOk = true) ∧
      (10 ≤ data.length → (MessageKeyUp.from_bytes data).isOk = true) ∧
      (5 ≤ data.length → (MessageMouseButtonDown.from_bytes data).isOk = true) ∧
      (5 ≤ data.length → (MessageMouseButtonUp.from_bytes data).isOk = true) ∧
      (8 ≤ data.length → (MessageMouseMove.from_bytes data).isOk = true) ∧
      (8 ≤ data.length → (MessageMouseRelativeMove.from_bytes data).isOk = true) ∧
      (8 ≤ data.length → (MessageMouseWheel.from_bytes data).isOk = true) ∧
      (18 ≤ data.length → (MessageClientInfo.from_bytes data).isOk = true) ∧
      (8 ≤ data.length → (MessageIncompatibleVersion.from_bytes data).isOk = true) ∧
      (data.length = 11 → (MessageHelloBarrier.from_bytes data).isOk = true ∧
        (MessageHelloSynergy.from_bytes data).isOk = true)) ∧
    (∀ data : Bytes,
      ((lps_from_bytes data 10).isOk = true →
        (MessageKeyDownWithLanguage.from_bytes data).isOk = true) ∧
      ((lps_from_bytes data 12).isOk = true →
        (MessageKeyRepeat.from_bytes data).isOk = true) ∧
      ((lps_from_bytes data 10).isOk = true →
        (MessageClipboardData.from_bytes data).isOk = true) ∧
      ((lps_from_bytes data 5).isOk = true →
        (MessageFileTransfer.from_bytes data).isOk = true) ∧
      ((lps_from_bytes data 6).isOk = true →
        (MessageDragInfo.from_bytes data).isOk = true) ∧
      ((lps_from_bytes data 4).isOk = true →
        (MessageSecureEncryption.from_bytes data).isOk = true) ∧
      ((lps_from_bytes data 4).isOk = true →
        (MessageLegacySynergy.from_bytes data).isOk = true)) := by
  refine ⟨?_, ?_, ?_⟩
  · intro data
    exact ⟨rfl, rfl, rfl, rfl, rfl, rfl, rfl, rfl, rfl, rfl⟩
  · intro data
    exact ⟨fixed_fields_isOk_cursorEntered data, fixed_fields_isOk_clientClipboard data,
      fixed_fields_isOk_screenSaverChange data, fixed_fields_isOk_keyDown data,
      fixed_fields_isOk_keyUp data, fixed_fields_isOk_mouseButtonDown data,
      fixed_fields_isOk_mouseButtonUp data, fixed_fields_isOk_mouseMove data,
      fixed_fields_isOk_mouseRelativeMove data, fixed_fields_isOk_mouseWheel data,
      fixed_fields_isOk_clientInfo data, fixed_fields_isOk_incompatibleVersion data,
      fun h => ⟨hello_fields_isOk_helloBarrier data h, hello_fields_isOk_helloSynergy data h⟩⟩
  · intro data
    exact ⟨lps_fields_isOk_keyDownWithLanguage data, lps_fields_isOk_keyRepeat data,
      lps_fields_isOk_clipboardData data, lps_fields_isOk_fileTransfer data,
      lps_fields_isOk_dragInfo data, lps_fields_isOk_secureEncryption data,
      lps_fields_isOk_legacySynergy data⟩

/-- C10 witness: the field-less KeepAlive parses the empty buffer; a 14-byte
all-zero buffer (not starting with "CINN") parses as CursorEntered; a 15-byte
buffer not starting with "DKDL" but carrying a valid 1-byte string parses as
KeyDownWithLanguage. -/
theorem c10_from_bytes_no_code_check_witness :
    MessageKeepAlive.from_bytes [] = .ok {} ∧
    (MessageCursorEntered.from_bytes
      [0, 0, 0, 0, 0, 0, 0, 0, 0, 0, 0, 0, 0, 0]).isOk = true ∧
    (MessageKeyDownWithLanguage.from_bytes
      [0, 0, 0, 0, 0, 0, 0, 0, 0, 0, 0, 0, 0, 1, 97]).isOk = true := by
  refine ⟨(c10_from_bytes_no_code_check.1 []).1, ?_, ?_⟩
  · exact (c10_from_bytes_no_code_check.2.1
      [0, 0, 0, 0, 0, 0, 0, 0, 0, 0, 0, 0, 0, 0]).1 (by decide)
  · exact (c10_from_bytes_no_code_check.2.2
      [0, 0, 0, 0, 0, 0, 0, 0, 0, 0, 0, 0, 0, 1, 97]).1 (by decide)

/-- C10 counterexample: a buffer long enough for all the DKDL fields (10
fixed bytes, a 4-byte string length declaring 1 byte, and that 1 byte) still
fails when the string byte 0xFF is not valid UTF-8 — so `from_bytes` does not
succeed on every sufficiently long buffer as the claim states. -/
theorem c10_counterexample :
    (List.length [0, 0, 0, 0, 0, 0, 0, 0, 0, 0, 0, 0, 0, 1, 255] = 10 + 4 + 1) ∧
    MessageKeyDownWithLanguage.from_bytes
        [0, 0, 0, 0, 0, 0, 0, 0, 0, 0, 0, 0, 0, 1, 255] = .error .invalidUtf8 := by
  exact ⟨by decide, by decide⟩

theorem add_client_ok_inv (b : Builder) (c : ClientConfig) (b' : Builder)
    (h : b.add_client c = .ok b') :
    b'.clients = b.clients ++ [c] ∧
    (∀ e ∈ b.clients, e.relative_to = c.relative_to → e.position ≠ c.position) ∧
    (∀ r, c.relative_to = some r → ∃ e ∈ b.clients, e.name = r) := by
  unfold Builder.add_client at h
  split at h
  case h_1 hnone =>
    split at h
    · cases h
    case isFalse hcond =>
      cases h
      simp only [List.any_eq_true, Bool.and_eq_true, decide_eq_true_eq] at hcond
      push_neg at hcond
      refine ⟨rfl, ?_, ?_⟩
      · intro e he herel hpos
        exact hcond e he (herel.trans hnone) hpos
      · intro r hr
        rw [hnone] at hr
        cases hr
  case h_2 r hsome =>
    split at h
    · cases h
    case isFalse href =>
      split at h
      · cases h
      case isFalse hcond =>
        cases h
        simp only [List.any_eq_true, Bool.and_eq_true, decide_eq_true_eq] at hcond
        push_neg at hcond
        refine ⟨rfl, ?_, ?_⟩
        · intro e he herel hpos
          exact hcond e he (herel.trans hsome) hpos
        · intro r' hr'
          rw [hsome] at hr'
          cases hr'
          have hany : b.clients.any (fun e => decide (e.name = r)) = true := by
            revert href
            cases b.clients.any (fun e => decide (e.name = r)) <;> simp
          simp only [List.any_eq_true, decide_eq_true_eq] at hany
          exact hany

theorem plane_unique_snoc (l : List ClientConfig) (c : ClientConfig)
    (hl : plane_unique l)
    (hnew : ∀ e ∈ l, e.relative_to = c.relative_to → e.position ≠ c.position) :
    plane_unique (l ++ [c]) := by
  unfold plane_unique
  rw [List.pairwise_append]
  refine ⟨hl, List.pairwise_singleton _ _, ?_⟩
  intro e he e' he'
  rw [List.mem_singleton] at he'
  subst he'
  exact hnew e he

theorem refs_backward_snoc (l : List ClientConfig) (c : ClientConfig)
    (hl : refs_backward l)
    (hc : ∀ r, c.relative_to = some r → ∃ e ∈ l, e.name = r) :
    refs_backward (l ++ [c]) := by
  intro i hi r hrel
  rw [List.length_append, List.length_singleton] at hi
  by_cases hil : i < l.length
  · rw [List.getElem_append_left hil] at hrel
    obtain ⟨j, hj, hji, hname⟩ := hl i hil r hrel
    refine ⟨j, by simp; omega, hji, ?_⟩
    rw [List.getElem_append_left hj]
    exact hname
  · have hieq : i = l.length := by omega
    subst hieq
    rw [List.getElem_append_right (by omega)] at hrel
    simp only [Nat.sub_self, List.getElem_singleton] at hrel
    obtain ⟨e, he, hname⟩ := hc r hrel
    obtain ⟨j, hj, hje⟩ := List.mem_iff_getElem.mp he
    refine ⟨j, by simp; omega, hj, ?_⟩
    rw [List.getElem_append_left hj, hje]
    exact hname

theorem add_all_aux (cs : List ClientConfig) :
    ∀ (b0 b : Builder), plane_unique b0.clients → refs_backward b0.clients →
    cs.foldlM Builder.add_client b0 = .ok b →
    plane_unique b.clients ∧ refs_backward b.clients := by
  induction cs with
  | nil =>
    intro b0 b hp hr h
    simp only [List.foldlM_nil] at h
    cases h
    exact ⟨hp, hr⟩
  | cons c rest ih =>
    intro b0 b hp hr h
    rw [List.foldlM_cons] at h
    cases hstep : b0.add_client c with
    | error e =>
      rw [hstep, ebind_err] at h
      cases h
    | ok b1 =>
      rw [hstep, ebind_ok] at h
      obtain ⟨hcl, hplane, hrefs⟩ := add_client_ok_inv b0 c b1 hstep
      refine ih b1 b ?_ ?_ h
      · rw [hcl]
        exact plane_unique_snoc _ _ hp hplane
      · rw [hcl]
        exact refs_backward_snoc _ _ hr hrefs

/-- C9: the screen-topology builder (spec-modelled, the crate's `server`
module is not under src/). Adding a root-plane client on an occupied root
direction fails with DuplicatePosition; adding a client relative to an
unregistered name fails with UnknownReferenceClient; adding a second client
at the same direction relative to the same reference fails with
DuplicateRelativePosition; an add whose direction is free in its plane (and
whose reference, if any, is registered) succeeds, so the same direction
relative to two different references is accepted; and after any sequence of
successful adds each direction occurs at most once per plane and every
reference names a previously added client. -/
theorem c9_topology_builder :
    (∀ (b : Builder) (c : ClientConfig), c.relative_to = none →
      (∃ e ∈ b.clients, e.relative_to = none ∧ e.position = c.position) →
      b.add_client c = .error .DuplicatePosition) ∧
    (∀ (b : Builder) (c : ClientConfig) (r : String), c.relative_to = some r →
      (∀ e ∈ b.clients, e.name ≠ r) →
      b.add_client c = .error .UnknownReferenceClient) ∧
    (∀ (b : Builder) (c : ClientConfig) (r : String), c.relative_to = some r →
      (∃ e ∈ b.clients, e.name = r) →
      (∃ e ∈ b.clients, e.relative_to = some r ∧ e.position = c.position) →
      b.add_client c = .error .DuplicateRelativePosition) ∧
    (∀ (b : Builder) (c : ClientConfig),
      (c.relative_to = none →
        (∀ e ∈ b.clients, e.relative_to = none → e.position ≠ c.position) →
        b.add_client c = .ok { clients := b.clients ++ [c] }) ∧
      (∀ r, c.relative_to = some r →
        (∃ e ∈ b.clients, e.name = r) →
        (∀ e ∈ b.clients, e.relative_to = some r → e.position ≠ c.position) →
        b.add_client c = .ok { clients := b.clients ++ [c] })) ∧
    (∀ (cs : List ClientConfig) (b : Builder), Builder.add_all cs = .ok b →
      plane_unique b.clients ∧ refs_backward b.clients) := by
  refine ⟨?_, ?_, ?_, ?_, ?_⟩
  · intro b c hnone ⟨e, he, he1, he2⟩
    simp only [Builder.add_client, hnone]
    rw [if_pos (List.any_eq_true.mpr ⟨e, he, by simp [he1, he2]⟩)]
  · intro b c r hsome hno
    simp only [Builder.add_client, hsome]
    rw [if_pos ?_]
    rw [List.any_eq_false]
    intro e he
    simpa using hno e he
  · intro b c r hsome ⟨e, he, hname⟩ ⟨e', he', he'1, he'2⟩
    simp only [Builder.add_client, hsome]
    have htrue : (b.clients.any fun x => decide (x.name = r)) = true :=
      List.any_eq_true.mpr ⟨e, he, by simp [hname]⟩
    rw [if_neg (by rw [htrue]; simp)]
    rw [if_pos (List.any_eq_true.mpr ⟨e', he', by simp [he'1, he'2]⟩)]
  · intro b c
    constructor
    · intro hnone hfree
      simp only [Builder.add_client, hnone]
      rw [if_neg ?_]
      simp only [List.any_eq_true, Bool.and_eq_true, decide_eq_true_eq]
      push_neg
      intro e he h1
      exact hfree e he h1
    · intro r hsome ⟨e, he, hname⟩ hfree
      simp only [Builder.add_client, hsome]
      have htrue : (b.clients.any fun x => decide (x.name = r)) = true :=
        List.any_eq_true.mpr ⟨e, he, by simp [hname]⟩
      rw [if_neg (by rw [htrue]; simp)]
      rw [if_neg ?_]
      simp only [List.any_eq_true, Bool.and_eq_true, decide_eq_true_eq]
      push_neg
      intro e' he' h1
      exact hfree e' he' h1
  · intro cs b h
    refine add_all_aux cs { clients := [] } b List.Pairwise.nil ?_ h
    intro i hi r hrel
    simp at hi

/-- C9 witness: the concrete scenarios of the server tests: Left+Left in the
root plane rejected; a reference to an absent "phantom" rejected; two Below
entries relative to the same "laptop" rejected; Below relative to "desktop"
accepted next to Below relative to "laptop"; and the invariants hold after a
successful three-client configuration. -/
theorem c9_topology_builder_witness :
    Builder.add_client
        { clients := [{ name := ("client1"), position := .Left, relative_to := none }] }
        { name := ("client2"), position := .Left, relative_to := none } =
      .error .DuplicatePosition ∧
    Builder.add_client
        { clients := [{ name := ("laptop"), position := .Left, relative_to := none }] }
        { name := ("monitor"), position := .Below, relative_to := some ("phantom") } =
      .error .UnknownReferenceClient ∧
    Builder.add_client
        { clients := [{ name := ("laptop"), position := .Left, relative_to := none },
                      { name := ("monitor1"), position := .Below,
                        relative_to := some ("laptop") }] }
        { name := ("monitor2"), position := .Below, relative_to := some ("laptop") } =
      .error .DuplicateRelativePosition ∧
    Builder.add_client
        { clients := [{ name := ("laptop"), position := .Left, relative_to := none },
                      { name := ("desktop"), position := .Right, relative_to := none },
                      { name := ("monitor1"), position := .Below,
                        relative_to := some ("laptop") }] }
        { name := ("monitor2"), position := .Below, relative_to := some ("desktop") } =
      .ok { clients := [{ name := ("laptop"), position := .Left, relative_to := none },
                        { name := ("desktop"), position := .Right, relative_to := none },
                        { name := ("monitor1"), position := .Below,
                          relative_to := some ("laptop") },
                        { name := ("monitor2"), position := .Below,
                          relative_to := some ("desktop") }] } ∧
    (plane_unique [{ name := ("laptop"), position := .Left, relative_to := none },
                   { name := ("desktop"), position := .Right, relative_to := none },
                   { name := ("tablet"), position := .Below,
                     relative_to := some ("laptop") }] ∧
     refs_backward [{ name := ("laptop"), position := .Left, relative_to := none },
                    { name := ("desktop"), position := .Right, relative_to := none },
                    { name := ("tablet"), position := .Below,
                      relative_to := some ("laptop") }]) := by
  refine ⟨?_, ?_, ?_, ?_, ?_⟩
  · exact c9_topology_builder.1 _ _ rfl (by decide)
  · exact c9_topology_builder.2.1 _ _ ("phantom") (by rfl) (by decide)
  · exact c9_topology_builder.2.2.1 _ _ ("laptop") rfl (by decide) (by decide)
  · exact (c9_topology_builder.2.2.2.1 _ _).2 ("desktop") rfl (by decide) (by decide)
  · exact c9_topology_builder.2.2.2.2
      [{ name := ("laptop"), position := .Left, relative_to := none },
       { name := ("desktop"), position := .Right, relative_to := none },
       { name := ("tablet"), position := .Below, relative_to := some ("laptop") }]
      _ (by rfl)

theorem parse_message_unknown (data : Bytes) (h4 : 4 ≤ data.length)
    (hu : validUtf8 (data.take 4) = true)
    (hne0 : data.take 4 ≠ MessageNoOp.CODE)
    (hne1 : data.take 4 ≠ MessageClose.CODE)
    (hne2 : data.take 4 ≠ MessageCursorEntered.CODE)
    (hne3 : data.take 4 ≠ MessageCursorLeft.CODE)
    (hne4 : data.take 4 ≠ MessageClientClipboard.CODE)
    (hne5 : data.take 4 ≠ MessageScreenSaverChange.CODE)
    (hne6 : data.take 4 ≠ MessageResetOptions.CODE)
    (hne7 : data.take 4 ≠ MessageInfoAcknowledgment.CODE)
    (hne8 : data.take 4 ≠ MessageKeepAlive.CODE)
    (hne9 : data.take 4 ≠ MessageKeyDownWithLanguage.CODE)
    (hne10 : data.take 4 ≠ MessageKeyDown.CODE)
    (hne11 : data.take 4 ≠ MessageKeyRepeat.CODE)
    (hne12 : data.take 4 ≠ MessageKeyUp.CODE)
    (hne13 : data.take 4 ≠ MessageMouseButtonDown.CODE)
    (hne14 : data.take 4 ≠ MessageMouseButtonUp.CODE)
    (hne15 : data.take 4 ≠ MessageMouseMove.CODE)
    (hne16 : data.take 4 ≠ MessageMouseRelativeMove.CODE)
    (hne17 : data.take 4 ≠ MessageMouseWheel.CODE)
    (hne18 : data.take 4 ≠ MessageClipboardData.CODE)
    (hne19 : data.take 4 ≠ MessageClientInfo.CODE)
    (hne20 : data.take 4 ≠ MessageSetOptions.CODE)
    (hne21 : data.take 4 ≠ MessageFileTransfer.CODE)
    (hne22 : data.take 4 ≠ MessageDragInfo.CODE)
    (hne23 : data.take 4 ≠ MessageSecureEncryption.CODE)
    (hne24 : data.take 4 ≠ MessageLegacySynergy.CODE)
    (hne25 : data.take 4 ≠ MessageQueryInfo.CODE)
    (hne26 : data.take 4 ≠ MessageIncompatibleVersion.CODE)
    (hne27 : data.take 4 ≠ MessageServerBusy.CODE)
    (hne28 : data.take 4 ≠ MessageUnknownClient.CODE)
    (hne29 : data.take 4 ≠ MessageProtocolError.CODE)
    (hb : ¬ (7 ≤ data.length ∧ data.take 7 = MessageHelloBarrier.CODE))
    (hs : ¬ (7 ≤ data.length ∧ data.take 7 = MessageHelloSynergy.CODE)) :
    parse_message data = .error (.unknownMessageCode (data.take 4)) := by
  simp only [parse_message, hu]
  rw [if_neg (by omega)]
  simp only [hne0, hne1, hne2, hne3, hne4, hne5, hne6, hne7, hne8, hne9, hne10, hne11, hne12, hne13, hne14, hne15, hne16, hne17, hne18, hne19, hne20, hne21, hne22, hne23, hne24, hne25, hne26, hne27, hne28, hne29, if_false, hb, hs, Bool.false_eq_true, if_true]
  simp [hb, hs]

/-- C7 (amended): `parse_message` dispatches as follows: when the first 4
bytes of the payload equal a known 4-character code, that variant's
`from_bytes` is invoked on the whole payload; when the first SEVEN bytes
equal one of the 7-character Hello codes "Barrier" or "Synergy" the Hello
`from_bytes` is invoked (the version fields then start after those 7 bytes);
and any other payload of at least 4 bytes whose leading 4 bytes form a valid
UTF-8 string fails with UnknownMessageCode carrying those 4 bytes — in
particular, a payload whose first 4 bytes are "Barr" but whose first 7 bytes
are not "Barrier" is NOT parsed as a Hello (the original claim's 4-byte
Hello dispatch is wrong, see the counterexample). -/
theorem c7_dispatch_characterization (data : Bytes) (h4 : 4 ≤ data.length) :
    (data.take 4 = MessageNoOp.CODE →
      parse_message data = (MessageNoOp.from_bytes data).map .NoOp) ∧
    (data.take 4 = MessageClose.CODE →
      parse_message data = (MessageClose.from_bytes data).map .Close) ∧
    (data.take 4 = MessageCursorEntered.CODE →
      parse_message data = (MessageCursorEntered.from_bytes data).map .CursorEntered) ∧
    (data.take 4 = MessageCursorLeft.CODE →
      parse_message data = (MessageCursorLeft.from_bytes data).map .CursorLeft) ∧
    (data.take 4 = MessageClientClipboard.CODE →
      parse_message data = (MessageClientClipboard.from_bytes data).map .ClientClipboard) ∧
    (data.take 4 = MessageScreenSaverChange.CODE →
      parse_message data = (MessageScreenSaverChange.from_bytes data).map .ScreenSaverChange) ∧
    (data.take 4 = MessageResetOptions.CODE →
      parse_message data = (MessageResetOptions.from_bytes data).map .ResetOptions) ∧
    (data.take 4 = MessageInfoAcknowledgment.CODE →
      parse_message data = (MessageInfoAcknowledgment.from_bytes data).map .InfoAcknowledgment) ∧
    (data.take 4 = MessageKeepAlive.CODE →
      parse_message data = (MessageKeepAlive.from_bytes data).map .KeepAlive) ∧
    (data.take 4 = MessageKeyDownWithLanguage.CODE →
      parse_message data = (MessageKeyDownWithLanguage.from_bytes data).map .KeyDownWithLanguage) ∧
    (data.take 4 = MessageKeyDown.CODE →
      parse_message data = (MessageKeyDown.from_bytes data).map .KeyDown) ∧
    (data.take 4 = MessageKeyRepeat.CODE →
      parse_message data = (MessageKeyRepeat.from_bytes data).map .KeyRepeat) ∧
    (data.take 4 = MessageKeyUp.CODE →
      parse_message data = (MessageKeyUp.from_bytes data).map .KeyUp) ∧
    (data.take 4 = MessageMouseButtonDown.CODE →
      parse_message data = (MessageMouseButtonDown.from_bytes data).map .MouseButtonDown) ∧
    (data.take 4 = MessageMouseButtonUp.CODE →
      parse_message data = (MessageMouseButtonUp.from_bytes data).map .MouseButtonUp) ∧
    (data.take 4 = MessageMouseMove.CODE →
      parse_message data = (MessageMouseMove.from_bytes data).map .MouseMove) ∧
    (data.take 4 = MessageMouseRelativeMove.CODE →
      parse_message data = (MessageMouseRelativeMove.from_bytes data).map .MouseRelativeMove) ∧
    (data.take 4 = MessageMouseWheel.CODE →
      parse_message data = (MessageMouseWheel.from_bytes data).map .MouseWheel) ∧
    (data.take 4 = MessageClipboardData.CODE →
      parse_message data = (MessageClipboardData.from_bytes data).map .ClipboardData) ∧
    (data.take 4 = MessageClientInfo.CODE →
      parse_message data = (MessageClientInfo.from_bytes data).map .ClientInfo) ∧
    (data.take 4 = MessageSetOptions.CODE →
      parse_message data = (MessageSetOptions.from_bytes data).map .SetOptions) ∧
    (data.take 4 = MessageFileTransfer.CODE →
      parse_message data = (MessageFileTransfer.from_bytes data).map .FileTransfer) ∧
    (data.take 4 = MessageDragInfo.CODE →
      parse_message data = (MessageDragInfo.from_bytes data).map .DragInfo) ∧
    (data.take 4 = MessageSecureEncryption.CODE →
      parse_message data = (MessageSecureEncryption.from_bytes data).map .SecureEncryption) ∧
    (data.take 4 = MessageLegacySynergy.CODE →
      parse_message data = (MessageLegacySynergy.from_bytes data).map .LegacySynergy) ∧
    (data.take 4 = MessageQueryInfo.CODE →
      parse_message data = (MessageQueryInfo.from_bytes data).map .QueryInfo) ∧
    (data.take 4 = MessageIncompatibleVersion.CODE →
      parse_message data = (MessageIncompatibleVersion.from_bytes data).map .IncompatibleVersion) ∧
    (data.take 4 = MessageServerBusy.CODE →
      parse_message data = (MessageServerBusy.from_bytes data).map .ServerBusy) ∧
    (data.take 4 = MessageUnknownClient.CODE →
      parse_message data = (MessageUnknownClient.from_bytes data).map .UnknownClient) ∧
    (data.take 4 = MessageProtocolError.CODE →
      parse_message data = (MessageProtocolError.from_bytes data).map .ProtocolErr) ∧
    (7 ≤ data.length → data.take 7 = MessageHelloBarrier.CODE →
      parse_message data = (MessageHelloBarrier.from_bytes data).map .HelloBarrier) ∧
    (7 ≤ data.length → data.take 7 = MessageHelloSynergy.CODE →
      parse_message data = (MessageHelloSynergy.from_bytes data).map .HelloSynergy) ∧
    (validUtf8 (data.take 4) = true →
      data.take 4 ∉ [MessageNoOp.CODE,
        MessageClose.CODE,
        MessageCursorEntered.CODE,
        MessageCursorLeft.CODE,
        MessageClientClipboard.CODE,
        MessageScreenSaverChange.CODE,
        MessageResetOptions.CODE,
        MessageInfoAcknowledgment.CODE,
        MessageKeepAlive.CODE,
        MessageKeyDownWithLanguage.CODE,
        MessageKeyDown.CODE,
        MessageKeyRepeat.CODE,
        MessageKeyUp.CODE,
        MessageMouseButtonDown.CODE,
        MessageMouseButtonUp.CODE,
        MessageMouseMove.CODE,
        MessageMouseRelativeMove.CODE,
        MessageMouseWheel.CODE,
        MessageClipboardData.CODE,
        MessageClientInfo.CODE,
        MessageSetOptions.CODE,
        MessageFileTransfer.CODE,
        MessageDragInfo.CODE,
        MessageSecureEncryption.CODE,
        MessageLegacySynergy.CODE,
        MessageQueryInfo.CODE,
        MessageIncompatibleVersion.CODE,
        MessageServerBusy.CODE,
        MessageUnknownClient.CODE,
        MessageProtocolError.CODE] →
      ¬ (7 ≤ data.length ∧ data.take 7 = MessageHelloBarrier.CODE) →
      ¬ (7 ≤ data.length ∧ data.take 7 = MessageHelloSynergy.CODE) →
      parse_message data = .error (.unknownMessageCode (data.take 4))) := by
  refine ⟨?_, ?_, ?_, ?_, ?_, ?_, ?_, ?_, ?_, ?_, ?_, ?_, ?_, ?_, ?_, ?_, ?_, ?_, ?_, ?_, ?_, ?_, ?_, ?_, ?_, ?_, ?_, ?_, ?_, ?_, ?_, ?_, ?_⟩
  · exact fun hc => parse_dispatch_noOp data h4 hc
  · exact fun hc => parse_dispatch_close data h4 hc
  · exact fun hc => parse_dispatch_cursorEntered data h4 hc
  · exact fun hc => parse_dispatch_cursorLeft data h4 hc
  · exact fun hc => parse_dispatch_clientClipboard data h4 hc
  · exact fun hc => parse_dispatch_screenSaverChange data h4 hc
  · exact fun hc => parse_dispatch_resetOptions data h4 hc
  · exact fun hc => parse_dispatch_infoAcknowledgment data h4 hc
  · exact fun hc => parse_dispatch_keepAlive data h4 hc
  · exact fun hc => parse_dispatch_keyDownWithLanguage data h4 hc
  · exact fun hc => parse_dispatch_keyDown data h4 hc
  · exact fun hc => parse_dispatch_keyRepeat data h4 hc
  · exact fun hc => parse_dispatch_keyUp data h4 hc
  · exact fun hc => parse_dispatch_mouseButtonDown data h4 hc
  · exact fun hc => parse_dispatch_mouseButtonUp data h4 hc
  · exact fun hc => parse_dispatch_mouseMove data h4 hc
  · exact fun hc => parse_dispatch_mouseRelativeMove data h4 hc
  · exact fun hc => parse_dispatch_mouseWheel data h4 hc
  · exact fun hc => parse_dispatch_clipboardData data h4 hc
  · exact fun hc => parse_dispatch_clientInfo data h4 hc
  · exact fun hc => parse_dispatch_setOptions data h4 hc
  · exact fun hc => parse_dispatch_fileTransfer data h4 hc
  · exact fun hc => parse_dispatch_dragInfo data h4 hc
  · exact fun hc => parse_dispatch_secureEncryption data h4 hc
  · exact fun hc => parse_dispatch_legacySynergy data h4 hc
  · exact fun hc => parse_dispatch_queryInfo data h4 hc
  · exact fun hc => parse_dispatch_incompatibleVersion data h4 hc
  · exact fun hc => parse_dispatch_serverBusy data h4 hc
  · exact fun hc => parse_dispatch_unknownClient data h4 hc
  · exact fun hc => parse_dispatch_protocolErr data h4 hc
  · exact fun h7 hc => parse_dispatch_helloBarrier data h7 hc
  · exact fun h7 hc => parse_dispatch_helloSynergy data h7 hc
  · intro hu hnotin hb hs
    simp only [List.mem_cons, List.mem_singleton, not_or] at hnotin
    obtain ⟨hne0, hne1, hne2, hne3, hne4, hne5, hne6, hne7, hne8, hne9, hne10, hne11, hne12, hne13, hne14, hne15, hne16, hne17, hne18, hne19, hne20, hne21, hne22, hne23, hne24, hne25, hne26, hne27, hne28, hne29, _⟩ := hnotin
    exact parse_message_unknown data h4 hu hne0 hne1 hne2 hne3 hne4 hne5 hne6 hne7 hne8 hne9 hne10 hne11 hne12 hne13 hne14 hne15 hne16 hne17 hne18 hne19 hne20 hne21 hne22 hne23 hne24 hne25 hne26 hne27 hne28 hne29 hb hs

/-- C7 counterexample: an 11-byte payload beginning "Barr" but not
"Barrier" — per the claim its first 4 bytes match the first 4 bytes of the
7-character Hello code, so 3 more bytes would be skipped and the version
fields read successfully; the code instead fails with
UnknownMessageCode("Barr"). -/
theorem c7_counterexample :
    [66, 97, 114, 114, 120, 121, 122, 0, 1, 0, 8].take 4 =
      MessageHelloBarrier.CODE.take 4 ∧
    (11 : Nat) = List.length [66, 97, 114, 114, 120, 121, 122, 0, 1, 0, 8] ∧
    parse_message [66, 97, 114, 114, 120, 121, 122, 0, 1, 0, 8] =
      .error (.unknownMessageCode [66, 97, 114, 114]) := by
  exact ⟨by decide, by decide, by decide⟩

/-- C7 witness: dispatch at three concrete payloads: a known 4-byte code
(CALV), a full 7-byte Hello code, and an unknown code "XXXX". -/
theorem c7_dispatch_characterization_witness :
    parse_message [67, 65, 76, 86] =
      (MessageKeepAlive.from_bytes [67, 65, 76, 86]).map .KeepAlive ∧
    parse_message [66, 97, 114, 114, 105, 101, 114, 0, 1, 0, 8] =
      (MessageHelloBarrier.from_bytes
        [66, 97, 114, 114, 105, 101, 114, 0, 1, 0, 8]).map .HelloBarrier ∧
    parse_message [88, 88, 88, 88] = .error (.unknownMessageCode [88, 88, 88, 88]) := by
  refine ⟨?_, ?_, ?_⟩
  · exact (c7_dispatch_characterization [67, 65, 76, 86] (by decide)).2.2.2.2.2.2.2.2.1 (by decide)
  · exact (c7_dispatch_characterization [66, 97, 114, 114, 105, 101, 114, 0, 1, 0, 8]
      (by decide)).2.2.2.2.2.2.2.2.2.2.2.2.2.2.2.2.2.2.2.2.2.2.2.2.2.2.2.2.2.2.1 (by decide) (by decide)
  · exact (c7_dispatch_characterization [88, 88, 88, 88] (by decide)).2.2.2.2.2.2.2.2.2.2.2.2.2.2.2.2.2.2.2.2.2.2.2.2.2.2.2.2.2.2.2.2
      (by decide) (by decide) (by decide) (by decide)

theorem length_take_of_le (p : Bytes) (n : Nat) (h : n ≤ p.length) :
    (p.take n).length = n := by
  rw [List.length_take]
  omega

theorem parse_short (d : Bytes) (h : d.length < 4) :
    parse_message d = .error (.insufficientData 4 d.length) := by
  rw [parse_message, if_pos h]

theorem take4_of_take (p : Bytes) (n : Nat) (c : Bytes) (h4 : 4 ≤ n)
    (hc : p.take 4 = c) : (p.take n).take 4 = c := by
  rw [List.take_take, Nat.min_eq_left h4, hc]

theorem take7_of_take (p : Bytes) (n : Nat) (c : Bytes) (h7 : 7 ≤ n)
    (hc : p.take 7 = c) : (p.take n).take 7 = c := by
  rw [List.take_take, Nat.min_eq_left h7, hc]

theorem u16val_take (d : Bytes) (n off : Nat) (h : off + 2 ≤ n) :
    u16val (d.take n) off = u16val d off := by
  unfold u16val
  rw [byteAt_take _ _ _ (by omega), byteAt_take _ _ _ (by omega)]

theorem u32val_take (d : Bytes) (n off : Nat) (h : off + 4 ≤ n) :
    u32val (d.take n) off = u32val d off := by
  unfold u32val
  rw [byteAt_take _ _ _ (by omega), byteAt_take _ _ _ (by omega),
    byteAt_take _ _ _ (by omega), byteAt_take _ _ _ (by omega)]

theorem is_insufficient_of_error {α : Type} (f : α → Message) (a b : Nat)
    (r : Except ProtocolError α) (h : r = .error (.insufficientData a b)) :
    is_insufficient (r.map f) = true := by
  subst h
  rfl

theorem is_insufficient_parse_short (d : Bytes) (h : d.length < 4) :
    is_insufficient (parse_message d) = true := by
  rw [parse_short d h]
  rfl
theorem trunc_cursorEntered (d : Bytes) (h : d.length < 14) :
    MessageCursorEntered.from_bytes d = .error (.insufficientData 14 d.length) := by
  rw [MessageCursorEntered.from_bytes, if_pos (by simp [MessageCursorEntered.CODE]; omega)]
  simp [MessageCursorEntered.CODE]

theorem trunc_clientClipboard (d : Bytes) (h : d.length < 9) :
    MessageClientClipboard.from_bytes d = .error (.insufficientData 9 d.length) := by
  rw [MessageClientClipboard.from_bytes, if_pos (by simp [MessageClientClipboard.CODE]; omega)]
  simp [MessageClientClipboard.CODE]

theorem trunc_screenSaverChange (d : Bytes) (h : d.length < 5) :
    MessageScreenSaverChange.from_bytes d = .error (.insufficientData 5 d.length) := by
  rw [MessageScreenSaverChange.from_bytes, if_pos (by simp [MessageScreenSaverChange.CODE]; omega)]
  simp [MessageScreenSaverChange.CODE]

theorem trunc_keyDown (d : Bytes) (h : d.length < 10) :
    MessageKeyDown.from_bytes d = .error (.insufficientData 10 d.length) := by
  rw [MessageKeyDown.from_bytes, if_pos (by simp [MessageKeyDown.CODE]; omega)]
  simp [MessageKeyDown.CODE]

theorem trunc_keyUp (d : Bytes) (h : d.length < 10) :
    MessageKeyUp.from_bytes d = .error (.insufficientData 10 d.length) := by
  rw [MessageKeyUp.from_bytes, if_pos (by simp [MessageKeyUp.CODE]; omega)]
  simp [MessageKeyUp.CODE]

theorem trunc_mouseButtonDown (d : Bytes) (h : d.length < 5) :
    MessageMouseButtonDown.from_bytes d = .error (.insufficientData 5 d.length) := by
  rw [MessageMouseButtonDown.from_bytes, if_pos (by simp [MessageMouseButtonDown.CODE]; omega)]
  simp [MessageMouseButtonDown.CODE]

theorem trunc_mouseButtonUp (d : Bytes) (h : d.length < 5) :
    MessageMouseButtonUp.from_bytes d = .error (.insufficientData 5 d.length) := by
  rw [MessageMouseButtonUp.from_bytes, if_pos (by simp [MessageMouseButtonUp.CODE]; omega)]
  simp [MessageMouseButtonUp.CODE]

theorem trunc_mouseMove (d : Bytes) (h : d.length < 8) :
    MessageMouseMove.from_bytes d = .error (.insufficientData 8 d.length) := by
  rw [MessageMouseMove.from_bytes, if_pos (by simp [MessageMouseMove.CODE]; omega)]
  simp [MessageMouseMove.CODE]

theorem trunc_mouseRelativeMove (d : Bytes) (h : d.length < 8) :
    MessageMouseRelativeMove.from_bytes d = .error (.insufficientData 8 d.length) := by
  rw [MessageMouseRelativeMove.from_bytes, if_pos (by simp [MessageMouseRelativeMove.CODE]; omega)]
  simp [MessageMouseRelativeMove.CODE]

theorem trunc_mouseWheel (d : Bytes) (h : d.length < 8) :
    MessageMouseWheel.from_bytes d = .error (.insufficientData 8 d.length) := by
  rw [MessageMouseWheel.from_bytes, if_pos (by simp [MessageMouseWheel.CODE]; omega)]
  simp [MessageMouseWheel.CODE]

theorem trunc_clientInfo (d : Bytes) (h : d.length < 18) :
    MessageClientInfo.from_bytes d = .error (.insufficientData 18 d.length) := by
  rw [MessageClientInfo.from_bytes, if_pos (by simp [MessageClientInfo.CODE]; omega)]
  simp [MessageClientInfo.CODE]

theorem trunc_incompatibleVersion (d : Bytes) (h : d.length < 8) :
    MessageIncompatibleVersion.from_bytes d = .error (.insufficientData 8 d.length) := by
  rw [MessageIncompatibleVersion.from_bytes, if_pos (by simp [MessageIncompatibleVersion.CODE]; omega)]
  simp [MessageIncompatibleVersion.CODE]
theorem trunc_keyDownWithLanguage (m : MessageKeyDownWithLanguage) (hl : m.lang.length < 4294967296) (n : Nat)
    (hn : n < 14 + m.lang.length) :
    is_insufficient ((MessageKeyDownWithLanguage.from_bytes ((MessageKeyDownWithLanguage.to_bytes m).take n)).map
      Message.KeyDownWithLanguage) = true := by
  have hlen : ((MessageKeyDownWithLanguage.to_bytes m).take n).length = n :=
    length_take_of_le _ _ (by simp; omega)
  rw [MessageKeyDownWithLanguage.from_bytes]
  by_cases hg : n < 10
  · rw [if_pos (by rw [hlen]; simp [MessageKeyDownWithLanguage.CODE]; omega)]
    rfl
  · rw [if_neg (by rw [hlen]; simp [MessageKeyDownWithLanguage.CODE]; omega)]
    rw [lps_from_bytes]
    by_cases ho : n < 14
    · rw [if_pos (by rw [hlen]; simp [MessageKeyDownWithLanguage.CODE]; omega)]
      rfl
    · rw [if_neg (by rw [hlen]; simp [MessageKeyDownWithLanguage.CODE]; omega)]
      rw [read_u32, if_neg (by rw [hlen]; simp [MessageKeyDownWithLanguage.CODE]; omega)]
      simp only [ebind_ok]
      have hval : u32val ((MessageKeyDownWithLanguage.to_bytes m).take n) (MessageKeyDownWithLanguage.CODE.length + 6) = m.lang.length := by
        rw [u32val_take _ _ _ (by simp [MessageKeyDownWithLanguage.CODE]; omega)]
        exact u32val_shape _ (MessageKeyDownWithLanguage.CODE ++ u16be m.keyid ++ u16be m.mask ++ u16be m.button) m.lang m.lang.length _
          (by simp [MessageKeyDownWithLanguage.to_bytes, lps_to_bytes]) (by simp [MessageKeyDownWithLanguage.CODE]) hl
      rw [hval]
      rw [if_pos (by rw [hlen]; simp [MessageKeyDownWithLanguage.CODE]; omega)]
      rfl

theorem trunc_keyRepeat (m : MessageKeyRepeat) (hl : m.lang.length < 4294967296) (n : Nat)
    (hn : n < 16 + m.lang.length) :
    is_insufficient ((MessageKeyRepeat.from_bytes ((MessageKeyRepeat.to_bytes m).take n)).map
      Message.KeyRepeat) = true := by
  have hlen : ((MessageKeyRepeat.to_bytes m).take n).length = n :=
    length_take_of_le _ _ (by simp; omega)
  rw [MessageKeyRepeat.from_bytes]
  by_cases hg : n < 12
  · rw [if_pos (by rw [hlen]; simp [MessageKeyRepeat.CODE]; omega)]
    rfl
  · rw [if_neg (by rw [hlen]; simp [MessageKeyRepeat.CODE]; omega)]
    rw [lps_from_bytes]
    by_cases ho : n < 16
    · rw [if_pos (by rw [hlen]; simp [MessageKeyRepeat.CODE]; omega)]
      rfl
    · rw [if_neg (by rw [hlen]; simp [MessageKeyRepeat.CODE]; omega)]
      rw [read_u32, if_neg (by rw [hlen]; simp [MessageKeyRepeat.CODE]; omega)]
      simp only [ebind_ok]
      have hval : u32val ((MessageKeyRepeat.to_bytes m).take n) (MessageKeyRepeat.CODE.length + 8) = m.lang.length := by
        rw [u32val_take _ _ _ (by simp [MessageKeyRepeat.CODE]; omega)]
        exact u32val_shape _ (MessageKeyRepeat.CODE ++ u16be m.keyid ++ u16be m.mask ++ u16be m.button ++ u16be m.count) m.lang m.lang.length _
          (by simp [MessageKeyRepeat.to_bytes, lps_to_bytes]) (by simp [MessageKeyRepeat.CODE]) hl
      rw [hval]
      rw [if_pos (by rw [hlen]; simp [MessageKeyRepeat.CODE]; omega)]
      rfl

theorem trunc_clipboardData (m : MessageClipboardData) (hl : m.data.length < 4294967296) (n : Nat)
    (hn : n < 14 + m.data.length) :
    is_insufficient ((MessageClipboardData.from_bytes ((MessageClipboardData.to_bytes m).take n)).map
      Message.ClipboardData) = true := by
  have hlen : ((MessageClipboardData.to_bytes m).take n).length = n :=
    length_take_of_le _ _ (by simp; omega)
  rw [MessageClipboardData.from_bytes]
  by_cases hg : n < 10
  · rw [if_pos (by rw [hlen]; simp [MessageClipboardData.CODE]; omega)]
    rfl
  · rw [if_neg (by rw [hlen]; simp [MessageClipboardData.CODE]; omega)]
    rw [lps_from_bytes]
    by_cases ho : n < 14
    · rw [if_pos (by rw [hlen]; simp [MessageClipboardData.CODE]; omega)]
      rfl
    · rw [if_neg (by rw [hlen]; simp [MessageClipboardData.CODE]; omega)]
      rw [read_u32, if_neg (by rw [hlen]; simp [MessageClipboardData.CODE]; omega)]
      simp only [ebind_ok]
      have hval : u32val ((MessageClipboardData.to_bytes m).take n) (MessageClipboardData.CODE.length + 6) = m.data.length := by
        rw [u32val_take _ _ _ (by simp [MessageClipboardData.CODE]; omega)]
        exact u32val_shape _ (MessageClipboardData.CODE ++ [m.id % 256] ++ u32be m.sequence ++ [m.mark % 256]) m.data m.data.length _
          (by simp [MessageClipboardData.to_bytes, lps_to_bytes]) (by simp [MessageClipboardData.CODE]) hl
      rw [hval]
      rw [if_pos (by rw [hlen]; simp [MessageClipboardData.CODE]; omega)]
      rfl

theorem trunc_fileTransfer (m : MessageFileTransfer) (hl : m.data.length < 4294967296) (n : Nat)
    (hn : n < 9 + m.data.length) :
    is_insufficient ((MessageFileTransfer.from_bytes ((MessageFileTransfer.to_bytes m).take n)).map
      Message.FileTransfer) = true := by
  have hlen : ((MessageFileTransfer.to_bytes m).take n).length = n :=
    length_take_of_le _ _ (by simp; omega)
  rw [MessageFileTransfer.from_bytes]
  by_cases hg : n < 5
  · rw [if_pos (by rw [hlen]; simp [MessageFileTransfer.CODE]; omega)]
    rfl
  · rw [if_neg (by rw [hlen]; simp [MessageFileTransfer.CODE]; omega)]
    rw [lps_from_bytes]
    by_cases ho : n < 9
    · rw [if_pos (by rw [hlen]; simp [MessageFileTransfer.CODE]; omega)]
      rfl
    · rw [if_neg (by rw [hlen]; simp [MessageFileTransfer.CODE]; omega)]
      rw [read_u32, if_neg (by rw [hlen]; simp [MessageFileTransfer.CODE]; omega)]
      simp only [ebind_ok]
      have hval : u32val ((MessageFileTransfer.to_bytes m).take n) (MessageFileTransfer.CODE.length + 1) = m.data.length := by
        rw [u32val_take _ _ _ (by simp [MessageFileTransfer.CODE]; omega)]
        exact u32val_shape _ (MessageFileTransfer.CODE ++ [m.mark % 256]) m.data m.data.length _
          (by simp [MessageFileTransfer.to_bytes, lps_to_bytes]) (by simp [MessageFileTransfer.CODE]) hl
      rw [hval]
      rw [if_pos (by rw [hlen]; simp [MessageFileTransfer.CODE]; omega)]
      rfl

theorem trunc_dragInfo (m : MessageDragInfo) (hl : m.data.length < 4294967296) (n : Nat)
    (hn : n < 10 + m.data.length) :
    is_insufficient ((MessageDragInfo.from_bytes ((MessageDragInfo.to_bytes m).take n)).map
      Message.DragInfo) = true := by
  have hlen : ((MessageDragInfo.to_bytes m).take n).length = n :=
    length_take_of_le _ _ (by simp; omega)
  rw [MessageDragInfo.from_bytes]
  by_cases hg : n < 6
  · rw [if_pos (by rw [hlen]; simp [MessageDragInfo.CODE]; omega)]
    rfl
  · rw [if_neg (by rw [hlen]; simp [MessageDragInfo.CODE]; omega)]
    rw [lps_from_bytes]
    by_cases ho : n < 10
    · rw [if_pos (by rw [hlen]; simp [MessageDragInfo.CODE]; omega)]
      rfl
    · rw [if_neg (by rw [hlen]; simp [MessageDragInfo.CODE]; omega)]
      rw [read_u32, if_neg (by rw [hlen]; simp [MessageDragInfo.CODE]; omega)]
      simp only [ebind_ok]
      have hval : u32val ((MessageDragInfo.to_bytes m).take n) (MessageDragInfo.CODE.length + 2) = m.data.length := by
        rw [u32val_take _ _ _ (by simp [MessageDragInfo.CODE]; omega)]
        exact u32val_shape _ (MessageDragInfo.CODE ++ u16be m.size) m.data m.data.length _
          (by simp [MessageDragInfo.to_bytes, lps_to_bytes]) (by simp [MessageDragInfo.CODE]) hl
      rw [hval]
      rw [if_pos (by rw [hlen]; simp [MessageDragInfo.CODE]; omega)]
      rfl

theorem trunc_secureEncryption (m : MessageSecureEncryption) (hl : m.data.length < 4294967296) (n : Nat)
    (hn : n < 8 + m.data.length) :
    is_insufficient ((MessageSecureEncryption.from_bytes ((MessageSecureEncryption.to_bytes m).take n)).map
      Message.SecureEncryption) = true := by
  have hlen : ((MessageSecureEncryption.to_bytes m).take n).length = n :=
    length_take_of_le _ _ (by simp; omega)
  rw [MessageSecureEncryption.from_bytes]
  rw [lps_from_bytes]
  by_cases ho : n < 8
  · rw [if_pos (by rw [hlen]; simp [MessageSecureEncryption.CODE]; omega)]
    rfl
  · rw [if_neg (by rw [hlen]; simp [MessageSecureEncryption.CODE]; omega)]
    rw [read_u32, if_neg (by rw [hlen]; simp [MessageSecureEncryption.CODE]; omega)]
    simp only [ebind_ok]
    have hval : u32val ((MessageSecureEncryption.to_bytes m).take n) (MessageSecureEncryption.CODE.length) = m.data.length := by
      rw [u32val_take _ _ _ (by simp [MessageSecureEncryption.CODE]; omega)]
      exact u32val_shape _ (MessageSecureEncryption.CODE) m.data m.data.length _
        (by simp [MessageSecureEncryption.to_bytes, lps_to_bytes]) (by simp [MessageSecureEncryption.CODE]) hl
    rw [hval]
    rw [if_pos (by rw [hlen]; simp [MessageSecureEncryption.CODE]; omega)]
    rfl

theorem trunc_legacySynergy (m : MessageLegacySynergy) (hl : m.data.length < 4294967296) (n : Nat)
    (hn : n < 8 + m.data.length) :
    is_insufficient ((MessageLegacySynergy.from_bytes ((MessageLegacySynergy.to_bytes m).take n)).map
      Message.LegacySynergy) = true := by
  have hlen : ((MessageLegacySynergy.to_bytes m).take n).length = n :=
    length_take_of_le _ _ (by simp; omega)
  rw [MessageLegacySynergy.from_bytes]
  rw [lps_from_bytes]
  by_cases ho : n < 8
  · rw [if_pos (by rw [hlen]; simp [MessageLegacySynergy.CODE]; omega)]
    rfl
  · rw [if_neg (by rw [hlen]; simp [MessageLegacySynergy.CODE]; omega)]
    rw [read_u32, if_neg (by rw [hlen]; simp [MessageLegacySynergy.CODE]; omega)]
    simp only [ebind_ok]
    have hval : u32val ((MessageLegacySynergy.to_bytes m).take n) (MessageLegacySynergy.CODE.length) = m.data.length := by
      rw [u32val_take _ _ _ (by simp [MessageLegacySynergy.CODE]; omega)]
      exact u32val_shape _ (MessageLegacySynergy.CODE) m.data m.data.length _
        (by simp [MessageLegacySynergy.to_bytes, lps_to_bytes]) (by simp [MessageLegacySynergy.CODE]) hl
    rw [hval]
    rw [if_pos (by rw [hlen]; simp [MessageLegacySynergy.CODE]; omega)]
    rfl

theorem trunc_setOptions (m : MessageSetOptions)
    (hcount : 1 + m.options.length * 2 < 4294967296) (n : Nat)
    (hn : n < 8 + 8 * m.options.length) :
    is_insufficient ((MessageSetOptions.from_bytes
      ((MessageSetOptions.to_bytes m).take n)).map Message.SetOptions) = true := by
  have hlen : ((MessageSetOptions.to_bytes m).take n).length = n :=
    length_take_of_le _ _ (by simp; omega)
  rw [MessageSetOptions.from_bytes]
  by_cases h8 : n < 8
  · rw [if_pos (by rw [hlen]; simp [MessageSetOptions.CODE]; omega)]
    rfl
  · rw [if_neg (by rw [hlen]; simp [MessageSetOptions.CODE]; omega)]
    rw [read_u32, if_neg (by rw [hlen]; simp [MessageSetOptions.CODE]; omega)]
    simp only [ebind_ok]
    have hval : u32val ((MessageSetOptions.to_bytes m).take n)
        (MessageSetOptions.CODE.length) = 1 + m.options.length * 2 := by
      rw [u32val_take _ _ _ (by simp [MessageSetOptions.CODE]; omega)]
      exact u32val_shape _ MessageSetOptions.CODE (pairs_to_bytes m.options) _ _
        (by simp [MessageSetOptions.to_bytes]) rfl hcount
    rw [hval]
    rw [if_neg (by omega)]
    rw [if_neg (by simp; try omega)]
    rw [show (1 + m.options.length * 2 - 1) / 2 = m.options.length by omega]
    rw [if_pos (by rw [hlen]; simp [MessageSetOptions.CODE]; omega)]
    rfl
theorem trunc_helloBarrier_unknown (m : MessageHelloBarrier) (n : Nat) (h4 : 4 ≤ n) (h7 : n < 7) :
    parse_message ((MessageHelloBarrier.to_bytes m).take n) =
      .error (.unknownMessageCode ([66, 97, 114, 114])) := by
  have hlen : ((MessageHelloBarrier.to_bytes m).take n).length = n := by
    obtain ⟨major, minor, cn⟩ := m
    cases cn with
    | none =>
      refine length_take_of_le _ _ ?_
      rw [to_bytes_length_helloBarrier_unnamed _ rfl]
      omega
    | some nm =>
      refine length_take_of_le _ _ ?_
      rw [to_bytes_length_helloBarrier_named _ nm rfl]
      omega
  have hc4 : ((MessageHelloBarrier.to_bytes m).take n).take 4 = ([66, 97, 114, 114]) := by
    refine take4_of_take _ _ _ h4 ?_
    have hsh : ∃ r, MessageHelloBarrier.to_bytes m = MessageHelloBarrier.CODE ++ r := by
      obtain ⟨major, minor, cn⟩ := m
      cases cn with
      | none => exact ⟨u16be major ++ u16be minor, by simp [MessageHelloBarrier.to_bytes]⟩
      | some nm =>
        exact ⟨u16be major ++ u16be minor ++ (u32be nm.length ++ nm),
          by simp [MessageHelloBarrier.to_bytes]⟩
    obtain ⟨r, hr⟩ := hsh
    rw [hr]
    rw [List.take_append_of_le_length (by simp [MessageHelloBarrier.CODE])]
    rfl
  rw [← hc4]
  refine parse_message_unknown _ (by omega) ?_
    (by rw [hc4]; decide) (by rw [hc4]; decide) (by rw [hc4]; decide) (by rw [hc4]; decide) (by rw [hc4]; decide) (by rw [hc4]; decide) (by rw [hc4]; decide) (by rw [hc4]; decide) (by rw [hc4]; decide) (by rw [hc4]; decide) (by rw [hc4]; decide) (by rw [hc4]; decide) (by rw [hc4]; decide) (by rw [hc4]; decide) (by rw [hc4]; decide) (by rw [hc4]; decide) (by rw [hc4]; decide) (by rw [hc4]; decide) (by rw [hc4]; decide) (by rw [hc4]; decide) (by rw [hc4]; decide) (by rw [hc4]; decide) (by rw [hc4]; decide) (by rw [hc4]; decide) (by rw [hc4]; decide) (by rw [hc4]; decide) (by rw [hc4]; decide) (by rw [hc4]; decide) (by rw [hc4]; decide) (by rw [hc4]; decide)
    ?_ ?_
  · rw [hc4]
    decide
  · intro ⟨ha, _⟩
    rw [hlen] at ha
    omega
  · intro ⟨ha, _⟩
    rw [hlen] at ha
    omega

theorem trunc_helloSynergy_unknown (m : MessageHelloSynergy) (n : Nat) (h4 : 4 ≤ n) (h7 : n < 7) :
    parse_message ((MessageHelloSynergy.to_bytes m).take n) =
      .error (.unknownMessageCode ([83, 121, 110, 101])) := by
  have hlen : ((MessageHelloSynergy.to_bytes m).take n).length = n := by
    obtain ⟨major, minor, cn⟩ := m
    cases cn with
    | none =>
      refine length_take_of_le _ _ ?_
      rw [to_bytes_length_helloSynergy_unnamed _ rfl]
      omega
    | some nm =>
      refine length_take_of_le _ _ ?_
      rw [to_bytes_length_helloSynergy_named _ nm rfl]
      omega
  have hc4 : ((MessageHelloSynergy.to_bytes m).take n).take 4 = ([83, 121, 110, 101]) := by
    refine take4_of_take _ _ _ h4 ?_
    have hsh : ∃ r, MessageHelloSynergy.to_bytes m = MessageHelloSynergy.CODE ++ r := by
      obtain ⟨major, minor, cn⟩ := m
      cases cn with
      | none => exact ⟨u16be major ++ u16be minor, by simp [MessageHelloSynergy.to_bytes]⟩
      | some nm =>
        exact ⟨u16be major ++ u16be minor ++ (u32be nm.length ++ nm),
          by simp [MessageHelloSynergy.to_bytes]⟩
    obtain ⟨r, hr⟩ := hsh
    rw [hr]
    rw [List.take_append_of_le_length (by simp [MessageHelloSynergy.CODE])]
    rfl
  rw [← hc4]
  refine parse_message_unknown _ (by omega) ?_
    (by rw [hc4]; decide) (by rw [hc4]; decide) (by rw [hc4]; decide) (by rw [hc4]; decide) (by rw [hc4]; decide) (by rw [hc4]; decide) (by rw [hc4]; decide) (by rw [hc4]; decide) (by rw [hc4]; decide) (by rw [hc4]; decide) (by rw [hc4]; decide) (by rw [hc4]; decide) (by rw [hc4]; decide) (by rw [hc4]; decide) (by rw [hc4]; decide) (by rw [hc4]; decide) (by rw [hc4]; decide) (by rw [hc4]; decide) (by rw [hc4]; decide) (by rw [hc4]; decide) (by rw [hc4]; decide) (by rw [hc4]; decide) (by rw [hc4]; decide) (by rw [hc4]; decide) (by rw [hc4]; decide) (by rw [hc4]; decide) (by rw [hc4]; decide) (by rw [hc4]; decide) (by rw [hc4]; decide) (by rw [hc4]; decide)
    ?_ ?_
  · rw [hc4]
    decide
  · intro ⟨ha, _⟩
    rw [hlen] at ha
    omega
  · intro ⟨ha, _⟩
    rw [hlen] at ha
    omega
theorem trunc_helloBarrier_insufficient (m : MessageHelloBarrier)
    (hlb : ∀ nm, m.client_name = some nm → nm.length < 4294967296)
    (n : Nat) (hn : n < (MessageHelloBarrier.to_bytes m).length) (h7 : 7 ≤ n)
    (hne11 : n ≠ 11) :
    is_insufficient (parse_message ((MessageHelloBarrier.to_bytes m).take n)) = true := by
  have hlen : ((MessageHelloBarrier.to_bytes m).take n).length = n :=
    length_take_of_le _ _ (by omega)
  obtain ⟨major, minor, cn⟩ := m
  cases cn with
  | none =>
    rw [to_bytes_length_helloBarrier_unnamed _ rfl] at hn
    rw [parse_dispatch_helloBarrier _ (by omega)
      (take7_of_take _ _ _ h7 (take7_of_shape _ MessageHelloBarrier.CODE (u16be major ++ u16be minor)
        (by simp [MessageHelloBarrier.to_bytes]) rfl))]
    rw [MessageHelloBarrier.from_bytes, if_pos (by rw [hlen]; simp [MessageHelloBarrier.CODE]; try omega)]
    rfl
  | some nm =>
    have hnml := hlb nm rfl
    rw [to_bytes_length_helloBarrier_named _ nm rfl] at hn
    rw [parse_dispatch_helloBarrier _ (by omega)
      (take7_of_take _ _ _ h7 (take7_of_shape _ MessageHelloBarrier.CODE
        (u16be major ++ u16be minor ++ (u32be nm.length ++ nm))
        (by simp [MessageHelloBarrier.to_bytes]) rfl))]
    rw [MessageHelloBarrier.from_bytes]
    by_cases h11 : n < 11
    · rw [if_pos (by rw [hlen]; simp [MessageHelloBarrier.CODE]; try omega)]
      rfl
    · rw [if_neg (by rw [hlen]; simp [MessageHelloBarrier.CODE]; try omega)]
      rw [read_u16, if_neg (by rw [hlen]; simp [MessageHelloBarrier.CODE]; try omega)]
      simp only [ebind_ok]
      rw [read_u16, if_neg (by rw [hlen]; simp [MessageHelloBarrier.CODE]; try omega)]
      simp only [ebind_ok]
      rw [if_pos (by rw [hlen]; simp [MessageHelloBarrier.CODE]; try omega)]
      by_cases h15 : n < 15
      · rw [if_pos (by rw [hlen]; simp [MessageHelloBarrier.CODE]; try omega)]
        rfl
      · rw [if_neg (by rw [hlen]; simp [MessageHelloBarrier.CODE]; try omega)]
        rw [read_u32, if_neg (by rw [hlen]; simp [MessageHelloBarrier.CODE]; try omega)]
        simp only [ebind_ok]
        have hval : u32val ((MessageHelloBarrier.to_bytes
            { major := major, minor := minor, client_name := some nm }).take n)
            (MessageHelloBarrier.CODE.length + 4) = nm.length := by
          rw [u32val_take _ _ _ (by simp [MessageHelloBarrier.CODE]; omega)]
          exact u32val_shape _ (MessageHelloBarrier.CODE ++ u16be major ++ u16be minor) nm nm.length _
            (by simp [MessageHelloBarrier.to_bytes]) (by simp [MessageHelloBarrier.CODE]) hnml
        rw [hval]
        rw [if_pos (by rw [hlen]; simp [MessageHelloBarrier.CODE]; try omega)]
        rfl

theorem trunc_helloBarrier_eleven (m : MessageHelloBarrier)
    (hmaj : m.major < 65536) (hmin : m.minor < 65536) (nm : Bytes)
    (hname : m.client_name = some nm) :
    parse_message ((MessageHelloBarrier.to_bytes m).take 11) =
      .ok (.HelloBarrier { major := m.major, minor := m.minor, client_name := none }) := by
  obtain ⟨major, minor, cn⟩ := m
  cases hname
  have hlen : ((MessageHelloBarrier.to_bytes
      { major := major, minor := minor, client_name := some nm }).take 11).length = 11 := by
    refine length_take_of_le _ _ ?_
    rw [to_bytes_length_helloBarrier_named _ nm rfl]
    omega
  rw [parse_dispatch_helloBarrier _ (by omega)
    (take7_of_take _ _ _ (by omega) (take7_of_shape _ MessageHelloBarrier.CODE
      (u16be major ++ u16be minor ++ (u32be nm.length ++ nm))
      (by simp [MessageHelloBarrier.to_bytes]) rfl))]
  rw [MessageHelloBarrier.from_bytes, if_neg (by rw [hlen]; simp [MessageHelloBarrier.CODE]; try omega)]
  rw [read_u16, if_neg (by rw [hlen]; simp [MessageHelloBarrier.CODE]; try omega)]
  have hv1 : u16val ((MessageHelloBarrier.to_bytes
      { major := major, minor := minor, client_name := some nm }).take 11)
      (MessageHelloBarrier.CODE.length) = major := by
    rw [u16val_take _ _ _ (by simp [MessageHelloBarrier.CODE]; try omega)]
    exact u16val_shape _ MessageHelloBarrier.CODE (u16be minor ++ (u32be nm.length ++ nm)) major _
      (by simp [MessageHelloBarrier.to_bytes]) rfl hmaj
  rw [hv1]
  simp only [ebind_ok]
  rw [read_u16, if_neg (by rw [hlen]; simp [MessageHelloBarrier.CODE]; try omega)]
  have hv2 : u16val ((MessageHelloBarrier.to_bytes
      { major := major, minor := minor, client_name := some nm }).take 11)
      (MessageHelloBarrier.CODE.length + 2) = minor := by
    rw [u16val_take _ _ _ (by simp [MessageHelloBarrier.CODE]; try omega)]
    exact u16val_shape _ (MessageHelloBarrier.CODE ++ u16be major) (u32be nm.length ++ nm) minor _
      (by simp [MessageHelloBarrier.to_bytes]) (by simp [MessageHelloBarrier.CODE]) hmin
  rw [hv2]
  simp only [ebind_ok]
  rw [if_neg (by rw [hlen]; simp [MessageHelloBarrier.CODE]; try omega)]
  rfl

theorem trunc_helloSynergy_insufficient (m : MessageHelloSynergy)
    (hlb : ∀ nm, m.client_name = some nm → nm.length < 4294967296)
    (n : Nat) (hn : n < (MessageHelloSynergy.to_bytes m).length) (h7 : 7 ≤ n)
    (hne11 : n ≠ 11) :
    is_insufficient (parse_message ((MessageHelloSynergy.to_bytes m).take n)) = true := by
  have hlen : ((MessageHelloSynergy.to_bytes m).take n).length = n :=
    length_take_of_le _ _ (by omega)
  obtain ⟨major, minor, cn⟩ := m
  cases cn with
  | none =>
    rw [to_bytes_length_helloSynergy_unnamed _ rfl] at hn
    rw [parse_dispatch_helloSynergy _ (by omega)
      (take7_of_take _ _ _ h7 (take7_of_shape _ MessageHelloSynergy.CODE (u16be major ++ u16be minor)
        (by simp [MessageHelloSynergy.to_bytes]) rfl))]
    rw [MessageHelloSynergy.from_bytes, if_pos (by rw [hlen]; simp [MessageHelloSynergy.CODE]; try omega)]
    rfl
  | some nm =>
    have hnml := hlb nm rfl
    rw [to_bytes_length_helloSynergy_named _ nm rfl] at hn
    rw [parse_dispatch_helloSynergy _ (by omega)
      (take7_of_take _ _ _ h7 (take7_of_shape _ MessageHelloSynergy.CODE
        (u16be major ++ u16be minor ++ (u32be nm.length ++ nm))
        (by simp [MessageHelloSynergy.to_bytes]) rfl))]
    rw [MessageHelloSynergy.from_bytes]
    by_cases h11 : n < 11
    · rw [if_pos (by rw [hlen]; simp [MessageHelloSynergy.CODE]; try omega)]
      rfl
    · rw [if_neg (by rw [hlen]; simp [MessageHelloSynergy.CODE]; try omega)]
      rw [read_u16, if_neg (by rw [hlen]; simp [MessageHelloSynergy.CODE]; try omega)]
      simp only [ebind_ok]
      rw [read_u16, if_neg (by rw [hlen]; simp [MessageHelloSynergy.CODE]; try omega)]
      simp only [ebind_ok]
      rw [if_pos (by rw [hlen]; simp [MessageHelloSynergy.CODE]; try omega)]
      by_cases h15 : n < 15
      · rw [if_pos (by rw [hlen]; simp [MessageHelloSynergy.CODE]; try omega)]
        rfl
      · rw [if_neg (by rw [hlen]; simp [MessageHelloSynergy.CODE]; try omega)]
        rw [read_u32, if_neg (by rw [hlen]; simp [MessageHelloSynergy.CODE]; try omega)]
        simp only [ebind_ok]
        have hval : u32val ((MessageHelloSynergy.to_bytes
            { major := major, minor := minor, client_name := some nm }).take n)
            (MessageHelloSynergy.CODE.length + 4) = nm.length := by
          rw [u32val_take _ _ _ (by simp [MessageHelloSynergy.CODE]; omega)]
          exact u32val_shape _ (MessageHelloSynergy.CODE ++ u16be major ++ u16be minor) nm nm.length _
            (by simp [MessageHelloSynergy.to_bytes]) (by simp [MessageHelloSynergy.CODE]) hnml
        rw [hval]
        rw [if_pos (by rw [hlen]; simp [MessageHelloSynergy.CODE]; try omega)]
        rfl

theorem trunc_helloSynergy_eleven (m : MessageHelloSynergy)
    (hmaj : m.major < 65536) (hmin : m.minor < 65536) (nm : Bytes)
    (hname : m.client_name = some nm) :
    parse_message ((MessageHelloSynergy.to_bytes m).take 11) =
      .ok (.HelloSynergy { major := m.major, minor := m.minor, client_name := none }) := by
  obtain ⟨major, minor, cn⟩ := m
  cases hname
  have hlen : ((MessageHelloSynergy.to_bytes
      { major := major, minor := minor, client_name := some nm }).take 11).length = 11 := by
    refine length_take_of_le _ _ ?_
    rw [to_bytes_length_helloSynergy_named _ nm rfl]
    omega
  rw [parse_dispatch_helloSynergy _ (by omega)
    (take7_of_take _ _ _ (by omega) (take7_of_shape _ MessageHelloSynergy.CODE
      (u16be major ++ u16be minor ++ (u32be nm.length ++ nm))
      (by simp [MessageHelloSynergy.to_bytes]) rfl))]
  rw [MessageHelloSynergy.from_bytes, if_neg (by rw [hlen]; simp [MessageHelloSynergy.CODE]; try omega)]
  rw [read_u16, if_neg (by rw [hlen]; simp [MessageHelloSynergy.CODE]; try omega)]
  have hv1 : u16val ((MessageHelloSynergy.to_bytes
      { major := major, minor := minor, client_name := some nm }).take 11)
      (MessageHelloSynergy.CODE.length) = major := by
    rw [u16val_take _ _ _ (by simp [MessageHelloSynergy.CODE]; try omega)]
    exact u16val_shape _ MessageHelloSynergy.CODE (u16be minor ++ (u32be nm.length ++ nm)) major _
      (by simp [MessageHelloSynergy.to_bytes]) rfl hmaj
  rw [hv1]
  simp only [ebind_ok]
  rw [read_u16, if_neg (by rw [hlen]; simp [MessageHelloSynergy.CODE]; try omega)]
  have hv2 : u16val ((MessageHelloSynergy.to_bytes
      { major := major, minor := minor, client_name := some nm }).take 11)
      (MessageHelloSynergy.CODE.length + 2) = minor := by
    rw [u16val_take _ _ _ (by simp [MessageHelloSynergy.CODE]; try omega)]
    exact u16val_shape _ (MessageHelloSynergy.CODE ++ u16be major) (u32be nm.length ++ nm) minor _
      (by simp [MessageHelloSynergy.to_bytes]) (by simp [MessageHelloSynergy.CODE]) hmin
  rw [hv2]
  simp only [ebind_ok]
  rw [if_neg (by rw [hlen]; simp [MessageHelloSynergy.CODE]; try omega)]
  rfl

/-- C2 (amended): truncation safety. For every well-formed message and every
strict prefix of its encoded payload: for every non-Hello variant the
truncated parse yields InsufficientData; for the Hello variants, prefixes of
length 4, 5 or 6 yield UnknownMessageCode (the 4-byte prefix of the 7-byte
code is not a known code), the 11-byte prefix of a name-carrying Hello
parses successfully as the same Hello without a name (it is a complete
encoding in its own right), and every other strict prefix yields
InsufficientData. The original claim (always InsufficientData) is refuted by
the counterexample. -/
theorem c2_truncation_safety (m : Message) (hwf : wf_msg m = true) (n : Nat)
    (hn : n < m.payload_bytes.length) :
    (m.is_hello = false →
      is_insufficient (parse_message (m.payload_bytes.take n)) = true) ∧
    (m.is_hello = true →
      ((n < 4 ∨ (7 ≤ n ∧ n ≠ 11)) →
        is_insufficient (parse_message (m.payload_bytes.take n)) = true) ∧
      (4 ≤ n → n < 7 →
        parse_message (m.payload_bytes.take n) =
          .error (.unknownMessageCode (m.payload_bytes.take 4))) ∧
      (n = 11 → parse_message (m.payload_bytes.take n) = .ok m.drop_hello_name)) := by
  have hwf2 := hwf
  have hplen : m.payload_bytes.length < 4294967296 := by
    simp only [wf_msg, Bool.and_eq_true, decide_eq_true_eq] at hwf2
    exact hwf2.2
  cases m with

  | NoOp mm =>
    refine ⟨?_, ?_⟩
    · intro _
      exact is_insufficient_parse_short _ (by
        rw [List.length_take]
        simp only [Message.payload_bytes] at hn
        simp at hn
        omega)
    · intro habs
      simp [Message.is_hello] at habs
  | Close mm =>
    refine ⟨?_, ?_⟩
    · intro _
      exact is_insufficient_parse_short _ (by
        rw [List.length_take]
        simp only [Message.payload_bytes] at hn
        simp at hn
        omega)
    · intro habs
      simp [Message.is_hello] at habs
  | CursorLeft mm =>
    refine ⟨?_, ?_⟩
    · intro _
      exact is_insufficient_parse_short _ (by
        rw [List.length_take]
        simp only [Message.payload_bytes] at hn
        simp at hn
        omega)
    · intro habs
      simp [Message.is_hello] at habs
  | ResetOptions mm =>
    refine ⟨?_, ?_⟩
    · intro _
      exact is_insufficient_parse_short _ (by
        rw [List.length_take]
        simp only [Message.payload_bytes] at hn
        simp at hn
        omega)
    · intro habs
      simp [Message.is_hello] at habs
  | InfoAcknowledgment mm =>
    refine ⟨?_, ?_⟩
    · intro _
      exact is_insufficient_parse_short _ (by
        rw [List.length_take]
        simp only [Message.payload_bytes] at hn
        simp at hn
        omega)
    · intro habs
      simp [Message.is_hello] at habs
  | KeepAlive mm =>
    refine ⟨?_, ?_⟩
    · intro _
      exact is_insufficient_parse_short _ (by
        rw [List.length_take]
        simp only [Message.payload_bytes] at hn
        simp at hn
        omega)
    · intro habs
      simp [Message.is_hello] at habs
  | QueryInfo mm =>
    refine ⟨?_, ?_⟩
    · intro _
      exact is_insufficient_parse_short _ (by
        rw [List.length_take]
        simp only [Message.payload_bytes] at hn
        simp at hn
        omega)
    · intro habs
      simp [Message.is_hello] at habs
  | ServerBusy mm =>
    refine ⟨?_, ?_⟩
    · intro _
      exact is_insufficient_parse_short _ (by
        rw [List.length_take]
        simp only [Message.payload_bytes] at hn
        simp at hn
        omega)
    · intro habs
      simp [Message.is_hello] at habs
  | UnknownClient mm =>
    refine ⟨?_, ?_⟩
    · intro _
      exact is_insufficient_parse_short _ (by
        rw [List.length_take]
        simp only [Message.payload_bytes] at hn
        simp at hn
        omega)
    · intro habs
      simp [Message.is_hello] at habs
  | ProtocolErr mm =>
    refine ⟨?_, ?_⟩
    · intro _
      exact is_insufficient_parse_short _ (by
        rw [List.length_take]
        simp only [Message.payload_bytes] at hn
        simp at hn
        omega)
    · intro habs
      simp [Message.is_hello] at habs
  | CursorEntered mm =>
    refine ⟨?_, ?_⟩
    · intro _
      simp only [Message.payload_bytes] at hn ⊢
      by_cases h4 : n < 4
      · exact is_insufficient_parse_short _ (by rw [List.length_take]; omega)
      · have hnlen : n < (MessageCursorEntered.to_bytes mm).length := hn
        rw [parse_dispatch_cursorEntered _
          (by rw [length_take_of_le _ _ (by omega)]; omega)
          (take4_of_take _ _ _ (by omega)
            (take4_of_shape _ MessageCursorEntered.CODE (i16be mm.x ++ i16be mm.y ++ u32be mm.sequence ++ u16be mm.mask) (by simp [MessageCursorEntered.to_bytes]) rfl))]
        refine is_insufficient_of_error _ _ _ _ (trunc_cursorEntered _ ?_)
        rw [length_take_of_le _ _ (by omega)]
        simp at hnlen
        omega
    · intro habs
      simp [Message.is_hello] at habs
  | ClientClipboard mm =>
    refine ⟨?_, ?_⟩
    · intro _
      simp only [Message.payload_bytes] at hn ⊢
      by_cases h4 : n < 4
      · exact is_insufficient_parse_short _ (by rw [List.length_take]; omega)
      · have hnlen : n < (MessageClientClipboard.to_bytes mm).length := hn
        rw [parse_dispatch_clientClipboard _
          (by rw [length_take_of_le _ _ (by omega)]; omega)
          (take4_of_take _ _ _ (by omega)
            (take4_of_shape _ MessageClientClipboard.CODE ([mm.id % 256] ++ u32be mm.sequence) (by simp [MessageClientClipboard.to_bytes]) rfl))]
        refine is_insufficient_of_error _ _ _ _ (trunc_clientClipboard _ ?_)
        rw [length_take_of_le _ _ (by omega)]
        simp at hnlen
        omega
    · intro habs
      simp [Message.is_hello] at habs
  | ScreenSaverChange mm =>
    refine ⟨?_, ?_⟩
    · intro _
      simp only [Message.payload_bytes] at hn ⊢
      by_cases h4 : n < 4
      · exact is_insufficient_parse_short _ (by rw [List.length_take]; omega)
      · have hnlen : n < (MessageScreenSaverChange.to_bytes mm).length := hn
        rw [parse_dispatch_screenSaverChange _
          (by rw [length_take_of_le _ _ (by omega)]; omega)
          (take4_of_take _ _ _ (by omega)
            (take4_of_shape _ MessageScreenSaverChange.CODE ([mm.state % 256]) (by simp [MessageScreenSaverChange.to_bytes]) rfl))]
        refine is_insufficient_of_error _ _ _ _ (trunc_screenSaverChange _ ?_)
        rw [length_take_of_le _ _ (by omega)]
        simp at hnlen
        omega
    · intro habs
      simp [Message.is_hello] at habs
  | KeyDown mm =>
    refine ⟨?_, ?_⟩
    · intro _
      simp only [Message.payload_bytes] at hn ⊢
      by_cases h4 : n < 4
      · exact is_insufficient_parse_short _ (by rw [List.length_take]; omega)
      · have hnlen : n < (MessageKeyDown.to_bytes mm).length := hn
        rw [parse_dispatch_keyDown _
          (by rw [length_take_of_le _ _ (by omega)]; omega)
          (take4_of_take _ _ _ (by omega)
            (take4_of_shape _ MessageKeyDown.CODE (u16be mm.keyid ++ u16be mm.mask ++ u16be mm.button) (by simp [MessageKeyDown.to_bytes]) rfl))]
        refine is_insufficient_of_error _ _ _ _ (trunc_keyDown _ ?_)
        rw [length_take_of_le _ _ (by omega)]
        simp at hnlen
        omega
    · intro habs
      simp [Message.is_hello] at habs
  | KeyUp mm =>
    refine ⟨?_, ?_⟩
    · intro _
      simp only [Message.payload_bytes] at hn ⊢
      by_cases h4 : n < 4
      · exact is_insufficient_parse_short _ (by rw [List.length_take]; omega)
      · have hnlen : n < (MessageKeyUp.to_bytes mm).length := hn
        rw [parse_dispatch_keyUp _
          (by rw [length_take_of_le _ _ (by omega)]; omega)
          (take4_of_take _ _ _ (by omega)
            (take4_of_shape _ MessageKeyUp.CODE (u16be mm.keyid ++ u16be mm.mask ++ u16be mm.button) (by simp [MessageKeyUp.to_bytes]) rfl))]
        refine is_insufficient_of_error _ _ _ _ (trunc_keyUp _ ?_)
        rw [length_take_of_le _ _ (by omega)]
        simp at hnlen
        omega
    · intro habs
      simp [Message.is_hello] at habs
  | MouseButtonDown mm =>
    refine ⟨?_, ?_⟩
    · intro _
      simp only [Message.payload_bytes] at hn ⊢
      by_cases h4 : n < 4
      · exact is_insufficient_parse_short _ (by rw [List.length_take]; omega)
      · have hnlen : n < (MessageMouseButtonDown.to_bytes mm).length := hn
        rw [parse_dispatch_mouseButtonDown _
          (by rw [length_take_of_le _ _ (by omega)]; omega)
          (take4_of_take _ _ _ (by omega)
            (take4_of_shape _ MessageMouseButtonDown.CODE ([mm.button % 256]) (by simp [MessageMouseButtonDown.to_bytes]) rfl))]
        refine is_insufficient_of_error _ _ _ _ (trunc_mouseButtonDown _ ?_)
        rw [length_take_of_le _ _ (by omega)]
        simp at hnlen
        omega
    · intro habs
      simp [Message.is_hello] at habs
  | MouseButtonUp mm =>
    refine ⟨?_, ?_⟩
    · intro _
      simp only [Message.payload_bytes] at hn ⊢
      by_cases h4 : n < 4
      · exact is_insufficient_parse_short _ (by rw [List.length_take]; omega)
      · have hnlen : n < (MessageMouseButtonUp.to_bytes mm).length := hn
        rw [parse_dispatch_mouseButtonUp _
          (by rw [length_take_of_le _ _ (by omega)]; omega)
          (take4_of_take _ _ _ (by omega)
            (take4_of_shape _ MessageMouseButtonUp.CODE ([mm.button % 256]) (by simp [MessageMouseButtonUp.to_bytes]) rfl))]
        refine is_insufficient_of_error _ _ _ _ (trunc_mouseButtonUp _ ?_)
        rw [length_take_of_le _ _ (by omega)]
        simp at hnlen
        omega
    · intro habs
      simp [Message.is_hello] at habs
  | MouseMove mm =>
    refine ⟨?_, ?_⟩
    · intro _
      simp only [Message.payload_bytes] at hn ⊢
      by_cases h4 : n < 4
      · exact is_insufficient_parse_short _ (by rw [List.length_take]; omega)
      · have hnlen : n < (MessageMouseMove.to_bytes mm).length := hn
        rw [parse_dispatch_mouseMove _
          (by rw [length_take_of_le _ _ (by omega)]; omega)
          (take4_of_take _ _ _ (by omega)
            (take4_of_shape _ MessageMouseMove.CODE (i16be mm.x ++ i16be mm.y) (by simp [MessageMouseMove.to_bytes]) rfl))]
        refine is_insufficient_of_error _ _ _ _ (trunc_mouseMove _ ?_)
        rw [length_take_of_le _ _ (by omega)]
        simp at hnlen
        omega
    · intro habs
      simp [Message.is_hello] at habs
  | MouseRelativeMove mm =>
    refine ⟨?_, ?_⟩
    · intro _
      simp only [Message.payload_bytes] at hn ⊢
      by_cases h4 : n < 4
      · exact is_insufficient_parse_short _ (by rw [List.length_take]; omega)
      · have hnlen : n < (MessageMouseRelativeMove.to_bytes mm).length := hn
        rw [parse_dispatch_mouseRelativeMove _
          (by rw [length_take_of_le _ _ (by omega)]; omega)
          (take4_of_take _ _ _ (by omega)
            (take4_of_shape _ MessageMouseRelativeMove.CODE (i16be mm.x ++ i16be mm.y) (by simp [MessageMouseRelativeMove.to_bytes]) rfl))]
        refine is_insufficient_of_error _ _ _ _ (trunc_mouseRelativeMove _ ?_)
        rw [length_take_of_le _ _ (by omega)]
        simp at hnlen
        omega
    · intro habs
      simp [Message.is_hello] at habs
  | MouseWheel mm =>
    refine ⟨?_, ?_⟩
    · intro _
      simp only [Message.payload_bytes] at hn ⊢
      by_cases h4 : n < 4
      · exact is_insufficient_parse_short _ (by rw [List.length_take]; omega)
      · have hnlen : n < (MessageMouseWheel.to_bytes mm).length := hn
        rw [parse_dispatch_mouseWheel _
          (by rw [length_take_of_le _ _ (by omega)]; omega)
          (take4_of_take _ _ _ (by omega)
            (take4_of_shape _ MessageMouseWheel.CODE (i16be mm.xdelta ++ i16be mm.ydelta) (by simp [MessageMouseWheel.to_bytes]) rfl))]
        refine is_insufficient_of_error _ _ _ _ (trunc_mouseWheel _ ?_)
        rw [length_take_of_le _ _ (by omega)]
        simp at hnlen
        omega
    · intro habs
      simp [Message.is_hello] at habs
  | ClientInfo mm =>
    refine ⟨?_, ?_⟩
    · intro _
      simp only [Message.payload_bytes] at hn ⊢
      by_cases h4 : n < 4
      · exact is_insufficient_parse_short _ (by rw [List.length_take]; omega)
      · have hnlen : n < (MessageClientInfo.to_bytes mm).length := hn
        rw [parse_dispatch_clientInfo _
          (by rw [length_take_of_le _ _ (by omega)]; omega)
          (take4_of_take _ _ _ (by omega)
            (take4_of_shape _ MessageClientInfo.CODE (u16be mm.x ++ u16be mm.y ++ u16be mm.width ++ u16be mm.height ++ u16be mm.current_mouse_x ++ u16be mm.current_mouse_y ++ u16be mm.size) (by simp [MessageClientInfo.to_bytes]) rfl))]
        refine is_insufficient_of_error _ _ _ _ (trunc_clientInfo _ ?_)
        rw [length_take_of_le _ _ (by omega)]
        simp at hnlen
        omega
    · intro habs
      simp [Message.is_hello] at habs
  | IncompatibleVersion mm =>
    refine ⟨?_, ?_⟩
    · intro _
      simp only [Message.payload_bytes] at hn ⊢
      by_cases h4 : n < 4
      · exact is_insufficient_parse_short _ (by rw [List.length_take]; omega)
      · have hnlen : n < (MessageIncompatibleVersion.to_bytes mm).length := hn
        rw [parse_dispatch_incompatibleVersion _
          (by rw [length_take_of_le _ _ (by omega)]; omega)
          (take4_of_take _ _ _ (by omega)
            (take4_of_shape _ MessageIncompatibleVersion.CODE (u16be mm.major_remote ++ u16be mm.minor_remote) (by simp [MessageIncompatibleVersion.to_bytes]) rfl))]
        refine is_insufficient_of_error _ _ _ _ (trunc_incompatibleVersion _ ?_)
        rw [length_take_of_le _ _ (by omega)]
        simp at hnlen
        omega
    · intro habs
      simp [Message.is_hello] at habs
  | KeyDownWithLanguage mm =>
    refine ⟨?_, ?_⟩
    · intro _
      simp only [Message.payload_bytes] at hn hplen ⊢
      simp only [to_bytes_length_keyDownWithLanguage] at hn hplen
      by_cases h4 : n < 4
      · exact is_insufficient_parse_short _ (by rw [List.length_take]; simp; omega)
      · rw [parse_dispatch_keyDownWithLanguage _
          (by rw [length_take_of_le _ _ (by simp; omega)]; omega)
          (take4_of_take _ _ _ (by omega)
            (take4_of_shape _ MessageKeyDownWithLanguage.CODE (u16be mm.keyid ++ u16be mm.mask ++ u16be mm.button ++ lps_to_bytes mm.lang) (by simp [MessageKeyDownWithLanguage.to_bytes]) rfl))]
        exact trunc_keyDownWithLanguage mm (by omega) n (by omega)
    · intro habs
      simp [Message.is_hello] at habs
  | KeyRepeat mm =>
    refine ⟨?_, ?_⟩
    · intro _
      simp only [Message.payload_bytes] at hn hplen ⊢
      simp only [to_bytes_length_keyRepeat] at hn hplen
      by_cases h4 : n < 4
      · exact is_insufficient_parse_short _ (by rw [List.length_take]; simp; omega)
      · rw [parse_dispatch_keyRepeat _
          (by rw [length_take_of_le _ _ (by simp; omega)]; omega)
          (take4_of_take _ _ _ (by omega)
            (take4_of_shape _ MessageKeyRepeat.CODE (u16be mm.keyid ++ u16be mm.mask ++ u16be mm.button ++ u16be mm.count ++ lps_to_bytes mm.lang) (by simp [MessageKeyRepeat.to_bytes]) rfl))]
        exact trunc_keyRepeat mm (by omega) n (by omega)
    · intro habs
      simp [Message.is_hello] at habs
  | ClipboardData mm =>
    refine ⟨?_, ?_⟩
    · intro _
      simp only [Message.payload_bytes] at hn hplen ⊢
      simp only [to_bytes_length_clipboardData] at hn hplen
      by_cases h4 : n < 4
      · exact is_insufficient_parse_short _ (by rw [List.length_take]; simp; omega)
      · rw [parse_dispatch_clipboardData _
          (by rw [length_take_of_le _ _ (by simp; omega)]; omega)
          (take4_of_take _ _ _ (by omega)
            (take4_of_shape _ MessageClipboardData.CODE ([mm.id % 256] ++ u32be mm.sequence ++ [mm.mark % 256] ++ lps_to_bytes mm.data) (by simp [MessageClipboardData.to_bytes]) rfl))]
        exact trunc_clipboardData mm (by omega) n (by omega)
    · intro habs
      simp [Message.is_hello] at habs
  | FileTransfer mm =>
    refine ⟨?_, ?_⟩
    · intro _
      simp only [Message.payload_bytes] at hn hplen ⊢
      simp only [to_bytes_length_fileTransfer] at hn hplen
      by_cases h4 : n < 4
      · exact is_insufficient_parse_short _ (by rw [List.length_take]; simp; omega)
      · rw [parse_dispatch_fileTransfer _
          (by rw [length_take_of_le _ _ (by simp; omega)]; omega)
          (take4_of_take _ _ _ (by omega)
            (take4_of_shape _ MessageFileTransfer.CODE ([mm.mark % 256] ++ lps_to_bytes mm.data) (by simp [MessageFileTransfer.to_bytes]) rfl))]
        exact trunc_fileTransfer mm (by omega) n (by omega)
    · intro habs
      simp [Message.is_hello] at habs
  | DragInfo mm =>
    refine ⟨?_, ?_⟩
    · intro _
      simp only [Message.payload_bytes] at hn hplen ⊢
      simp only [to_bytes_length_dragInfo] at hn hplen
      by_cases h4 : n < 4
      · exact is_insufficient_parse_short _ (by rw [List.length_take]; simp; omega)
      · rw [parse_dispatch_dragInfo _
          (by rw [length_take_of_le _ _ (by simp; omega)]; omega)
          (take4_of_take _ _ _ (by omega)
            (take4_of_shape _ MessageDragInfo.CODE (u16be mm.size ++ lps_to_bytes mm.data) (by simp [MessageDragInfo.to_bytes]) rfl))]
        exact trunc_dragInfo mm (by omega) n (by omega)
    · intro habs
      simp [Message.is_hello] at habs
  | SecureEncryption mm =>
    refine ⟨?_, ?_⟩
    · intro _
      simp only [Message.payload_bytes] at hn hplen ⊢
      simp only [to_bytes_length_secureEncryption] at hn hplen
      by_cases h4 : n < 4
      · exact is_insufficient_parse_short _ (by rw [List.length_take]; simp; omega)
      · rw [parse_dispatch_secureEncryption _
          (by rw [length_take_of_le _ _ (by simp; omega)]; omega)
          (take4_of_take _ _ _ (by omega)
            (take4_of_shape _ MessageSecureEncryption.CODE (lps_to_bytes mm.data) (by simp [MessageSecureEncryption.to_bytes]) rfl))]
        exact trunc_secureEncryption mm (by omega) n (by omega)
    · intro habs
      simp [Message.is_hello] at habs
  | LegacySynergy mm =>
    refine ⟨?_, ?_⟩
    · intro _
      simp only [Message.payload_bytes] at hn hplen ⊢
      simp only [to_bytes_length_legacySynergy] at hn hplen
      by_cases h4 : n < 4
      · exact is_insufficient_parse_short _ (by rw [List.length_take]; simp; omega)
      · rw [parse_dispatch_legacySynergy _
          (by rw [length_take_of_le _ _ (by simp; omega)]; omega)
          (take4_of_take _ _ _ (by omega)
            (take4_of_shape _ MessageLegacySynergy.CODE (lps_to_bytes mm.data) (by simp [MessageLegacySynergy.to_bytes]) rfl))]
        exact trunc_legacySynergy mm (by omega) n (by omega)
    · intro habs
      simp [Message.is_hello] at habs
  | SetOptions mm =>
    refine ⟨?_, ?_⟩
    · intro _
      simp only [Message.payload_bytes] at hn hplen ⊢
      simp only [to_bytes_length_setOptions] at hn hplen
      by_cases h4 : n < 4
      · exact is_insufficient_parse_short _ (by rw [List.length_take]; simp; omega)
      · rw [parse_dispatch_setOptions _
          (by rw [length_take_of_le _ _ (by simp; omega)]; omega)
          (take4_of_take _ _ _ (by omega)
            (take4_of_shape _ MessageSetOptions.CODE
              (u32be (1 + mm.options.length * 2) ++ pairs_to_bytes mm.options)
              (by simp [MessageSetOptions.to_bytes]) rfl))]
        exact trunc_setOptions mm (by omega) n (by omega)
    · intro habs
      simp [Message.is_hello] at habs
  | HelloBarrier mm =>
    simp only [wf_msg, Bool.and_eq_true, decide_eq_true_eq] at hwf
    obtain ⟨⟨⟨hmaj, hmin⟩, hcn⟩, _⟩ := hwf
    have hlb : ∀ nm, mm.client_name = some nm → nm.length < 4294967296 := by
      intro nm hnm
      have hlen := to_bytes_length_helloBarrier_named mm nm hnm
      simp only [Message.payload_bytes] at hplen
      omega
    simp only [Message.payload_bytes] at hn ⊢
    refine ⟨?_, ?_⟩
    · intro habs
      simp [Message.is_hello] at habs
    · intro _
      refine ⟨?_, ?_, ?_⟩
      · intro hcond
        rcases hcond with h4 | ⟨h7, hne11⟩
        · exact is_insufficient_parse_short _ (by rw [List.length_take]; omega)
        · exact trunc_helloBarrier_insufficient mm hlb n hn h7 hne11
      · intro h4 h7
        have hc4 : (MessageHelloBarrier.to_bytes mm).take 4 = ([66, 97, 114, 114]) := by
          obtain ⟨major, minor, cn⟩ := mm
          cases cn with
          | none =>
            rw [show MessageHelloBarrier.to_bytes { major := major, minor := minor, client_name := none }
                = MessageHelloBarrier.CODE ++ (u16be major ++ u16be minor) by simp [MessageHelloBarrier.to_bytes]]
            rw [List.take_append_of_le_length (by simp [MessageHelloBarrier.CODE])]
            rfl
          | some nm =>
            rw [show MessageHelloBarrier.to_bytes { major := major, minor := minor, client_name := some nm }
                = MessageHelloBarrier.CODE ++ (u16be major ++ u16be minor ++ (u32be nm.length ++ nm))
                by simp [MessageHelloBarrier.to_bytes]]
            rw [List.take_append_of_le_length (by simp [MessageHelloBarrier.CODE])]
            rfl
        rw [hc4]
        exact trunc_helloBarrier_unknown mm n h4 h7
      · intro h11
        subst h11
        cases hcnv : mm.client_name with
        | none =>
          rw [to_bytes_length_helloBarrier_unnamed mm hcnv] at hn
          omega
        | some nm =>
          rw [trunc_helloBarrier_eleven mm hmaj hmin nm hcnv]
          rfl
  | HelloSynergy mm =>
    simp only [wf_msg, Bool.and_eq_true, decide_eq_true_eq] at hwf
    obtain ⟨⟨⟨hmaj, hmin⟩, hcn⟩, _⟩ := hwf
    have hlb : ∀ nm, mm.client_name = some nm → nm.length < 4294967296 := by
      intro nm hnm
      have hlen := to_bytes_length_helloSynergy_named mm nm hnm
      simp only [Message.payload_bytes] at hplen
      omega
    simp only [Message.payload_bytes] at hn ⊢
    refine ⟨?_, ?_⟩
    · intro habs
      simp [Message.is_hello] at habs
    · intro _
      refine ⟨?_, ?_, ?_⟩
      · intro hcond
        rcases hcond with h4 | ⟨h7, hne11⟩
        · exact is_insufficient_parse_short _ (by rw [List.length_take]; omega)
        · exact trunc_helloSynergy_insufficient mm hlb n hn h7 hne11
      · intro h4 h7
        have hc4 : (MessageHelloSynergy.to_bytes mm).take 4 = ([83, 121, 110, 101]) := by
          obtain ⟨major, minor, cn⟩ := mm
          cases cn with
          | none =>
            rw [show MessageHelloSynergy.to_bytes { major := major, minor := minor, client_name := none }
                = MessageHelloSynergy.CODE ++ (u16be major ++ u16be minor) by simp [MessageHelloSynergy.to_bytes]]
            rw [List.take_append_of_le_length (by simp [MessageHelloSynergy.CODE])]
            rfl
          | some nm =>
            rw [show MessageHelloSynergy.to_bytes { major := major, minor := minor, client_name := some nm }
                = MessageHelloSynergy.CODE ++ (u16be major ++ u16be minor ++ (u32be nm.length ++ nm))
                by simp [MessageHelloSynergy.to_bytes]]
            rw [List.take_append_of_le_length (by simp [MessageHelloSynergy.CODE])]
            rfl
        rw [hc4]
        exact trunc_helloSynergy_unknown mm n h4 h7
      · intro h11
        subst h11
        cases hcnv : mm.client_name with
        | none =>
          rw [to_bytes_length_helloSynergy_unnamed mm hcnv] at hn
          omega
        | some nm =>
          rw [trunc_helloSynergy_eleven mm hmaj hmin nm hcnv]
          rfl

/-- C2 witness: a 7-byte prefix of a CursorEntered payload is
InsufficientData; the 11-byte prefix of a named Hello parses as the Hello
without a name. -/
theorem c2_truncation_safety_witness :
    is_insufficient (parse_message ((Message.payload_bytes
      (.CursorEntered { x := 1920, y := 1080, sequence := 42, mask := 3 })).take 7)) = true ∧
    parse_message ((Message.payload_bytes
        (.HelloBarrier { major := 1, minor := 8, client_name := some [97] })).take 11) =
      .ok (Message.drop_hello_name
        (.HelloBarrier { major := 1, minor := 8, client_name := some [97] })) := by
  constructor
  · exact (c2_truncation_safety _ (by decide) 7 (by decide)).1 (by decide)
  · exact ((c2_truncation_safety _ (by decide) 11 (by decide)).2 (by decide)).2.2 rfl

/-- C2 counterexample: the claim demands InsufficientData on every strict
prefix, naming in particular a named Hello truncated to exactly code plus
the two version fields; that 11-byte prefix in fact parses successfully as a
Hello without a name, and the 4-byte prefix "Barr" yields UnknownMessageCode,
not InsufficientData. -/
theorem c2_counterexample :
    11 < (Message.payload_bytes
      (.HelloBarrier { major := 1, minor := 8, client_name := some [97] })).length ∧
    parse_message ((Message.payload_bytes
        (.HelloBarrier { major := 1, minor := 8, client_name := some [97] })).take 11) =
      .ok (.HelloBarrier { major := 1, minor := 8, client_name := none }) ∧
    parse_message ((Message.payload_bytes
        (.HelloBarrier { major := 1, minor := 8, client_name := some [97] })).take 4) =
      .error (.unknownMessageCode [66, 97, 114, 114]) := by
  refine ⟨by decide, by decide, by decide⟩

theorem seg_cons (x : Bytes) (off k : Nat) (h : off < x.length) :
    seg x off (k + 1) = byteAt x off :: seg x (off + 1) k := by
  unfold seg
  rw [List.drop_eq_getElem_cons h, List.take_succ_cons,
    byteAt_eq_getElem x off h]

theorem seg_zero (x : Bytes) (off : Nat) : seg x off 0 = [] := rfl

theorem seg_one (x : Bytes) (off : Nat) (h : off + 1 ≤ x.length) :
    seg x off 1 = [byteAt x off] := by
  rw [seg_cons x off 0 (by omega), seg_zero]

theorem seg_two (x : Bytes) (off : Nat) (h : off + 2 ≤ x.length) :
    seg x off 2 = [byteAt x off, byteAt x (off + 1)] := by
  rw [seg_cons x off 1 (by omega), seg_one x (off + 1) (by omega)]

theorem seg_four (x : Bytes) (off : Nat) (h : off + 4 ≤ x.length) :
    seg x off 4 = [byteAt x off, byteAt x (off + 1), byteAt x (off + 2), byteAt x (off + 3)] := by
  rw [seg_cons x off 3 (by omega), seg_cons x (off + 1) 2 (by omega),
    seg_two x (off + 2) (by omega)]

theorem take_add_seg (x : Bytes) (a b : Nat) : x.take (a + b) = x.take a ++ seg x a b := by
  rw [seg, List.take_add]

theorem seg_append (x : Bytes) (off k1 k2 : Nat) :
    seg x off (k1 + k2) = seg x off k1 ++ seg x (off + k1) k2 := by
  unfold seg
  rw [List.take_add, List.drop_drop]
  try rw [Nat.add_comm k1 off]

theorem u16be_of_val (x : Bytes) (off : Nat) (h : off + 2 ≤ x.length)
    (hw : ∀ b ∈ x, b < 256) :
    u16be (u16val x off) = seg x off 2 := by
  rw [seg_two x off h]
  have h0 := byteAt_lt x off hw (by omega)
  have h1 := byteAt_lt x (off + 1) hw (by omega)
  unfold u16be u16val
  refine List.ext_getElem (by simp) ?_
  intro i hi1 hi2
  simp only [List.length_cons, List.length_nil] at hi1
  interval_cases i <;> simp <;> omega

theorem u32be_of_val (x : Bytes) (off : Nat) (h : off + 4 ≤ x.length)
    (hw : ∀ b ∈ x, b < 256) :
    u32be (u32val x off) = seg x off 4 := by
  rw [seg_four x off h]
  have h0 := byteAt_lt x off hw (by omega)
  have h1 := byteAt_lt x (off + 1) hw (by omega)
  have h2 := byteAt_lt x (off + 2) hw (by omega)
  have h3 := byteAt_lt x (off + 3) hw (by omega)
  unfold u32be u32val
  refine List.ext_getElem (by simp) ?_
  intro i hi1 hi2
  simp only [List.length_cons, List.length_nil] at hi1
  interval_cases i <;> simp <;> omega

theorem i16be_of_val (x : Bytes) (off : Nat) (h : off + 2 ≤ x.length)
    (hw : ∀ b ∈ x, b < 256) :
    i16be (i16val x off) = seg x off 2 := by
  have h0 := byteAt_lt x off hw (by omega)
  have h1 := byteAt_lt x (off + 1) hw (by omega)
  have hlt : u16val x off < 65536 := by
    unfold u16val
    omega
  have key : ((i16val x off) % 65536).toNat = u16val x off := by
    unfold i16val
    split <;> omega
  rw [i16be, key]
  exact u16be_of_val x off h hw

theorem byte_seg_of_val (x : Bytes) (off : Nat) (h : off + 1 ≤ x.length)
    (hw : ∀ b ∈ x, b < 256) :
    [byteAt x off % 256] = seg x off 1 := by
  rw [seg_one x off h, Nat.mod_eq_of_lt (byteAt_lt x off hw (by omega))]
/-! C4: re-encoding after a successful parse.  `lps_reencode`, `pairs_reencode`
and the per-variant `reenc_*` lemmas invert each `from_bytes` success and
rebuild the encoder's output as the consumed prefix of the input buffer. -/

theorem lps_reencode (x : Bytes) (off : Nat) (s : Bytes) (c : Nat)
    (hw : ∀ b ∈ x, b < 256)
    (h : lps_from_bytes x off = .ok (s, c)) :
    lps_to_bytes s = seg x off (4 + s.length) ∧ c = 4 + s.length ∧
    off + 4 + s.length ≤ x.length := by
  rw [lps_from_bytes] at h
  split at h
  · cases h
  case isFalse h4 =>
    rw [read_u32, if_neg (by omega)] at h
    simp only [ebind_ok] at h
    split at h
    · cases h
    case isFalse hg =>
      split at h
      case isTrue hu =>
        cases h
        have hslen : (List.take (u32val x off) (x.drop (off + 4))).length = u32val x off := by
          rw [List.length_take, List.length_drop]
          omega
        refine ⟨?_, by rw [hslen], by rw [hslen]; omega⟩
        rw [lps_to_bytes, hslen]
        rw [seg_append x off 4 (u32val x off)]
        congr 1
        exact u32be_of_val x off (by omega) hw
      · cases h

theorem pairs_reencode (x : Bytes) (hw : ∀ b ∈ x, b < 256) :
    ∀ (n off : Nat) (ps : List (Nat × Nat)), read_pairs x off n = .ok ps →
      pairs_to_bytes ps = seg x off (n * 8) ∧ ps.length = n := by
  intro n
  induction n with
  | zero =>
    intro off ps h
    simp only [read_pairs] at h
    cases h
    exact ⟨rfl, rfl⟩
  | succ n ih =>
    intro off ps h
    simp only [read_pairs] at h
    rw [read_u32] at h
    split at h
    case isTrue h1 =>
      rw [ebind_err] at h
      cases h
    case isFalse h1 =>
      rw [ebind_ok] at h
      rw [read_u32] at h
      split at h
      case isTrue h2 =>
        rw [ebind_err] at h
        cases h
      case isFalse h2 =>
        rw [ebind_ok] at h
        cases hrest : read_pairs x (off + 8) n with
        | error e =>
          rw [hrest, ebind_err] at h
          cases h
        | ok rest =>
          rw [hrest, ebind_ok] at h
          cases h
          obtain ⟨ih1, ih2⟩ := ih (off + 8) rest hrest
          refine ⟨?_, by simp [ih2]⟩
          simp only [pairs_to_bytes]
          rw [u32be_of_val x off (by omega) hw, u32be_of_val x (off + 4) (by omega) hw, ih1]
          rw [show (n + 1) * 8 = 4 + (4 + n * 8) from by ring, seg_append, seg_append]
          rw [show off + 4 + 4 = off + 8 from by omega]
          simp [List.append_assoc]

theorem reenc_noOp (x : Bytes) (mm : MessageNoOp) (_hw : ∀ b ∈ x, b < 256)
    (hc : x.take 4 = MessageNoOp.CODE) (h : MessageNoOp.from_bytes x = .ok mm) :
    MessageNoOp.to_bytes mm = x.take (MessageNoOp.to_bytes mm).length := by
  cases h
  simp only [MessageNoOp.to_bytes]
  rw [show (MessageNoOp.CODE).length = 4 from rfl]
  exact hc.symm

theorem reenc_close (x : Bytes) (mm : MessageClose) (_hw : ∀ b ∈ x, b < 256)
    (hc : x.take 4 = MessageClose.CODE) (h : MessageClose.from_bytes x = .ok mm) :
    MessageClose.to_bytes mm = x.take (MessageClose.to_bytes mm).length := by
  cases h
  simp only [MessageClose.to_bytes]
  rw [show (MessageClose.CODE).length = 4 from rfl]
  exact hc.symm

theorem reenc_cursorLeft (x : Bytes) (mm : MessageCursorLeft) (_hw : ∀ b ∈ x, b < 256)
    (hc : x.take 4 = MessageCursorLeft.CODE) (h : MessageCursorLeft.from_bytes x = .ok mm) :
    MessageCursorLeft.to_bytes mm = x.take (MessageCursorLeft.to_bytes mm).length := by
  cases h
  simp only [MessageCursorLeft.to_bytes]
  rw [show (MessageCursorLeft.CODE).length = 4 from rfl]
  exact hc.symm

theorem reenc_resetOptions (x : Bytes) (mm : MessageResetOptions) (_hw : ∀ b ∈ x, b < 256)
    (hc : x.take 4 = MessageResetOptions.CODE) (h : MessageResetOptions.from_bytes x = .ok mm) :
    MessageResetOptions.to_bytes mm = x.take (MessageResetOptions.to_bytes mm).length := by
  cases h
  simp only [MessageResetOptions.to_bytes]
  rw [show (MessageResetOptions.CODE).length = 4 from rfl]
  exact hc.symm

theorem reenc_infoAcknowledgment (x : Bytes) (mm : MessageInfoAcknowledgment) (_hw : ∀ b ∈ x, b < 256)
    (hc : x.take 4 = MessageInfoAcknowledgment.CODE) (h : MessageInfoAcknowledgment.from_bytes x = .ok mm) :
    MessageInfoAcknowledgment.to_bytes mm = x.take (MessageInfoAcknowledgment.to_bytes mm).length := by
  cases h
  simp only [MessageInfoAcknowledgment.to_bytes]
  rw [show (MessageInfoAcknowledgment.CODE).length = 4 from rfl]
  exact hc.symm

theorem reenc_keepAlive (x : Bytes) (mm : MessageKeepAlive) (_hw : ∀ b ∈ x, b < 256)
    (hc : x.take 4 = MessageKeepAlive.CODE) (h : MessageKeepAlive.from_bytes x = .ok mm) :
    MessageKeepAlive.to_bytes mm = x.take (MessageKeepAlive.to_bytes mm).length := by
  cases h
  simp only [MessageKeepAlive.to_bytes]
  rw [show (MessageKeepAlive.CODE).length = 4 from rfl]
  exact hc.symm

theorem reenc_queryInfo (x : Bytes) (mm : MessageQueryInfo) (_hw : ∀ b ∈ x, b < 256)
    (hc : x.take 4 = MessageQueryInfo.CODE) (h : MessageQueryInfo.from_bytes x = .ok mm) :
    MessageQueryInfo.to_bytes mm = x.take (MessageQueryInfo.to_bytes mm).length := by
  cases h
  simp only [MessageQueryInfo.to_bytes]
  rw [show (MessageQueryInfo.CODE).length = 4 from rfl]
  exact hc.symm

theorem reenc_serverBusy (x : Bytes) (mm : MessageServerBusy) (_hw : ∀ b ∈ x, b < 256)
    (hc : x.take 4 = MessageServerBusy.CODE) (h : MessageServerBusy.from_bytes x = .ok mm) :
    MessageServerBusy.to_bytes mm = x.take (MessageServerBusy.to_bytes mm).length := by
  cases h
  simp only [MessageServerBusy.to_bytes]
  rw [show (MessageServerBusy.CODE).length = 4 from rfl]
  exact hc.symm

theorem reenc_unknownClient (x : Bytes) (mm : MessageUnknownClient) (_hw : ∀ b ∈ x, b < 256)
    (hc : x.take 4 = MessageUnknownClient.CODE) (h : MessageUnknownClient.from_bytes x = .ok mm) :
    MessageUnknownClient.to_bytes mm = x.take (MessageUnknownClient.to_bytes mm).length := by
  cases h
  simp only [MessageUnknownClient.to_bytes]
  rw [show (MessageUnknownClient.CODE).length = 4 from rfl]
  exact hc.symm

theorem reenc_protocolErr (x : Bytes) (mm : MessageProtocolError) (_hw : ∀ b ∈ x, b < 256)
    (hc : x.take 4 = MessageProtocolError.CODE) (h : MessageProtocolError.from_bytes x = .ok mm) :
    MessageProtocolError.to_bytes mm = x.take (MessageProtocolError.to_bytes mm).length := by
  cases h
  simp only [MessageProtocolError.to_bytes]
  rw [show (MessageProtocolError.CODE).length = 4 from rfl]
  exact hc.symm

theorem reenc_cursorEntered (x : Bytes) (mm : MessageCursorEntered) (hw : ∀ b ∈ x, b < 256)
    (hc : x.take 4 = MessageCursorEntered.CODE) (h : MessageCursorEntered.from_bytes x = .ok mm) :
    MessageCursorEntered.to_bytes mm = x.take (MessageCursorEntered.to_bytes mm).length := by
  rw [MessageCursorEntered.from_bytes] at h
  split at h
  · cases h
  case isFalse hlen =>
    simp only [MessageCursorEntered.CODE, List.length_cons, List.length_nil] at h hlen
    norm_num at h hlen
    rw [read_i16, if_neg (by omega)] at h
    simp only [ebind_ok] at h
    rw [read_i16, if_neg (by omega)] at h
    simp only [ebind_ok] at h
    rw [read_u32, if_neg (by omega)] at h
    simp only [ebind_ok] at h
    rw [read_u16, if_neg (by omega)] at h
    simp only [ebind_ok] at h
    cases h
    simp only [MessageCursorEntered.to_bytes]
    rw [i16be_of_val x 4 (by omega) hw, i16be_of_val x 6 (by omega) hw, u32be_of_val x 8 (by omega) hw, u16be_of_val x 12 (by omega) hw]
    have hlen2 : (MessageCursorEntered.CODE ++ seg x 4 2 ++ seg x 6 2 ++ seg x 8 4 ++ seg x 12 2).length = 4 + (2 + (2 + (4 + (2)))) := by
      simp [MessageCursorEntered.CODE, seg]
      try omega
    rw [hlen2]
    have hdec : x.take (4 + (2 + (2 + (4 + (2))))) = x.take 4 ++ (seg x 4 2 ++ (seg x 6 2 ++ (seg x 8 4 ++ (seg x 12 2)))) := by
      rw [take_add_seg x 4 (2 + (2 + (4 + (2)))), seg_append, seg_append, seg_append]
      try norm_num
    rw [hdec, hc]
    try simp [List.append_assoc]

theorem reenc_clientClipboard (x : Bytes) (mm : MessageClientClipboard) (hw : ∀ b ∈ x, b < 256)
    (hc : x.take 4 = MessageClientClipboard.CODE) (h : MessageClientClipboard.from_bytes x = .ok mm) :
    MessageClientClipboard.to_bytes mm = x.take (MessageClientClipboard.to_bytes mm).length := by
  rw [MessageClientClipboard.from_bytes] at h
  split at h
  · cases h
  case isFalse hlen =>
    simp only [MessageClientClipboard.CODE, List.length_cons, List.length_nil] at h hlen
    norm_num at h hlen
    rw [read_u8, if_neg (by omega)] at h
    simp only [ebind_ok] at h
    rw [read_u32, if_neg (by omega)] at h
    simp only [ebind_ok] at h
    cases h
    simp only [MessageClientClipboard.to_bytes]
    rw [byte_seg_of_val x 4 (by omega) hw, u32be_of_val x 5 (by omega) hw]
    have hlen2 : (MessageClientClipboard.CODE ++ seg x 4 1 ++ seg x 5 4).length = 4 + (1 + (4)) := by
      simp [MessageClientClipboard.CODE, seg]
      try omega
    rw [hlen2]
    have hdec : x.take (4 + (1 + (4))) = x.take 4 ++ (seg x 4 1 ++ (seg x 5 4)) := by
      rw [take_add_seg x 4 (1 + (4)), seg_append]
      try norm_num
    rw [hdec, hc]
    try simp [List.append_assoc]

theorem reenc_screenSaverChange (x : Bytes) (mm : MessageScreenSaverChange) (hw : ∀ b ∈ x, b < 256)
    (hc : x.take 4 = MessageScreenSaverChange.CODE) (h : MessageScreenSaverChange.from_bytes x = .ok mm) :
    MessageScreenSaverChange.to_bytes mm = x.take (MessageScreenSaverChange.to_bytes mm).length := by
  rw [MessageScreenSaverChange.from_bytes] at h
  split at h
  · cases h
  case isFalse hlen =>
    simp only [MessageScreenSaverChange.CODE, List.length_cons, List.length_nil] at h hlen
    norm_num at h hlen
    rw [read_u8, if_neg (by omega)] at h
    simp only [ebind_ok] at h
    cases h
    simp only [MessageScreenSaverChange.to_bytes]
    rw [byte_seg_of_val x 4 (by omega) hw]
    have hlen2 : (MessageScreenSaverChange.CODE ++ seg x 4 1).length = 4 + (1) := by
      simp [MessageScreenSaverChange.CODE, seg]
      try omega
    rw [hlen2]
    have hdec : x.take (4 + (1)) = x.take 4 ++ (seg x 4 1) := by
      rw [take_add_seg x 4 (1)]
      try norm_num
    rw [hdec, hc]
    try simp [List.append_assoc]

theorem reenc_keyDown (x : Bytes) (mm : MessageKeyDown) (hw : ∀ b ∈ x, b < 256)
    (hc : x.take 4 = MessageKeyDown.CODE) (h : MessageKeyDown.from_bytes x = .ok mm) :
    MessageKeyDown.to_bytes mm = x.take (MessageKeyDown.to_bytes mm).length := by
  rw [MessageKeyDown.from_bytes] at h
  split at h
  · cases h
  case isFalse hlen =>
    simp only [MessageKeyDown.CODE, List.length_cons, List.length_nil] at h hlen
    norm_num at h hlen
    rw [read_u16, if_neg (by omega)] at h
    simp only [ebind_ok] at h
    rw [read_u16, if_neg (by omega)] at h
    simp only [ebind_ok] at h
    rw [read_u16, if_neg (by omega)] at h
    simp only [ebind_ok] at h
    cases h
    simp only [MessageKeyDown.to_bytes]
    rw [u16be_of_val x 4 (by omega) hw, u16be_of_val x 6 (by omega) hw, u16be_of_val x 8 (by omega) hw]
    have hlen2 : (MessageKeyDown.CODE ++ seg x 4 2 ++ seg x 6 2 ++ seg x 8 2).length = 4 + (2 + (2 + (2))) := by
      simp [MessageKeyDown.CODE, seg]
      try omega
    rw [hlen2]
    have hdec : x.take (4 + (2 + (2 + (2)))) = x.take 4 ++ (seg x 4 2 ++ (seg x 6 2 ++ (seg x 8 2))) := by
      rw [take_add_seg x 4 (2 + (2 + (2))), seg_append, seg_append]
      try norm_num
    rw [hdec, hc]
    try simp [List.append_assoc]

theorem reenc_keyUp (x : Bytes) (mm : MessageKeyUp) (hw : ∀ b ∈ x, b < 256)
    (hc : x.take 4 = MessageKeyUp.CODE) (h : MessageKeyUp.from_bytes x = .ok mm) :
    MessageKeyUp.to_bytes mm = x.take (MessageKeyUp.to_bytes mm).length := by
  rw [MessageKeyUp.from_bytes] at h
  split at h
  · cases h
  case isFalse hlen =>
    simp only [MessageKeyUp.CODE, List.length_cons, List.length_nil] at h hlen
    norm_num at h hlen
    rw [read_u16, if_neg (by omega)] at h
    simp only [ebind_ok] at h
    rw [read_u16, if_neg (by omega)] at h
    simp only [ebind_ok] at h
    rw [read_u16, if_neg (by omega)] at h
    simp only [ebind_ok] at h
    cases h
    simp only [MessageKeyUp.to_bytes]
    rw [u16be_of_val x 4 (by omega) hw, u16be_of_val x 6 (by omega) hw, u16be_of_val x 8 (by omega) hw]
    have hlen2 : (MessageKeyUp.CODE ++ seg x 4 2 ++ seg x 6 2 ++ seg x 8 2).length = 4 + (2 + (2 + (2))) := by
      simp [MessageKeyUp.CODE, seg]
      try omega
    rw [hlen2]
    have hdec : x.take (4 + (2 + (2 + (2)))) = x.take 4 ++ (seg x 4 2 ++ (seg x 6 2 ++ (seg x 8 2))) := by
      rw [take_add_seg x 4 (2 + (2 + (2))), seg_append, seg_append]
      try norm_num
    rw [hdec, hc]
    try simp [List.append_assoc]

theorem reenc_mouseButtonDown (x : Bytes) (mm : MessageMouseButtonDown) (hw : ∀ b ∈ x, b < 256)
    (hc : x.take 4 = MessageMouseButtonDown.CODE) (h : MessageMouseButtonDown.from_bytes x = .ok mm) :
    MessageMouseButtonDown.to_bytes mm = x.take (MessageMouseButtonDown.to_bytes mm).length := by
  rw [MessageMouseButtonDown.from_bytes] at h
  split at h
  · cases h
  case isFalse hlen =>
    simp only [MessageMouseButtonDown.CODE, List.length_cons, List.length_nil] at h hlen
    norm_num at h hlen
    rw [read_u8, if_neg (by omega)] at h
    simp only [ebind_ok] at h
    cases h
    simp only [MessageMouseButtonDown.to_bytes]
    rw [byte_seg_of_val x 4 (by omega) hw]
    have hlen2 : (MessageMouseButtonDown.CODE ++ seg x 4 1).length = 4 + (1) := by
      simp [MessageMouseButtonDown.CODE, seg]
      try omega
    rw [hlen2]
    have hdec : x.take (4 + (1)) = x.take 4 ++ (seg x 4 1) := by
      rw [take_add_seg x 4 (1)]
      try norm_num
    rw [hdec, hc]
    try simp [List.append_assoc]

theorem reenc_mouseButtonUp (x : Bytes) (mm : MessageMouseButtonUp) (hw : ∀ b ∈ x, b < 256)
    (hc : x.take 4 = MessageMouseButtonUp.CODE) (h : MessageMouseButtonUp.from_bytes x = .ok mm) :
    MessageMouseButtonUp.to_bytes mm = x.take (MessageMouseButtonUp.to_bytes mm).length := by
  rw [MessageMouseButtonUp.from_bytes] at h
  split at h
  · cases h
  case isFalse hlen =>
    simp only [MessageMouseButtonUp.CODE, List.length_cons, List.length_nil] at h hlen
    norm_num at h hlen
    rw [read_u8, if_neg (by omega)] at h
    simp only [ebind_ok] at h
    cases h
    simp only [MessageMouseButtonUp.to_bytes]
    rw [byte_seg_of_val x 4 (by omega) hw]
    have hlen2 : (MessageMouseButtonUp.CODE ++ seg x 4 1).length = 4 + (1) := by
      simp [MessageMouseButtonUp.CODE, seg]
      try omega
    rw [hlen2]
    have hdec : x.take (4 + (1)) = x.take 4 ++ (seg x 4 1) := by
      rw [take_add_seg x 4 (1)]
      try norm_num
    rw [hdec, hc]
    try simp [List.append_assoc]

theorem reenc_mouseMove (x : Bytes) (mm : MessageMouseMove) (hw : ∀ b ∈ x, b < 256)
    (hc : x.take 4 = MessageMouseMove.CODE) (h : MessageMouseMove.from_bytes x = .ok mm) :
    MessageMouseMove.to_bytes mm = x.take (MessageMouseMove.to_bytes mm).length := by
  rw [MessageMouseMove.from_bytes] at h
  split at h
  · cases h
  case isFalse hlen =>
    simp only [MessageMouseMove.CODE, List.length_cons, List.length_nil] at h hlen
    norm_num at h hlen
    rw [read_i16, if_neg (by omega)] at h
    simp only [ebind_ok] at h
    rw [read_i16, if_neg (by omega)] at h
    simp only [ebind_ok] at h
    cases h
    simp only [MessageMouseMove.to_bytes]
    rw [i16be_of_val x 4 (by omega) hw, i16be_of_val x 6 (by omega) hw]
    have hlen2 : (MessageMouseMove.CODE ++ seg x 4 2 ++ seg x 6 2).length = 4 + (2 + (2)) := by
      simp [MessageMouseMove.CODE, seg]
      try omega
    rw [hlen2]
    have hdec : x.take (4 + (2 + (2))) = x.take 4 ++ (seg x 4 2 ++ (seg x 6 2)) := by
      rw [take_add_seg x 4 (2 + (2)), seg_append]
      try norm_num
    rw [hdec, hc]
    try simp [List.append_assoc]

theorem reenc_mouseRelativeMove (x : Bytes) (mm : MessageMouseRelativeMove) (hw : ∀ b ∈ x, b < 256)
    (hc : x.take 4 = MessageMouseRelativeMove.CODE) (h : MessageMouseRelativeMove.from_bytes x = .ok mm) :
    MessageMouseRelativeMove.to_bytes mm = x.take (MessageMouseRelativeMove.to_bytes mm).length := by
  rw [MessageMouseRelativeMove.from_bytes] at h
  split at h
  · cases h
  case isFalse hlen =>
    simp only [MessageMouseRelativeMove.CODE, List.length_cons, List.length_nil] at h hlen
    norm_num at h hlen
    rw [read_i16, if_neg (by omega)] at h
    simp only [ebind_ok] at h
    rw [read_i16, if_neg (by omega)] at h
    simp only [ebind_ok] at h
    cases h
    simp only [MessageMouseRelativeMove.to_bytes]
    rw [i16be_of_val x 4 (by omega) hw, i16be_of_val x 6 (by omega) hw]
    have hlen2 : (MessageMouseRelativeMove.CODE ++ seg x 4 2 ++ seg x 6 2).length = 4 + (2 + (2)) := by
      simp [MessageMouseRelativeMove.CODE, seg]
      try omega
    rw [hlen2]
    have hdec : x.take (4 + (2 + (2))) = x.take 4 ++ (seg x 4 2 ++ (seg x 6 2)) := by
      rw [take_add_seg x 4 (2 + (2)), seg_append]
      try norm_num
    rw [hdec, hc]
    try simp [List.append_assoc]

theorem reenc_mouseWheel (x : Bytes) (mm : MessageMouseWheel) (hw : ∀ b ∈ x, b < 256)
    (hc : x.take 4 = MessageMouseWheel.CODE) (h : MessageMouseWheel.from_bytes x = .ok mm) :
    MessageMouseWheel.to_bytes mm = x.take (MessageMouseWheel.to_bytes mm).length := by
  rw [MessageMouseWheel.from_bytes] at h
  split at h
  · cases h
  case isFalse hlen =>
    simp only [MessageMouseWheel.CODE, List.length_cons, List.length_nil] at h hlen
    norm_num at h hlen
    rw [read_i16, if_neg (by omega)] at h
    simp only [ebind_ok] at h
    rw [read_i16, if_neg (by omega)] at h
    simp only [ebind_ok] at h
    cases h
    simp only [MessageMouseWheel.to_bytes]
    rw [i16be_of_val x 4 (by omega) hw, i16be_of_val x 6 (by omega) hw]
    have hlen2 : (MessageMouseWheel.CODE ++ seg x 4 2 ++ seg x 6 2).length = 4 + (2 + (2)) := by
      simp [MessageMouseWheel.CODE, seg]
      try omega
    rw [hlen2]
    have hdec : x.take (4 + (2 + (2))) = x.take 4 ++ (seg x 4 2 ++ (seg x 6 2)) := by
      rw [take_add_seg x 4 (2 + (2)), seg_append]
      try norm_num
    rw [hdec, hc]
    try simp [List.append_assoc]

theorem reenc_clientInfo (x : Bytes) (mm : MessageClientInfo) (hw : ∀ b ∈ x, b < 256)
    (hc : x.take 4 = MessageClientInfo.CODE) (h : MessageClientInfo.from_bytes x = .ok mm) :
    MessageClientInfo.to_bytes mm = x.take (MessageClientInfo.to_bytes mm).length := by
  rw [MessageClientInfo.from_bytes] at h
  split at h
  · cases h
  case isFalse hlen =>
    simp only [MessageClientInfo.CODE, List.length_cons, List.length_nil] at h hlen
    norm_num at h hlen
    rw [read_u16, if_neg (by omega)] at h
    simp only [ebind_ok] at h
    rw [read_u16, if_neg (by omega)] at h
    simp only [ebind_ok] at h
    rw [read_u16, if_neg (by omega)] at h
    simp only [ebind_ok] at h
    rw [read_u16, if_neg (by omega)] at h
    simp only [ebind_ok] at h
    rw [read_u16, if_neg (by omega)] at h
    simp only [ebind_ok] at h
    rw [read_u16, if_neg (by omega)] at h
    simp only [ebind_ok] at h
    rw [read_u16, if_neg (by omega)] at h
    simp only [ebind_ok] at h
    cases h
    simp only [MessageClientInfo.to_bytes]
    rw [u16be_of_val x 4 (by omega) hw, u16be_of_val x 6 (by omega) hw, u16be_of_val x 8 (by omega) hw, u16be_of_val x 10 (by omega) hw, u16be_of_val x 12 (by omega) hw, u16be_of_val x 14 (by omega) hw, u16be_of_val x 16 (by omega) hw]
    have hlen2 : (MessageClientInfo.CODE ++ seg x 4 2 ++ seg x 6 2 ++ seg x 8 2 ++ seg x 10 2 ++ seg x 12 2 ++ seg x 14 2 ++ seg x 16 2).length = 4 + (2 + (2 + (2 + (2 + (2 + (2 + (2))))))) := by
      simp [MessageClientInfo.CODE, seg]
      try omega
    rw [hlen2]
    have hdec : x.take (4 + (2 + (2 + (2 + (2 + (2 + (2 + (2)))))))) = x.take 4 ++ (seg x 4 2 ++ (seg x 6 2 ++ (seg x 8 2 ++ (seg x 10 2 ++ (seg x 12 2 ++ (seg x 14 2 ++ (seg x 16 2))))))) := by
      rw [take_add_seg x 4 (2 + (2 + (2 + (2 + (2 + (2 + (2))))))), seg_append, seg_append, seg_append, seg_append, seg_append, seg_append]
      try norm_num
    rw [hdec, hc]
    try simp [List.append_assoc]

theorem reenc_incompatibleVersion (x : Bytes) (mm : MessageIncompatibleVersion) (hw : ∀ b ∈ x, b < 256)
    (hc : x.take 4 = MessageIncompatibleVersion.CODE) (h : MessageIncompatibleVersion.from_bytes x = .ok mm) :
    MessageIncompatibleVersion.to_bytes mm = x.take (MessageIncompatibleVersion.to_bytes mm).length := by
  rw [MessageIncompatibleVersion.from_bytes] at h
  split at h
  · cases h
  case isFalse hlen =>
    simp only [MessageIncompatibleVersion.CODE, List.length_cons, List.length_nil] at h hlen
    norm_num at h hlen
    rw [read_u16, if_neg (by omega)] at h
    simp only [ebind_ok] at h
    rw [read_u16, if_neg (by omega)] at h
    simp only [ebind_ok] at h
    cases h
    simp only [MessageIncompatibleVersion.to_bytes]
    rw [u16be_of_val x 4 (by omega) hw, u16be_of_val x 6 (by omega) hw]
    have hlen2 : (MessageIncompatibleVersion.CODE ++ seg x 4 2 ++ seg x 6 2).length = 4 + (2 + (2)) := by
      simp [MessageIncompatibleVersion.CODE, seg]
      try omega
    rw [hlen2]
    have hdec : x.take (4 + (2 + (2))) = x.take 4 ++ (seg x 4 2 ++ (seg x 6 2)) := by
      rw [take_add_seg x 4 (2 + (2)), seg_append]
      try norm_num
    rw [hdec, hc]
    try simp [List.append_assoc]

theorem reenc_keyDownWithLanguage (x : Bytes) (mm : MessageKeyDownWithLanguage) (hw : ∀ b ∈ x, b < 256)
    (hc : x.take 4 = MessageKeyDownWithLanguage.CODE) (h : MessageKeyDownWithLanguage.from_bytes x = .ok mm) :
    MessageKeyDownWithLanguage.to_bytes mm = x.take (MessageKeyDownWithLanguage.to_bytes mm).length := by
  rw [MessageKeyDownWithLanguage.from_bytes] at h
  split at h
  · cases h
  case isFalse hlen =>
    simp only [MessageKeyDownWithLanguage.CODE, List.length_cons, List.length_nil] at h hlen
    norm_num at h hlen
    cases hlp : lps_from_bytes x 10 with
    | error e =>
      rw [hlp, ebind_err] at h
      cases h
    | ok p =>
      obtain ⟨s, c⟩ := p
      rw [hlp, ebind_ok] at h
      rw [read_u16, if_neg (by omega)] at h
      simp only [ebind_ok] at h
      rw [read_u16, if_neg (by omega)] at h
      simp only [ebind_ok] at h
      rw [read_u16, if_neg (by omega)] at h
      simp only [ebind_ok] at h
      cases h
      obtain ⟨hre, hclen, hble⟩ := lps_reencode x 10 s c hw hlp
      simp only [MessageKeyDownWithLanguage.to_bytes]
      rw [u16be_of_val x 4 (by omega) hw, u16be_of_val x 6 (by omega) hw, u16be_of_val x 8 (by omega) hw, hre]
      have hlen2 : (MessageKeyDownWithLanguage.CODE ++ seg x 4 2 ++ seg x 6 2 ++ seg x 8 2 ++ seg x 10 (4 + s.length)).length = 4 + (2 + (2 + (2 + ((4 + s.length))))) := by
        simp [MessageKeyDownWithLanguage.CODE, seg]
        try omega
      rw [hlen2]
      have hdec : x.take (4 + (2 + (2 + (2 + ((4 + s.length)))))) = x.take 4 ++ (seg x 4 2 ++ (seg x 6 2 ++ (seg x 8 2 ++ (seg x 10 (4 + s.length))))) := by
        rw [take_add_seg x 4 (2 + (2 + (2 + ((4 + s.length))))), seg_append, seg_append, seg_append]
        try norm_num
      rw [hdec, hc]
      try simp [List.append_assoc]

theorem reenc_keyRepeat (x : Bytes) (mm : MessageKeyRepeat) (hw : ∀ b ∈ x, b < 256)
    (hc : x.take 4 = MessageKeyRepeat.CODE) (h : MessageKeyRepeat.from_bytes x = .ok mm) :
    MessageKeyRepeat.to_bytes mm = x.take (MessageKeyRepeat.to_bytes mm).length := by
  rw [MessageKeyRepeat.from_bytes] at h
  split at h
  · cases h
  case isFalse hlen =>
    simp only [MessageKeyRepeat.CODE, List.length_cons, List.length_nil] at h hlen
    norm_num at h hlen
    cases hlp : lps_from_bytes x 12 with
    | error e =>
      rw [hlp, ebind_err] at h
      cases h
    | ok p =>
      obtain ⟨s, c⟩ := p
      rw [hlp, ebind_ok] at h
      rw [read_u16, if_neg (by omega)] at h
      simp only [ebind_ok] at h
      rw [read_u16, if_neg (by omega)] at h
      simp only [ebind_ok] at h
      rw [read_u16, if_neg (by omega)] at h
      simp only [ebind_ok] at h
      rw [read_u16, if_neg (by omega)] at h
      simp only [ebind_ok] at h
      cases h
      obtain ⟨hre, hclen, hble⟩ := lps_reencode x 12 s c hw hlp
      simp only [MessageKeyRepeat.to_bytes]
      rw [u16be_of_val x 4 (by omega) hw, u16be_of_val x 6 (by omega) hw, u16be_of_val x 8 (by omega) hw, u16be_of_val x 10 (by omega) hw, hre]
      have hlen2 : (MessageKeyRepeat.CODE ++ seg x 4 2 ++ seg x 6 2 ++ seg x 8 2 ++ seg x 10 2 ++ seg x 12 (4 + s.length)).length = 4 + (2 + (2 + (2 + (2 + ((4 + s.length)))))) := by
        simp [MessageKeyRepeat.CODE, seg]
        try omega
      rw [hlen2]
      have hdec : x.take (4 + (2 + (2 + (2 + (2 + ((4 + s.length))))))) = x.take 4 ++ (seg x 4 2 ++ (seg x 6 2 ++ (seg x 8 2 ++ (seg x 10 2 ++ (seg x 12 (4 + s.length)))))) := by
        rw [take_add_seg x 4 (2 + (2 + (2 + (2 + ((4 + s.length)))))), seg_append, seg_append, seg_append, seg_append]
        try norm_num
      rw [hdec, hc]
      try simp [List.append_assoc]

theorem reenc_clipboardData (x : Bytes) (mm : MessageClipboardData) (hw : ∀ b ∈ x, b < 256)
    (hc : x.take 4 = MessageClipboardData.CODE) (h : MessageClipboardData.from_bytes x = .ok mm) :
    MessageClipboardData.to_bytes mm = x.take (MessageClipboardData.to_bytes mm).length := by
  rw [MessageClipboardData.from_bytes] at h
  split at h
  · cases h
  case isFalse hlen =>
    simp only [MessageClipboardData.CODE, List.length_cons, List.length_nil] at h hlen
    norm_num at h hlen
    cases hlp : lps_from_bytes x 10 with
    | error e =>
      rw [hlp, ebind_err] at h
      cases h
    | ok p =>
      obtain ⟨s, c⟩ := p
      rw [hlp, ebind_ok] at h
      rw [read_u8, if_neg (by omega)] at h
      simp only [ebind_ok] at h
      rw [read_u32, if_neg (by omega)] at h
      simp only [ebind_ok] at h
      rw [read_u8, if_neg (by omega)] at h
      simp only [ebind_ok] at h
      cases h
      obtain ⟨hre, hclen, hble⟩ := lps_reencode x 10 s c hw hlp
      simp only [MessageClipboardData.to_bytes]
      rw [byte_seg_of_val x 4 (by omega) hw, u32be_of_val x 5 (by omega) hw, byte_seg_of_val x 9 (by omega) hw, hre]
      have hlen2 : (MessageClipboardData.CODE ++ seg x 4 1 ++ seg x 5 4 ++ seg x 9 1 ++ seg x 10 (4 + s.length)).length = 4 + (1 + (4 + (1 + ((4 + s.length))))) := by
        simp [MessageClipboardData.CODE, seg]
        try omega
      rw [hlen2]
      have hdec : x.take (4 + (1 + (4 + (1 + ((4 + s.length)))))) = x.take 4 ++ (seg x 4 1 ++ (seg x 5 4 ++ (seg x 9 1 ++ (seg x 10 (4 + s.length))))) := by
        rw [take_add_seg x 4 (1 + (4 + (1 + ((4 + s.length))))), seg_append, seg_append, seg_append]
        try norm_num
      rw [hdec, hc]
      try simp [List.append_assoc]

theorem reenc_fileTransfer (x : Bytes) (mm : MessageFileTransfer) (hw : ∀ b ∈ x, b < 256)
    (hc : x.take 4 = MessageFileTransfer.CODE) (h : MessageFileTransfer.from_bytes x = .ok mm) :
    MessageFileTransfer.to_bytes mm = x.take (MessageFileTransfer.to_bytes mm).length := by
  rw [MessageFileTransfer.from_bytes] at h
  split at h
  · cases h
  case isFalse hlen =>
    simp only [MessageFileTransfer.CODE, List.length_cons, List.length_nil] at h hlen
    norm_num at h hlen
    cases hlp : lps_from_bytes x 5 with
    | error e =>
      rw [hlp, ebind_err] at h
      cases h
    | ok p =>
      obtain ⟨s, c⟩ := p
      rw [hlp, ebind_ok] at h
      rw [read_u8, if_neg (by omega)] at h
      simp only [ebind_ok] at h
      cases h
      obtain ⟨hre, hclen, hble⟩ := lps_reencode x 5 s c hw hlp
      simp only [MessageFileTransfer.to_bytes]
      rw [byte_seg_of_val x 4 (by omega) hw, hre]
      have hlen2 : (MessageFileTransfer.CODE ++ seg x 4 1 ++ seg x 5 (4 + s.length)).length = 4 + (1 + ((4 + s.length))) := by
        simp [MessageFileTransfer.CODE, seg]
        try omega
      rw [hlen2]
      have hdec : x.take (4 + (1 + ((4 + s.length)))) = x.take 4 ++ (seg x 4 1 ++ (seg x 5 (4 + s.length))) := by
        rw [take_add_seg x 4 (1 + ((4 + s.length))), seg_append]
        try norm_num
      rw [hdec, hc]
      try simp [List.append_assoc]

theorem reenc_dragInfo (x : Bytes) (mm : MessageDragInfo) (hw : ∀ b ∈ x, b < 256)
    (hc : x.take 4 = MessageDragInfo.CODE) (h : MessageDragInfo.from_bytes x = .ok mm) :
    MessageDragInfo.to_bytes mm = x.take (MessageDragInfo.to_bytes mm).length := by
  rw [MessageDragInfo.from_bytes] at h
  split at h
  · cases h
  case isFalse hlen =>
    simp only [MessageDragInfo.CODE, List.length_cons, List.length_nil] at h hlen
    norm_num at h hlen
    cases hlp : lps_from_bytes x 6 with
    | error e =>
      rw [hlp, ebind_err] at h
      cases h
    | ok p =>
      obtain ⟨s, c⟩ := p
      rw [hlp, ebind_ok] at h
      rw [read_u16, if_neg (by omega)] at h
      simp only [ebind_ok] at h
      cases h
      obtain ⟨hre, hclen, hble⟩ := lps_reencode x 6 s c hw hlp
      simp only [MessageDragInfo.to_bytes]
      rw [u16be_of_val x 4 (by omega) hw, hre]
      have hlen2 : (MessageDragInfo.CODE ++ seg x 4 2 ++ seg x 6 (4 + s.length)).length = 4 + (2 + ((4 + s.length))) := by
        simp [MessageDragInfo.CODE, seg]
        try omega
      rw [hlen2]
      have hdec : x.take (4 + (2 + ((4 + s.length)))) = x.take 4 ++ (seg x 4 2 ++ (seg x 6 (4 + s.length))) := by
        rw [take_add_seg x 4 (2 + ((4 + s.length))), seg_append]
        try norm_num
      rw [hdec, hc]
      try simp [List.append_assoc]

theorem reenc_secureEncryption (x : Bytes) (mm : MessageSecureEncryption) (hw : ∀ b ∈ x, b < 256)
    (hc : x.take 4 = MessageSecureEncryption.CODE) (h : MessageSecureEncryption.from_bytes x = .ok mm) :
    MessageSecureEncryption.to_bytes mm = x.take (MessageSecureEncryption.to_bytes mm).length := by
  rw [MessageSecureEncryption.from_bytes] at h
  simp only [MessageSecureEncryption.CODE, List.length_cons, List.length_nil] at h
  norm_num at h
  cases hlp : lps_from_bytes x 4 with
  | error e =>
    rw [hlp, ebind_err] at h
    cases h
  | ok p =>
    obtain ⟨s, c⟩ := p
    rw [hlp, ebind_ok] at h
    cases h
    obtain ⟨hre, hclen, hble⟩ := lps_reencode x 4 s c hw hlp
    simp only [MessageSecureEncryption.to_bytes]
    rw [hre]
    have hlen2 : (MessageSecureEncryption.CODE ++ seg x 4 (4 + s.length)).length = 4 + (4 + s.length) := by
      simp [MessageSecureEncryption.CODE, seg]
      try omega
    rw [hlen2]
    rw [take_add_seg x 4 (4 + s.length), hc]

theorem reenc_legacySynergy (x : Bytes) (mm : MessageLegacySynergy) (hw : ∀ b ∈ x, b < 256)
    (hc : x.take 4 = MessageLegacySynergy.CODE) (h : MessageLegacySynergy.from_bytes x = .ok mm) :
    MessageLegacySynergy.to_bytes mm = x.take (MessageLegacySynergy.to_bytes mm).length := by
  rw [MessageLegacySynergy.from_bytes] at h
  simp only [MessageLegacySynergy.CODE, List.length_cons, List.length_nil] at h
  norm_num at h
  cases hlp : lps_from_bytes x 4 with
  | error e =>
    rw [hlp, ebind_err] at h
    cases h
  | ok p =>
    obtain ⟨s, c⟩ := p
    rw [hlp, ebind_ok] at h
    cases h
    obtain ⟨hre, hclen, hble⟩ := lps_reencode x 4 s c hw hlp
    simp only [MessageLegacySynergy.to_bytes]
    rw [hre]
    have hlen2 : (MessageLegacySynergy.CODE ++ seg x 4 (4 + s.length)).length = 4 + (4 + s.length) := by
      simp [MessageLegacySynergy.CODE, seg]
      try omega
    rw [hlen2]
    rw [take_add_seg x 4 (4 + s.length), hc]

theorem reenc_setOptions (x : Bytes) (mm : MessageSetOptions)
    (hw : ∀ b ∈ x, b < 256) (hc : x.take 4 = MessageSetOptions.CODE)
    (h : MessageSetOptions.from_bytes x = .ok mm) :
    MessageSetOptions.to_bytes mm = x.take (MessageSetOptions.to_bytes mm).length := by
  rw [MessageSetOptions.from_bytes] at h
  split at h
  · cases h
  case isFalse hlen =>
    simp only [MessageSetOptions.CODE, List.length_cons, List.length_nil] at h hlen
    norm_num at h hlen
    rw [read_u32, if_neg (by omega)] at h
    simp only [ebind_ok] at h
    split at h
    · cases h
    case isFalse h1 =>
      split at h
      · cases h
      case isFalse h2 =>
        split at h
        · cases h
        case isFalse h3 =>
          cases hps : read_pairs x 8 ((u32val x 4 - 1) / 2) with
          | error e =>
            rw [hps, ebind_err] at h
            cases h
          | ok ps =>
            rw [hps, ebind_ok] at h
            cases h
            obtain ⟨hp1, hp2⟩ := pairs_reencode x hw ((u32val x 4 - 1) / 2) 8 ps hps
            simp only [MessageSetOptions.to_bytes]
            have hcount : 1 + ps.length * 2 = u32val x 4 := by
              rw [hp2]
              omega
            rw [hcount, hp1, u32be_of_val x 4 (by omega) hw]
            have hlen2 :
                (MessageSetOptions.CODE ++ seg x 4 4 ++
                  seg x 8 ((u32val x 4 - 1) / 2 * 8)).length =
                4 + (4 + (u32val x 4 - 1) / 2 * 8) := by
              simp [MessageSetOptions.CODE, seg]
              try omega
            rw [hlen2]
            have hdec : x.take (4 + (4 + (u32val x 4 - 1) / 2 * 8)) =
                x.take 4 ++ (seg x 4 4 ++ seg x 8 ((u32val x 4 - 1) / 2 * 8)) := by
              rw [take_add_seg x 4 (4 + (u32val x 4 - 1) / 2 * 8), seg_append]
              try norm_num
            rw [hdec, hc]
            try simp [List.append_assoc]

theorem reenc_helloBarrier (x : Bytes) (mm : MessageHelloBarrier) (hw : ∀ b ∈ x, b < 256)
    (hc : x.take 7 = MessageHelloBarrier.CODE) (h : MessageHelloBarrier.from_bytes x = .ok mm) :
    MessageHelloBarrier.to_bytes mm = x.take (MessageHelloBarrier.to_bytes mm).length := by
  rw [MessageHelloBarrier.from_bytes] at h
  split at h
  · cases h
  case isFalse hlen =>
    simp only [MessageHelloBarrier.CODE, List.length_cons, List.length_nil] at h hlen
    norm_num at h hlen
    rw [read_u16, if_neg (by omega)] at h
    simp only [ebind_ok] at h
    rw [read_u16, if_neg (by omega)] at h
    simp only [ebind_ok] at h
    split at h
    case isTrue h11 =>
      split at h
      · cases h
      case isFalse h15 =>
        rw [read_u32, if_neg (by omega)] at h
        simp only [ebind_ok] at h
        split at h
        · cases h
        case isFalse hnl =>
          split at h
          case isTrue hutf =>
            cases h
            simp only [MessageHelloBarrier.to_bytes]
            have hnlen : (List.take (u32val x 11) (x.drop 15)).length = u32val x 11 := by
              rw [List.length_take, List.length_drop]
              omega
            rw [hnlen]
            rw [u16be_of_val x 7 (by omega) hw, u16be_of_val x 9 (by omega) hw,
              u32be_of_val x 11 (by omega) hw]
            have hlen2 : (MessageHelloBarrier.CODE ++ seg x 7 2 ++ seg x 9 2 ++
                (seg x 11 4 ++ List.take (u32val x 11) (x.drop 15))).length =
                7 + (2 + (2 + (4 + u32val x 11))) := by
              simp [MessageHelloBarrier.CODE, seg]
              try omega
            rw [hlen2]
            have hdec : x.take (7 + (2 + (2 + (4 + u32val x 11)))) =
                x.take 7 ++ (seg x 7 2 ++ (seg x 9 2 ++
                  (seg x 11 4 ++ seg x 15 (u32val x 11)))) := by
              rw [take_add_seg x 7 (2 + (2 + (4 + u32val x 11))), seg_append, seg_append,
                seg_append]
              try norm_num
            rw [hdec, hc]
            try simp [List.append_assoc, seg]
          · cases h
    case isFalse h11 =>
      cases h
      simp only [MessageHelloBarrier.to_bytes, List.append_nil]
      rw [u16be_of_val x 7 (by omega) hw, u16be_of_val x 9 (by omega) hw]
      have hlen2 : (MessageHelloBarrier.CODE ++ seg x 7 2 ++ seg x 9 2).length = 7 + (2 + 2) := by
        simp [MessageHelloBarrier.CODE, seg]
        try omega
      rw [hlen2]
      have hdec : x.take (7 + (2 + 2)) = x.take 7 ++ (seg x 7 2 ++ seg x 9 2) := by
        rw [take_add_seg x 7 (2 + 2), seg_append]
        try norm_num
      rw [hdec, hc]
      try simp [List.append_assoc]

theorem reenc_helloSynergy (x : Bytes) (mm : MessageHelloSynergy) (hw : ∀ b ∈ x, b < 256)
    (hc : x.take 7 = MessageHelloSynergy.CODE) (h : MessageHelloSynergy.from_bytes x = .ok mm) :
    MessageHelloSynergy.to_bytes mm = x.take (MessageHelloSynergy.to_bytes mm).length := by
  rw [MessageHelloSynergy.from_bytes] at h
  split at h
  · cases h
  case isFalse hlen =>
    simp only [MessageHelloSynergy.CODE, List.length_cons, List.length_nil] at h hlen
    norm_num at h hlen
    rw [read_u16, if_neg (by omega)] at h
    simp only [ebind_ok] at h
    rw [read_u16, if_neg (by omega)] at h
    simp only [ebind_ok] at h
    split at h
    case isTrue h11 =>
      split at h
      · cases h
      case isFalse h15 =>
        rw [read_u32, if_neg (by omega)] at h
        simp only [ebind_ok] at h
        split at h
        · cases h
        case isFalse hnl =>
          split at h
          case isTrue hutf =>
            cases h
            simp only [MessageHelloSynergy.to_bytes]
            have hnlen : (List.take (u32val x 11) (x.drop 15)).length = u32val x 11 := by
              rw [List.length_take, List.length_drop]
              omega
            rw [hnlen]
            rw [u16be_of_val x 7 (by omega) hw, u16be_of_val x 9 (by omega) hw,
              u32be_of_val x 11 (by omega) hw]
            have hlen2 : (MessageHelloSynergy.CODE ++ seg x 7 2 ++ seg x 9 2 ++
                (seg x 11 4 ++ List.take (u32val x 11) (x.drop 15))).length =
                7 + (2 + (2 + (4 + u32val x 11))) := by
              simp [MessageHelloSynergy.CODE, seg]
              try omega
            rw [hlen2]
            have hdec : x.take (7 + (2 + (2 + (4 + u32val x 11)))) =
                x.take 7 ++ (seg x 7 2 ++ (seg x 9 2 ++
                  (seg x 11 4 ++ seg x 15 (u32val x 11)))) := by
              rw [take_add_seg x 7 (2 + (2 + (4 + u32val x 11))), seg_append, seg_append,
                seg_append]
              try norm_num
            rw [hdec, hc]
            try simp [List.append_assoc, seg]
          · cases h
    case isFalse h11 =>
      cases h
      simp only [MessageHelloSynergy.to_bytes, List.append_nil]
      rw [u16be_of_val x 7 (by omega) hw, u16be_of_val x 9 (by omega) hw]
      have hlen2 : (MessageHelloSynergy.CODE ++ seg x 7 2 ++ seg x 9 2).length = 7 + (2 + 2) := by
        simp [MessageHelloSynergy.CODE, seg]
        try omega
      rw [hlen2]
      have hdec : x.take (7 + (2 + 2)) = x.take 7 ++ (seg x 7 2 ++ seg x 9 2) := by
        rw [take_add_seg x 7 (2 + 2), seg_append]
        try norm_num
      rw [hdec, hc]
      try simp [List.append_assoc]

/-- C4 (amended): on every payload on which `parse_message` succeeds,
re-encoding the decoded message reproduces exactly the consumed prefix of the
input: the re-encoded payload is a prefix of the input, and it equals the
input whenever the input carries no trailing bytes beyond that prefix.  The
original unconditional `encode (decode x) = x` is refuted at
`c4_counterexample` by a payload with trailing bytes, which `parse_message`
accepts but whose re-encoding drops the excess. -/
theorem c4_reencode (x : Bytes) (m : Message) (hw : ∀ b ∈ x, b < 256)
    (h : parse_message x = .ok m) :
    Message.payload_bytes m = x.take (Message.payload_bytes m).length ∧
    ((Message.payload_bytes m).length = x.length → Message.payload_bytes m = x) := by
  have h4 : 4 ≤ x.length := by
    by_contra hlt
    rw [parse_message, if_pos (by omega)] at h
    cases h
  by_cases hcode0 : x.take 4 = MessageNoOp.CODE
  · rw [parse_dispatch_noOp x h4 hcode0] at h
    cases hfb : MessageNoOp.from_bytes x with
    | error e =>
      rw [hfb, emap_err] at h
      cases h
    | ok mm =>
      rw [hfb, emap_ok] at h
      cases h
      have hA := reenc_noOp x mm hw hcode0 hfb
      simp only [Message.payload_bytes]
      exact ⟨hA, fun he => by rw [hA, he, List.take_length]⟩
  by_cases hcode1 : x.take 4 = MessageClose.CODE
  · rw [parse_dispatch_close x h4 hcode1] at h
    cases hfb : MessageClose.from_bytes x with
    | error e =>
      rw [hfb, emap_err] at h
      cases h
    | ok mm =>
      rw [hfb, emap_ok] at h
      cases h
      have hA := reenc_close x mm hw hcode1 hfb
      simp only [Message.payload_bytes]
      exact ⟨hA, fun he => by rw [hA, he, List.take_length]⟩
  by_cases hcode2 : x.take 4 = MessageCursorEntered.CODE
  · rw [parse_dispatch_cursorEntered x h4 hcode2] at h
    cases hfb : MessageCursorEntered.from_bytes x with
    | error e =>
      rw [hfb, emap_err] at h
      cases h
    | ok mm =>
      rw [hfb, emap_ok] at h
      cases h
      have hA := reenc_cursorEntered x mm hw hcode2 hfb
      simp only [Message.payload_bytes]
      exact ⟨hA, fun he => by rw [hA, he, List.take_length]⟩
  by_cases hcode3 : x.take 4 = MessageCursorLeft.CODE
  · rw [parse_dispatch_cursorLeft x h4 hcode3] at h
    cases hfb : MessageCursorLeft.from_bytes x with
    | error e =>
      rw [hfb, emap_err] at h
      cases h
    | ok mm =>
      rw [hfb, emap_ok] at h
      cases h
      have hA := reenc_cursorLeft x mm hw hcode3 hfb
      simp only [Message.payload_bytes]
      exact ⟨hA, fun he => by rw [hA, he, List.take_length]⟩
  by_cases hcode4 : x.take 4 = MessageClientClipboard.CODE
  · rw [parse_dispatch_clientClipboard x h4 hcode4] at h
    cases hfb : MessageClientClipboard.from_bytes x with
    | error e =>
      rw [hfb, emap_err] at h
      cases h
    | ok mm =>
      rw [hfb, emap_ok] at h
      cases h
      have hA := reenc_clientClipboard x mm hw hcode4 hfb
      simp only [Message.payload_bytes]
      exact ⟨hA, fun he => by rw [hA, he, List.take_length]⟩
  by_cases hcode5 : x.take 4 = MessageScreenSaverChange.CODE
  · rw [parse_dispatch_screenSaverChange x h4 hcode5] at h
    cases hfb : MessageScreenSaverChange.from_bytes x with
    | error e =>
      rw [hfb, emap_err] at h
      cases h
    | ok mm =>
      rw [hfb, emap_ok] at h
      cases h
      have hA := reenc_screenSaverChange x mm hw hcode5 hfb
      simp only [Message.payload_bytes]
      exact ⟨hA, fun he => by rw [hA, he, List.take_length]⟩
  by_cases hcode6 : x.take 4 = MessageResetOptions.CODE
  · rw [parse_dispatch_resetOptions x h4 hcode6] at h
    cases hfb : MessageResetOptions.from_bytes x with
    | error e =>
      rw [hfb, emap_err] at h
      cases h
    | ok mm =>
      rw [hfb, emap_ok] at h
      cases h
      have hA := reenc_resetOptions x mm hw hcode6 hfb
      simp only [Message.payload_bytes]
      exact ⟨hA, fun he => by rw [hA, he, List.take_length]⟩
  by_cases hcode7 : x.take 4 = MessageInfoAcknowledgment.CODE
  · rw [parse_dispatch_infoAcknowledgment x h4 hcode7] at h
    cases hfb : MessageInfoAcknowledgment.from_bytes x with
    | error e =>
      rw [hfb, emap_err] at h
      cases h
    | ok mm =>
      rw [hfb, emap_ok] at h
      cases h
      have hA := reenc_infoAcknowledgment x mm hw hcode7 hfb
      simp only [Message.payload_bytes]
      exact ⟨hA, fun he => by rw [hA, he, List.take_length]⟩
  by_cases hcode8 : x.take 4 = MessageKeepAlive.CODE
  · rw [parse_dispatch_keepAlive x h4 hcode8] at h
    cases hfb : MessageKeepAlive.from_bytes x with
    | error e =>
      rw [hfb, emap_err] at h
      cases h
    | ok mm =>
      rw [hfb, emap_ok] at h
      cases h
      have hA := reenc_keepAlive x mm hw hcode8 hfb
      simp only [Message.payload_bytes]
      exact ⟨hA, fun he => by rw [hA, he, List.take_length]⟩
  by_cases hcode9 : x.take 4 = MessageKeyDownWithLanguage.CODE
  · rw [parse_dispatch_keyDownWithLanguage x h4 hcode9] at h
    cases hfb : MessageKeyDownWithLanguage.from_bytes x with
    | error e =>
      rw [hfb, emap_err] at h
      cases h
    | ok mm =>
      rw [hfb, emap_ok] at h
      cases h
      have hA := reenc_keyDownWithLanguage x mm hw hcode9 hfb
      simp only [Message.payload_bytes]
      exact ⟨hA, fun he => by rw [hA, he, List.take_length]⟩
  by_cases hcode10 : x.take 4 = MessageKeyDown.CODE
  · rw [parse_dispatch_keyDown x h4 hcode10] at h
    cases hfb : MessageKeyDown.from_bytes x with
    | error e =>
      rw [hfb, emap_err] at h
      cases h
    | ok mm =>
      rw [hfb, emap_ok] at h
      cases h
      have hA := reenc_keyDown x mm hw hcode10 hfb
      simp only [Message.payload_bytes]
      exact ⟨hA, fun he => by rw [hA, he, List.take_length]⟩
  by_cases hcode11 : x.take 4 = MessageKeyRepeat.CODE
  · rw [parse_dispatch_keyRepeat x h4 hcode11] at h
    cases hfb : MessageKeyRepeat.from_bytes x with
    | error e =>
      rw [hfb, emap_err] at h
      cases h
    | ok mm =>
      rw [hfb, emap_ok] at h
      cases h
      have hA := reenc_keyRepeat x mm hw hcode11 hfb
      simp only [Message.payload_bytes]
      exact ⟨hA, fun he => by rw [hA, he, List.take_length]⟩
  by_cases hcode12 : x.take 4 = MessageKeyUp.CODE
  · rw [parse_dispatch_keyUp x h4 hcode12] at h
    cases hfb : MessageKeyUp.from_bytes x with
    | error e =>
      rw [hfb, emap_err] at h
      cases h
    | ok mm =>
      rw [hfb, emap_ok] at h
      cases h
      have hA := reenc_keyUp x mm hw hcode12 hfb
      simp only [Message.payload_bytes]
      exact ⟨hA, fun he => by rw [hA, he, List.take_length]⟩
  by_cases hcode13 : x.take 4 = MessageMouseButtonDown.CODE
  · rw [parse_dispatch_mouseButtonDown x h4 hcode13] at h
    cases hfb : MessageMouseButtonDown.from_bytes x with
    | error e =>
      rw [hfb, emap_err] at h
      cases h
    | ok mm =>
      rw [hfb, emap_ok] at h
      cases h
      have hA := reenc_mouseButtonDown x mm hw hcode13 hfb
      simp only [Message.payload_bytes]
      exact ⟨hA, fun he => by rw [hA, he, List.take_length]⟩
  by_cases hcode14 : x.take 4 = MessageMouseButtonUp.CODE
  · rw [parse_dispatch_mouseButtonUp x h4 hcode14] at h
    cases hfb : MessageMouseButtonUp.from_bytes x with
    | error e =>
      rw [hfb, emap_err] at h
      cases h
    | ok mm =>
      rw [hfb, emap_ok] at h
      cases h
      have hA := reenc_mouseButtonUp x mm hw hcode14 hfb
      simp only [Message.payload_bytes]
      exact ⟨hA, fun he => by rw [hA, he, List.take_length]⟩
  by_cases hcode15 : x.take 4 = MessageMouseMove.CODE
  · rw [parse_dispatch_mouseMove x h4 hcode15] at h
    cases hfb : MessageMouseMove.from_bytes x with
    | error e =>
      rw [hfb, emap_err] at h
      cases h
    | ok mm =>
      rw [hfb, emap_ok] at h
      cases h
      have hA := reenc_mouseMove x mm hw hcode15 hfb
      simp only [Message.payload_bytes]
      exact ⟨hA, fun he => by rw [hA, he, List.take_length]⟩
  by_cases hcode16 : x.take 4 = MessageMouseRelativeMove.CODE
  · rw [parse_dispatch_mouseRelativeMove x h4 hcode16] at h
    cases hfb : MessageMouseRelativeMove.from_bytes x with
    | error e =>
      rw [hfb, emap_err] at h
      cases h
    | ok mm =>
      rw [hfb, emap_ok] at h
      cases h
      have hA := reenc_mouseRelativeMove x mm hw hcode16 hfb
      simp only [Message.payload_bytes]
      exact ⟨hA, fun he => by rw [hA, he, List.take_length]⟩
  by_cases hcode17 : x.take 4 = MessageMouseWheel.CODE
  · rw [parse_dispatch_mouseWheel x h4 hcode17] at h
    cases hfb : MessageMouseWheel.from_bytes x with
    | error e =>
      rw [hfb, emap_err] at h
      cases h
    | ok mm =>
      rw [hfb, emap_ok] at h
      cases h
      have hA := reenc_mouseWheel x mm hw hcode17 hfb
      simp only [Message.payload_bytes]
      exact ⟨hA, fun he => by rw [hA, he, List.take_length]⟩
  by_cases hcode18 : x.take 4 = MessageClipboardData.CODE
  · rw [parse_dispatch_clipboardData x h4 hcode18] at h
    cases hfb : MessageClipboardData.from_bytes x with
    | error e =>
      rw [hfb, emap_err] at h
      cases h
    | ok mm =>
      rw [hfb, emap_ok] at h
      cases h
      have hA := reenc_clipboardData x mm hw hcode18 hfb
      simp only [Message.payload_bytes]
      exact ⟨hA, fun he => by rw [hA, he, List.take_length]⟩
  by_cases hcode19 : x.take 4 = MessageClientInfo.CODE
  · rw [parse_dispatch_clientInfo x h4 hcode19] at h
    cases hfb : MessageClientInfo.from_bytes x with
    | error e =>
      rw [hfb, emap_err] at h
      cases h
    | ok mm =>
      rw [hfb, emap_ok] at h
      cases h
      have hA := reenc_clientInfo x mm hw hcode19 hfb
      simp only [Message.payload_bytes]
      exact ⟨hA, fun he => by rw [hA, he, List.take_length]⟩
  by_cases hcode20 : x.take 4 = MessageSetOptions.CODE
  · rw [parse_dispatch_setOptions x h4 hcode20] at h
    cases hfb : MessageSetOptions.from_bytes x with
    | error e =>
      rw [hfb, emap_err] at h
      cases h
    | ok mm =>
      rw [hfb, emap_ok] at h
      cases h
      have hA := reenc_setOptions x mm hw hcode20 hfb
      simp only [Message.payload_bytes]
      exact ⟨hA, fun he => by rw [hA, he, List.take_length]⟩
  by_cases hcode21 : x.take 4 = MessageFileTransfer.CODE
  · rw [parse_dispatch_fileTransfer x h4 hcode21] at h
    cases hfb : MessageFileTransfer.from_bytes x with
    | error e =>
      rw [hfb, emap_err] at h
      cases h
    | ok mm =>
      rw [hfb, emap_ok] at h
      cases h
      have hA := reenc_fileTransfer x mm hw hcode21 hfb
      simp only [Message.payload_bytes]
      exact ⟨hA, fun he => by rw [hA, he, List.take_length]⟩
  by_cases hcode22 : x.take 4 = MessageDragInfo.CODE
  · rw [parse_dispatch_dragInfo x h4 hcode22] at h
    cases hfb : MessageDragInfo.from_bytes x with
    | error e =>
      rw [hfb, emap_err] at h
      cases h
    | ok mm =>
      rw [hfb, emap_ok] at h
      cases h
      have hA := reenc_dragInfo x mm hw hcode22 hfb
      simp only [Message.payload_bytes]
      exact ⟨hA, fun he => by rw [hA, he, List.take_length]⟩
  by_cases hcode23 : x.take 4 = MessageSecureEncryption.CODE
  · rw [parse_dispatch_secureEncryption x h4 hcode23] at h
    cases hfb : MessageSecureEncryption.from_bytes x with
    | error e =>
      rw [hfb, emap_err] at h
      cases h
    | ok mm =>
      rw [hfb, emap_ok] at h
      cases h
      have hA := reenc_secureEncryption x mm hw hcode23 hfb
      simp only [Message.payload_bytes]
      exact ⟨hA, fun he => by rw [hA, he, List.take_length]⟩
  by_cases hcode24 : x.take 4 = MessageLegacySynergy.CODE
  · rw [parse_dispatch_legacySynergy x h4 hcode24] at h
    cases hfb : MessageLegacySynergy.from_bytes x with
    | error e =>
      rw [hfb, emap_err] at h
      cases h
    | ok mm =>
      rw [hfb, emap_ok] at h
      cases h
      have hA := reenc_legacySynergy x mm hw hcode24 hfb
      simp only [Message.payload_bytes]
      exact ⟨hA, fun he => by rw [hA, he, List.take_length]⟩
  by_cases hcode25 : x.take 4 = MessageQueryInfo.CODE
  · rw [parse_dispatch_queryInfo x h4 hcode25] at h
    cases hfb : MessageQueryInfo.from_bytes x with
    | error e =>
      rw [hfb, emap_err] at h
      cases h
    | ok mm =>
      rw [hfb, emap_ok] at h
      cases h
      have hA := reenc_queryInfo x mm hw hcode25 hfb
      simp only [Message.payload_bytes]
      exact ⟨hA, fun he => by rw [hA, he, List.take_length]⟩
  by_cases hcode26 : x.take 4 = MessageIncompatibleVersion.CODE
  · rw [parse_dispatch_incompatibleVersion x h4 hcode26] at h
    cases hfb : MessageIncompatibleVersion.from_bytes x with
    | error e =>
      rw [hfb, emap_err] at h
      cases h
    | ok mm =>
      rw [hfb, emap_ok] at h
      cases h
      have hA := reenc_incompatibleVersion x mm hw hcode26 hfb
      simp only [Message.payload_bytes]
      exact ⟨hA, fun he => by rw [hA, he, List.take_length]⟩
  by_cases hcode27 : x.take 4 = MessageServerBusy.CODE
  · rw [parse_dispatch_serverBusy x h4 hcode27] at h
    cases hfb : MessageServerBusy.from_bytes x with
    | error e =>
      rw [hfb, emap_err] at h
      cases h
    | ok mm =>
      rw [hfb, emap_ok] at h
      cases h
      have hA := reenc_serverBusy x mm hw hcode27 hfb
      simp only [Message.payload_bytes]
      exact ⟨hA, fun he => by rw [hA, he, List.take_length]⟩
  by_cases hcode28 : x.take 4 = MessageUnknownClient.CODE
  · rw [parse_dispatch_unknownClient x h4 hcode28] at h
    cases hfb : MessageUnknownClient.from_bytes x with
    | error e =>
      rw [hfb, emap_err] at h
      cases h
    | ok mm =>
      rw [hfb, emap_ok] at h
      cases h
      have hA := reenc_unknownClient x mm hw hcode28 hfb
      simp only [Message.payload_bytes]
      exact ⟨hA, fun he => by rw [hA, he, List.take_length]⟩
  by_cases hcode29 : x.take 4 = MessageProtocolError.CODE
  · rw [parse_dispatch_protocolErr x h4 hcode29] at h
    cases hfb : MessageProtocolError.from_bytes x with
    | error e =>
      rw [hfb, emap_err] at h
      cases h
    | ok mm =>
      rw [hfb, emap_ok] at h
      cases h
      have hA := reenc_protocolErr x mm hw hcode29 hfb
      simp only [Message.payload_bytes]
      exact ⟨hA, fun he => by rw [hA, he, List.take_length]⟩
  by_cases hcodeB : 7 ≤ x.length ∧ x.take 7 = MessageHelloBarrier.CODE
  · rw [parse_dispatch_helloBarrier x hcodeB.1 hcodeB.2] at h
    cases hfb : MessageHelloBarrier.from_bytes x with
    | error e =>
      rw [hfb, emap_err] at h
      cases h
    | ok mm =>
      rw [hfb, emap_ok] at h
      cases h
      have hA := reenc_helloBarrier x mm hw hcodeB.2 hfb
      simp only [Message.payload_bytes]
      exact ⟨hA, fun he => by rw [hA, he, List.take_length]⟩
  by_cases hcodeS : 7 ≤ x.length ∧ x.take 7 = MessageHelloSynergy.CODE
  · rw [parse_dispatch_helloSynergy x hcodeS.1 hcodeS.2] at h
    cases hfb : MessageHelloSynergy.from_bytes x with
    | error e =>
      rw [hfb, emap_err] at h
      cases h
    | ok mm =>
      rw [hfb, emap_ok] at h
      cases h
      have hA := reenc_helloSynergy x mm hw hcodeS.2 hfb
      simp only [Message.payload_bytes]
      exact ⟨hA, fun he => by rw [hA, he, List.take_length]⟩
  cases hu : validUtf8 (x.take 4) with
  | false =>
    rw [parse_message, if_neg (by omega)] at h
    simp [hu] at h
  | true =>
    rw [parse_message_unknown x h4 hu hcode0 hcode1 hcode2 hcode3 hcode4 hcode5 hcode6 hcode7 hcode8 hcode9 hcode10 hcode11 hcode12 hcode13 hcode14 hcode15 hcode16 hcode17 hcode18 hcode19 hcode20 hcode21 hcode22 hcode23 hcode24 hcode25 hcode26 hcode27 hcode28 hcode29 hcodeB hcodeS] at h
    cases h

/-- C4 counterexample: the 5-byte payload "CALV"·0x00 (KeepAlive plus one
trailing byte) is accepted by `parse_message`, but re-encoding the decoded
message yields only the 4-byte code "CALV", not the original input. -/
theorem c4_counterexample :
    parse_message [67, 65, 76, 86, 0] = .ok (.KeepAlive {}) ∧
    Message.payload_bytes (.KeepAlive {}) ≠ [67, 65, 76, 86, 0] := by
  decide

theorem c4_reencode_witness :
    (∀ b ∈ ([67, 65, 76, 86, 0] : Bytes), b < 256) ∧
    parse_message [67, 65, 76, 86, 0] = .ok (.KeepAlive {}) ∧
    Message.payload_bytes (.KeepAlive {}) =
      ([67, 65, 76, 86, 0] : Bytes).take
        (Message.payload_bytes (.KeepAlive {})).length := by
  refine ⟨by decide, by decide, ?_⟩
  exact (c4_reencode [67, 65, 76, 86, 0] (.KeepAlive {}) (by decide) (by decide)).1
